import Mathlib

/-!
# UltraGrid RTP video session (`src/video_rxtx/rtp.cpp`)

A shallow embedding of `rtp_video_rxtx`: the bulk opening of the RTP endpoints
(`initialize_network`), their teardown (`destroy_rtp_devices`), the live
reconfiguration (`change_tx_port`) and the control dispatcher (`process_message`).

The RTP library, the participant database and the LDGM encoder are external to
the file. Their calls are recorded in a trace and their results are read from an
environment of oracles, so that every statement below holds for every behaviour
of these collaborators.

* a C string is the list of its characters before the terminating NUL;
* a NULL-terminated array of handles is the list of the handles before the
  terminator, a NULL array pointer is `none`;
* a C `int` is an integer of the range `-2^31 .. 2^31-1`; the result of `int` arithmetic is
  reduced into that range modulo `2^32` (`int32`), so the ports that the loop computes and
  the values of `atoi` are those of the 32-bit type;
* the counters of destinations (`required_connections`, `index`, `m_connections_count`) are
  natural numbers: they count items of the address string and stay below its length;
* a C `double` is given by its 64 bits (`CDouble`).
-/

namespace UltraGrid

/-- Contents of a C string, terminator excluded. -/
abbrev CStr := List Char

/-- Handle of an opened RTP session (`struct rtp *`), never NULL. -/
abbrev Handle := Nat

/-- Value that a C `int` (32 bits, two's complement) holds for the integer `x`: `x` itself
when it fits the type, otherwise `x` reduced modulo `2^32` into the range of the type. -/
def int32 (x : Int) : Int :=
  (x + 2147483648) % 4294967296 - 2147483648

/-- A C `double`, given by its 64 bits (IEEE 754 binary64). -/
structure CDouble where
  bits : Nat
deriving DecidableEq, Repr

/-- Libc `strtok_r(s, delim, &saveptr)`: `s` is the text the scan starts from (the string
itself on the first call, the saved pointer on the calls with a NULL first argument).
Returns the token (`none` for NULL) and the saved pointer after the call. -/
def strtok_r (s : CStr) (delim : CStr) : Option CStr × CStr :=
  match s.dropWhile (fun c => delim.contains c) with
  | [] => (none, [])
  | c :: cs =>
    let tok := (c :: cs).takeWhile (fun c => !delim.contains c)
    match (c :: cs).dropWhile (fun c => !delim.contains c) with
    | [] => (some tok, [])
    | _ :: rest => (some tok, rest)

/-- Arguments of one `rtp_init_if` call that the session chooses. -/
structure OpenReq where
  addr : Option CStr
  mcast_if : Option CStr
  rx_port : Int
  tx_port : Int
  use_ipv6 : Bool
deriving DecidableEq, Repr

/-- An RTP session that is currently open. -/
structure Endpoint where
  handle : Handle
  addr : Option CStr
  rx_port : Int
  tx_port : Int
deriving DecidableEq, Repr

/-- Calls into the collaborators, in the order they are made. -/
inductive Event where
  | rtp_init_if (req : OpenReq) (res : Option Handle)
  | rtp_set_option_weak_validation (h : Handle)
  | rtp_set_sdes_tool (h : Handle) (ssrc : Nat)
  | rtp_set_recv_buf (h : Handle) (size : Int) (ok : Bool)
  | display_buf_increase_warning (size : Int)
  | rtp_set_send_buf (h : Handle) (size : Int)
  | pdb_add (ssrc : Nat)
  | rtp_done (h : Handle)
  | rtp_change_dest (h : Handle) (addr : CStr) (ok : Bool)
  | ldgm_encoder_destroy (h : Handle)
  | ldgm_encoder_init_with_param (mtu_len data_len : Int) (loss_pct : CDouble)
      (res : Option Handle)
  | ldgm_encoder_init_with_cfg (cfg : CStr) (res : Option Handle)
  | exit_uv (status : Int)
deriving DecidableEq, Repr

/-- Behaviour of the collaborators and the constants of headers outside the file. -/
structure Env where
  /-- whether the `n`-th call of `rtp_init_if` (counted from 0) succeeds -/
  rtp_init_if_ok : Nat → OpenReq → Bool
  /-- identifier generated for an opened session (`rtp_my_ssrc`) -/
  rtp_my_ssrc : Handle → Nat
  /-- whether `rtp_set_recv_buf` succeeds on a session -/
  rtp_set_recv_buf_ok : Handle → Bool
  /-- whether `rtp_change_dest` succeeds -/
  rtp_change_dest_ok : Handle → CStr → Bool
  /-- whether the `n`-th LDGM encoder construction (counted from 0) returns a handle -/
  ldgm_init_ok : Nat → Bool
  /-- whether `tx_init` returns a transmitter -/
  tx_init_ok : Bool
  /-- value that libc `atof` returns for a text -/
  atof : CStr → CDouble
  INITIAL_VIDEO_RECV_BUFFER_SIZE : Int
  INITIAL_VIDEO_SEND_BUFFER_SIZE : Int
  RTP_MAX_MTU : Int

/-- State of the collaborators. -/
structure World where
  /-- every call made so far, oldest first -/
  trace : List Event
  /-- number of `rtp_init_if` calls made so far -/
  rtp_calls : Nat
  /-- RTP sessions opened and not yet closed -/
  live : List Endpoint
  /-- identifiers held by the participant database `m_participants` -/
  registry : List Nat
  /-- number of LDGM encoder constructions attempted so far -/
  ldgm_calls : Nat
  /-- LDGM encoders constructed and not yet destroyed -/
  ldgm_live : List Handle
  /-- status handed to `exit_uv`, if it was called -/
  should_exit : Option Int
deriving DecidableEq, Repr

/-- How a function of the session ends. -/
inductive Outcome (α : Type) where
  /-- normal return -/
  | returned (a : α)
  /-- a C++ exception leaves the function -/
  | thrown (what : String)
  /-- `abort()` or a failed `assert` -/
  | aborted
  /-- store through a NULL array pointer -/
  | fault
  /-- the iteration bound of the counting loop ran out (`initialize_network_terminates`
  shows that it never does) -/
  | diverged
deriving DecidableEq, Repr

/-- The world of a process that has called no collaborator yet. -/
def World.init : World :=
  { trace := [], rtp_calls := 0, live := [], registry := [], ldgm_calls := 0,
    ldgm_live := [], should_exit := none }

/-- Appends one call to the trace. -/
def World.log (w : World) (e : Event) : World :=
  { w with trace := w.trace ++ [e] }

/-- Modelled from the spec: `rtp_init_if` of the RTP library (`rtp/rtp.h`, not in the
file), the spec's `open(...) → handle or failure`. Whether a call succeeds is read from
`env`; a successful call returns a fresh handle, the number of the call, and the endpoint is
open from then on. -/
def rtp_init_if (env : Env) (w : World) (req : OpenReq) : Option Handle × World :=
  if env.rtp_init_if_ok w.rtp_calls req then
    (some w.rtp_calls,
     { w with trace := w.trace ++ [Event.rtp_init_if req (some w.rtp_calls)],
              rtp_calls := w.rtp_calls + 1,
              live := w.live ++ [⟨w.rtp_calls, req.addr, req.rx_port, req.tx_port⟩] })
  else
    (none,
     { w with trace := w.trace ++ [Event.rtp_init_if req none],
              rtp_calls := w.rtp_calls + 1 })

/-- Modelled from the spec: `rtp_done` of the RTP library, the spec's `close(handle)`. -/
def rtp_done (w : World) (h : Handle) : World :=
  { w with trace := w.trace ++ [Event.rtp_done h],
           live := w.live.filter (fun e => e.handle != h) }

/-- Modelled from the spec: `pdb_add` of `pdb.h`, whose definition is not in the file.
The spec's `Add(identifier)` "inserts a new record". -/
def pdb_add (w : World) (ssrc : Nat) : World :=
  { w with trace := w.trace ++ [Event.pdb_add ssrc],
           registry := w.registry ++ [ssrc] }

/-- The counting loop `while(strtok_r(NULL, ",", &saveptr) != NULL) ++required_connections;`
with an iteration bound; `none` when the bound runs out. -/
def count_loop : Nat → CStr → Nat → Option Nat
  | 0, _, _ => none
  | fuel + 1, saveptr, required_connections =>
    match strtok_r saveptr [','] with
    | (none, _) => some required_connections
    | (some _, saveptr') => count_loop fuel saveptr' (required_connections + 1)

/-- Local variables of the opening loop of `initialize_network`. `devices` is `none` for a
NULL pointer; `some ds` is the allocated array whose slots `0 .. index-1` hold `ds`. -/
structure LoopState where
  index : Nat
  addr : Option CStr
  saveptr : CStr
  recv_port : Int
  send_port : Int
  devices : Option (List Handle)
deriving DecidableEq, Repr

/-- Success branch of the loop body (`devices[index] != NULL`). -/
def setup_device (env : Env) (w : World) (h : Handle) : World :=
  let w := w.log (Event.rtp_set_option_weak_validation h)
  let w := w.log (Event.rtp_set_sdes_tool h (env.rtp_my_ssrc h))
  let size := env.INITIAL_VIDEO_RECV_BUFFER_SIZE
  let ret := env.rtp_set_recv_buf_ok h
  let w := w.log (Event.rtp_set_recv_buf h env.INITIAL_VIDEO_RECV_BUFFER_SIZE ret)
  let w := if !ret then w.log (Event.display_buf_increase_warning size) else w
  let w := w.log (Event.rtp_set_send_buf h env.INITIAL_VIDEO_SEND_BUFFER_SIZE)
  pdb_add w (env.rtp_my_ssrc h)

/-- Failure branch of the loop body:
`for(index_nest = 0; index_nest < index; ++index_nest) rtp_done(devices[index_nest]);` -/
def rollback_devices (w : World) (devices : List Handle) (index : Nat) : World :=
  (devices.take index).foldl rtp_done w

/-- The `for` loop of `initialize_network`; the first argument is the number of
iterations left, `required_connections - index`. The body has no `break`: after the
failure branch has set `devices = NULL` the next iteration, if there is one, calls
`rtp_init_if` and stores its result in `devices[index]` through the NULL pointer, which is
the outcome `fault`. After the last iteration the function returns `devices`. The ports are
C `int` variables: `recv_port_base + 2` and `recv_port += 2` are computed in `int32`. -/
def open_loop (env : Env) (recv_port_base send_port_base : Int) (use_ipv6 : Bool)
    (mcast_if : Option CStr) : Nat → LoopState → World → Outcome (Option (List Handle)) × World
  | 0, st, w => (Outcome.returned st.devices, w)
  | n + 1, st, w =>
    let recv_port :=
      if st.recv_port = int32 (recv_port_base + 2) then int32 (st.recv_port + 2) else st.recv_port
    let send_port :=
      if st.send_port = int32 (send_port_base + 2) then int32 (st.send_port + 2) else st.send_port
    let r := rtp_init_if env w ⟨st.addr, mcast_if, recv_port, send_port, use_ipv6⟩
    match st.devices with
    | none => (Outcome.fault, r.2)
    | some ds =>
      let next := strtok_r st.saveptr [',']
      match r.1 with
      | some h =>
        open_loop env recv_port_base send_port_base use_ipv6 mcast_if n
          ⟨st.index + 1, next.1, next.2, int32 (recv_port + 2), int32 (send_port + 2),
            some (ds ++ [h])⟩
          (setup_device env r.2 h)
      | none =>
        open_loop env recv_port_base send_port_base use_ipv6 mcast_if n
          ⟨st.index + 1, next.1, next.2, int32 (recv_port + 2), int32 (send_port + 2), none⟩
          (rollback_devices r.2 ds st.index)

/-- `rtp_video_rxtx::initialize_network`. -/
def initialize_network (env : Env) (addrs : CStr) (recv_port_base send_port_base : Int)
    (use_ipv6 : Bool) (mcast_if : Option CStr) (w : World) :
    Outcome (Option (List Handle)) × World :=
  match strtok_r addrs [','] with
  | (none, _) => (Outcome.returned none, w)
  | (some _, saveptr) =>
    match count_loop (addrs.length + 1) saveptr 1 with
    | none => (Outcome.diverged, w)
    | some required_connections =>
      let first := strtok_r addrs [',']
      open_loop env recv_port_base send_port_base use_ipv6 mcast_if required_connections
        ⟨0, first.1, first.2, recv_port_base, send_port_base, some []⟩ w

/-- `rtp_video_rxtx::destroy_rtp_devices`. -/
def destroy_rtp_devices (w : World) (network_devices : Option (List Handle)) : World :=
  match network_devices with
  | none => w
  | some devices => devices.foldl rtp_done w

/-- Libc `strncmp(a, b, n) == 0` on NUL-free strings. -/
def strncmp_eq0 (a b : CStr) (n : Nat) : Bool :=
  a.take n == b.take n

/-- Libc `isspace` in the C locale. -/
def isspace (c : Char) : Bool :=
  c == ' ' || (9 ≤ c.toNat && c.toNat ≤ 13)

/-- Value of the leading run of decimal digits. -/
def atoi_digits : CStr → Int → Int
  | [], acc => acc
  | c :: cs, acc => if c.isDigit then atoi_digits cs (acc * 10 + (c.toNat - 48 : Nat)) else acc

/-- Libc `strtol(s, NULL, 10)` with a 64-bit `long`: leading white space, an optional sign,
decimal digits; a value outside the type is replaced by `LONG_MAX` or `LONG_MIN`. -/
def strtol (s : CStr) : Int :=
  let value : Int :=
    match s.dropWhile isspace with
    | '-' :: cs => - atoi_digits cs 0
    | '+' :: cs => atoi_digits cs 0
    | cs => atoi_digits cs 0
  if value > 9223372036854775807 then 9223372036854775807
  else if value < -9223372036854775808 then -9223372036854775808
  else value

/-- Libc `atoi`, which is `(int) strtol(s, NULL, 10)`: the result is a C `int`. -/
def atoi (s : CStr) : Int :=
  int32 (strtol s)

/-- Modelled from the spec: `ldgm_encoder_destroy` of `rtp/ldgm.h` (not in the file), the
spec's `destroy(handle)`. -/
def ldgm_encoder_destroy (w : World) (h : Handle) : World :=
  { w with trace := w.trace ++ [Event.ldgm_encoder_destroy h],
           ldgm_live := w.ldgm_live.filter (fun e => e != h) }

/-- Modelled from the spec: the two encoder constructors of `rtp/ldgm.h` (not in the file),
the spec's `construct-... → handle or null`. Whether a call succeeds is read from `env`; a
successful call returns a fresh handle, the number of the call; `ev` is the trace entry of
the call. -/
def ldgm_encoder_construct (env : Env) (w : World) (ev : Option Handle → Event) :
    Option Handle × World :=
  if env.ldgm_init_ok w.ldgm_calls then
    (some w.ldgm_calls,
     { w with trace := w.trace ++ [ev (some w.ldgm_calls)],
              ldgm_calls := w.ldgm_calls + 1,
              ldgm_live := w.ldgm_live ++ [w.ldgm_calls] })
  else
    (none, { w with trace := w.trace ++ [ev none], ldgm_calls := w.ldgm_calls + 1 })

/-- `ldgm_encoder_init_with_param(mtu_len, data_len, loss_pct)`. -/
def ldgm_encoder_init_with_param (env : Env) (w : World) (mtu_len data_len : Int)
    (loss_pct : CDouble) : Option Handle × World :=
  ldgm_encoder_construct env w (Event.ldgm_encoder_init_with_param mtu_len data_len loss_pct)

/-- `ldgm_encoder_init_with_cfg(cfg)`. -/
def ldgm_encoder_init_with_cfg (env : Env) (w : World) (cfg : CStr) : Option Handle × World :=
  ldgm_encoder_construct env w (Event.ldgm_encoder_init_with_cfg cfg)

/-- Modelled from the spec: `exit_uv(status)` of `host.h` (not in the file), the
session-level shutdown signal; it records the status and returns. -/
def exit_uv (w : World) (status : Int) : World :=
  { w with trace := w.trace ++ [Event.exit_uv status], should_exit := some status }

/-- Modelled from the spec: `rtp_change_dest` of the RTP library, which retargets the
endpoint's destination in place; whether it succeeds is read from `env`. -/
def rtp_change_dest (env : Env) (w : World) (h : Handle) (addr : CStr) : Bool × World :=
  let ok := env.rtp_change_dest_ok h addr
  (ok,
   { w with trace := w.trace ++ [Event.rtp_change_dest h addr ok],
            live := if ok then
                      w.live.map (fun e => if e.handle = h then { e with addr := some addr } else e)
                    else w.live })

/-- Members of `rtp_video_rxtx` (`m_participants` is `World.registry`). -/
structure Session where
  m_network_devices : Option (List Handle)
  m_connections_count : Nat
  m_requested_receiver : CStr
  m_recv_port_number : Int
  m_send_port_number : Int
  m_ipv6 : Bool
  m_requested_mcast_if : Option CStr
  m_paused : Bool
  m_ldgm_state : Option Handle
deriving DecidableEq, Repr

/-- Control messages (`struct msg_sender`). -/
inductive Msg where
  | SENDER_MSG_CHANGE_RECEIVER (receiver : CStr)
  | SENDER_MSG_CHANGE_PORT (port : Int)
  | SENDER_MSG_PAUSE
  | SENDER_MSG_PLAY
  | SENDER_MSG_CHANGE_LDGM (ldgm_cfg : CStr)
deriving DecidableEq, Repr

/-- `rtp_video_rxtx::change_tx_port` (the lock guard is not modelled). When
`initialize_network` does not return, the member `m_network_devices` is not assigned. The
text of the exception is given without its final newline. -/
def change_tx_port (env : Env) (s : Session) (w : World) (tx_port : Int) :
    Outcome Unit × Session × World :=
  let w1 := destroy_rtp_devices w s.m_network_devices
  let s1 := { s with m_send_port_number := tx_port }
  let r := initialize_network env s1.m_requested_receiver s1.m_recv_port_number
    s1.m_send_port_number s1.m_ipv6 s1.m_requested_mcast_if w1
  match r.1 with
  | Outcome.returned devices =>
    let s2 := { s1 with m_network_devices := devices }
    match devices with
    | none => (Outcome.thrown "Changing RX port failed!", s2, r.2)
    | some _ => (Outcome.returned (), s2, r.2)
  | Outcome.thrown what => (Outcome.thrown what, s1, r.2)
  | Outcome.aborted => (Outcome.aborted, s1, r.2)
  | Outcome.fault => (Outcome.fault, s1, r.2)
  | Outcome.diverged => (Outcome.diverged, s1, r.2)

/-- The text `"percents "`. -/
def PERCENTS : CStr := ['p', 'e', 'r', 'c', 'e', 'n', 't', 's', ' ']

/-- The text `"cfg "`. -/
def CFG : CStr := ['c', 'f', 'g', ' ']

/-- End of the `SENDER_MSG_CHANGE_LDGM` case: the constructor's result is stored and a
NULL result calls `exit_uv(1)`. -/
def store_ldgm_state (s : Session) (r : Option Handle × World) :
    Outcome Unit × Session × World :=
  let s1 := { s with m_ldgm_state := r.1 }
  match r.1 with
  | none => (Outcome.returned (), s1, exit_uv r.2 1)
  | some _ => (Outcome.returned (), s1, r.2)

/-- `rtp_video_rxtx::process_message`; `assert` is compiled in (no `NDEBUG`), a failed
assertion aborts. In `SENDER_MSG_CHANGE_RECEIVER`, reading `m_network_devices[0]` from a
NULL or empty array is a fault. -/
def process_message (env : Env) (s : Session) (w : World) (msg : Msg) :
    Outcome Unit × Session × World :=
  match msg with
  | Msg.SENDER_MSG_CHANGE_RECEIVER receiver =>
    if s.m_connections_count = 1 then
      match s.m_network_devices with
      | some (h :: _) =>
        let r := rtp_change_dest env w h receiver
        (Outcome.returned (), s, r.2)
      | _ => (Outcome.fault, s, w)
    else (Outcome.aborted, s, w)
  | Msg.SENDER_MSG_CHANGE_PORT port => change_tx_port env s w port
  | Msg.SENDER_MSG_PAUSE => (Outcome.returned (), { s with m_paused := true }, w)
  | Msg.SENDER_MSG_PLAY => (Outcome.returned (), { s with m_paused := false }, w)
  | Msg.SENDER_MSG_CHANGE_LDGM ldgm_cfg =>
    let w1 := match s.m_ldgm_state with
      | some h => ldgm_encoder_destroy w h
      | none => w
    if strncmp_eq0 ldgm_cfg PERCENTS PERCENTS.length then
      let ptr := ldgm_cfg.drop PERCENTS.length
      match strtok_r ptr [' '] with
      | (none, _) => (Outcome.aborted, s, w1)
      | (some item1, save_ptr1) =>
        let mtu_len := atoi item1
        match strtok_r save_ptr1 [' '] with
        | (none, _) => (Outcome.aborted, s, w1)
        | (some item2, save_ptr2) =>
          let data_len := atoi item2
          match strtok_r save_ptr2 [' '] with
          | (none, _) => (Outcome.aborted, s, w1)
          | (some item3, _) =>
            let loss_pct := env.atof item3
            store_ldgm_state s (ldgm_encoder_init_with_param env w1 mtu_len data_len loss_pct)
    else if strncmp_eq0 ldgm_cfg CFG CFG.length then
      store_ldgm_state s (ldgm_encoder_init_with_cfg env w1 (ldgm_cfg.drop CFG.length))
    else (Outcome.aborted, s, w1)

/-- Arguments of the constructor that the session keeps or checks. -/
structure CtorArgs where
  receiver : CStr
  rx_port : Int
  tx_port : Int
  use_ipv6 : Bool
  mcast_if : Option CStr
  requested_mtu : Int
deriving DecidableEq, Repr

/-- Modelled from the spec: `pdb_init` of `pdb.h`, not in the file; the registry of a new
session is empty. -/
def pdb_init (w : World) : World :=
  { w with registry := [] }

/-- `rtp_video_rxtx::rtp_video_rxtx`, up to the final `check_sender_messages()`, which
dispatches the messages already queued through `process_message`. The text of the first
exception is given without the number it ends with. -/
def rtp_video_rxtx (env : Env) (a : CtorArgs) (w : World) : Outcome Session × World :=
  if a.requested_mtu > env.RTP_MAX_MTU then
    (Outcome.thrown "Requested MTU exceeds maximal value allowed by RTP library", w)
  else
    let w1 := pdb_init w
    let r := initialize_network env a.receiver a.rx_port a.tx_port a.use_ipv6 a.mcast_if w1
    match r.1 with
    | Outcome.returned none => (Outcome.thrown "Unable to open network", r.2)
    | Outcome.returned (some devices) =>
      if env.tx_init_ok then
        (Outcome.returned
          { m_network_devices := some devices, m_connections_count := devices.length,
            m_requested_receiver := a.receiver, m_recv_port_number := a.rx_port,
            m_send_port_number := a.tx_port, m_ipv6 := a.use_ipv6,
            m_requested_mcast_if := a.mcast_if, m_paused := false, m_ldgm_state := none },
         r.2)
      else (Outcome.thrown "Unable to initialize transmitter", r.2)
    | Outcome.thrown what => (Outcome.thrown what, r.2)
    | Outcome.aborted => (Outcome.aborted, r.2)
    | Outcome.fault => (Outcome.fault, r.2)
    | Outcome.diverged => (Outcome.diverged, r.2)

/-- States of a constructed session that `process_message` returns to normally. -/
inductive Reachable (env : Env) (a : CtorArgs) : Session → World → Prop where
  | ctor {s : Session} {w : World} :
      rtp_video_rxtx env a World.init = (Outcome.returned s, w) → Reachable env a s w
  | step {s s1 : Session} {w w1 : World} (msg : Msg) :
      Reachable env a s w →
      process_message env s w msg = (Outcome.returned (), s1, w1) → Reachable env a s1 w1

/-- The non-empty items of a string separated by the character `d`, in the order they are
written. -/
def tokens (d : Char) (s : CStr) : List CStr :=
  (s.splitOn d).filter (fun t => !t.isEmpty)

/-- The destination list of an address string: its non-empty comma-separated items. -/
def destinations (addrs : CStr) : List CStr :=
  tokens ',' addrs

/-- Port of the endpoint at index `k` for base `B`, in the words of the spec: index 0 uses
`B`, index 1 uses `B+4`, index `k≥2` uses `B+2+2k`. -/
def port_rule (B : Int) (k : Nat) : Int :=
  if k = 0 then B else if k = 1 then B + 4 else B + 2 + 2 * k

/-- Value of `recv_port` (or `send_port`) at the top of iteration `k` of the opening loop
for base `B`, before the audio block is skipped, as the loop computes it in C `int`
arithmetic. -/
def port_before_skip (B : Int) : Nat → Int
  | 0 => B
  | k + 1 =>
    int32 ((if port_before_skip B k = int32 (B + 2) then int32 (port_before_skip B k + 2)
            else port_before_skip B k) + 2)

/-- Port that iteration `k` of the opening loop passes to `rtp_init_if` for base `B`: the
value at the top of the iteration after the audio block is skipped. -/
def port_at (B : Int) (k : Nat) : Int :=
  if port_before_skip B k = int32 (B + 2) then int32 (port_before_skip B k + 2)
  else port_before_skip B k

/-- Every port that the opening loop computes for `N` destinations from base `B` fits a C
`int`: the base is a value of the type and the largest value, `B + 2 + 2N`, does not exceed
`INT_MAX`. Every port base of the port range (`0 .. 65535`) satisfies it for every number of
destinations below `2^30 - 2^15`. -/
def ports_fit (B : Int) (N : Nat) : Prop :=
  -2147483648 ≤ B ∧ B + 2 + 2 * (N : Int) ≤ 2147483647

instance ports_fit_decidable (B : Int) (N : Nat) : Decidable (ports_fit B N) :=
  inferInstanceAs (Decidable (-2147483648 ≤ B ∧ B + 2 + 2 * (N : Int) ≤ 2147483647))

/-- Requests of the `rtp_init_if` calls in the trace, oldest first. -/
def open_requests (w : World) : List OpenReq :=
  w.trace.filterMap (fun e => match e with
    | Event.rtp_init_if req _ => some req
    | _ => none)

/-- Handles returned by the successful `rtp_init_if` calls in the trace, oldest first. -/
def opened (w : World) : List Handle :=
  w.trace.filterMap (fun e => match e with
    | Event.rtp_init_if _ (some h) => some h
    | _ => none)

/-- Handles passed to `rtp_done` in the trace, oldest first. -/
def closed (w : World) : List Handle :=
  w.trace.filterMap (fun e => match e with
    | Event.rtp_done h => some h
    | _ => none)

/-- Trace entries of the success branch of the loop body. -/
def setup_events (env : Env) (h : Handle) : List Event :=
  [Event.rtp_set_option_weak_validation h,
   Event.rtp_set_sdes_tool h (env.rtp_my_ssrc h),
   Event.rtp_set_recv_buf h env.INITIAL_VIDEO_RECV_BUFFER_SIZE (env.rtp_set_recv_buf_ok h)] ++
  (if env.rtp_set_recv_buf_ok h then []
   else [Event.display_buf_increase_warning env.INITIAL_VIDEO_RECV_BUFFER_SIZE]) ++
  [Event.rtp_set_send_buf h env.INITIAL_VIDEO_SEND_BUFFER_SIZE,
   Event.pdb_add (env.rtp_my_ssrc h)]

/-- Endpoints opened for the destinations `ts`, the first at index `i` with handle `h`. -/
def expected_endpoints (rb sb : Int) : Nat → Handle → List CStr → List Endpoint
  | _, _, [] => []
  | i, h, t :: ts =>
    ⟨h, some t, port_at rb i, port_at sb i⟩ :: expected_endpoints rb sb (i + 1) (h + 1) ts

/-- Request of the `rtp_init_if` call of iteration `i` for the destination `t`. -/
def request_at (rb sb : Int) (use_ipv6 : Bool) (mcast_if : Option CStr) (i : Nat) (t : CStr) :
    OpenReq :=
  ⟨some t, mcast_if, port_at rb i, port_at sb i, use_ipv6⟩

/-- Requests made for the destinations `ts`, the first at index `i`. -/
def expected_requests (rb sb : Int) (use_ipv6 : Bool) (mcast_if : Option CStr) :
    Nat → List CStr → List OpenReq
  | _, [] => []
  | i, t :: ts =>
    request_at rb sb use_ipv6 mcast_if i t :: expected_requests rb sb use_ipv6 mcast_if (i + 1) ts

/-- Loop variables at the top of iteration `st.index` of the opening loop, `ts` being the
destinations that are not opened yet. -/
structure LoopInv (rb sb : Int) (ts : List CStr) (st : LoopState) : Prop where
  addr_eq : st.addr = ts.head?
  saveptr_eq : destinations st.saveptr = ts.tail
  recv_port_eq : st.recv_port = port_before_skip rb st.index
  send_port_eq : st.send_port = port_before_skip sb st.index
  index_eq : ∀ ds, st.devices = some ds → ds.length = st.index

/-- Loop variables after the increment expression of the `for` statement. -/
def next_state (rb sb : Int) (st : LoopState) (devices : Option (List Handle)) : LoopState :=
  ⟨st.index + 1, (strtok_r st.saveptr [',']).1, (strtok_r st.saveptr [',']).2,
   int32 (port_at rb st.index + 2), int32 (port_at sb st.index + 2), devices⟩

/-- Effect on the collaborators of opening every destination of `ts` with success, the
first at index `i`: `w` before, `w1` after. -/
structure OpensAll (env : Env) (rb sb : Int) (use_ipv6 : Bool) (mcast_if : Option CStr)
    (i : Nat) (ts : List CStr) (w w1 : World) : Prop where
  rtp_calls_eq : w1.rtp_calls = w.rtp_calls + ts.length
  live_eq : w1.live = w.live ++ expected_endpoints rb sb i w.rtp_calls ts
  registry_eq : w1.registry = w.registry ++ (List.range' w.rtp_calls ts.length).map env.rtp_my_ssrc
  requests_eq : open_requests w1 = open_requests w ++ expected_requests rb sb use_ipv6 mcast_if i ts
  opened_eq : opened w1 = opened w ++ List.range' w.rtp_calls ts.length
  closed_eq : closed w1 = closed w
  ldgm_calls_eq : w1.ldgm_calls = w.ldgm_calls
  ldgm_live_eq : w1.ldgm_live = w.ldgm_live
  should_exit_eq : w1.should_exit = w.should_exit

/-- Collaborators that succeed on every call. Their `atof` gives the text `5.0` the
`double` 5.0 (bits `0x4014000000000000`) and every other text `+0.0`. -/
def env_ok : Env :=
  { rtp_init_if_ok := fun _ _ => true,
    rtp_my_ssrc := fun h => 1000 + h,
    rtp_set_recv_buf_ok := fun _ => true,
    rtp_change_dest_ok := fun _ _ => true,
    ldgm_init_ok := fun _ => true,
    tx_init_ok := true,
    atof := fun s => if s = ['5', '.', '0'] then ⟨4617315517961601024⟩ else ⟨0⟩,
    INITIAL_VIDEO_RECV_BUFFER_SIZE := 5944320,
    INITIAL_VIDEO_SEND_BUFFER_SIZE := 1048576,
    RTP_MAX_MTU := 9000 }

/-- Collaborators that succeed on every call but the `k`-th `rtp_init_if` (counted from 0). -/
def env_fail_at (k : Nat) : Env :=
  { env_ok with rtp_init_if_ok := fun n _ => n != k }

/-- Collaborators that succeed on every call but `rtp_set_recv_buf`, which always fails. -/
def env_small_buf : Env :=
  { env_ok with rtp_set_recv_buf_ok := fun _ => false }

/-- The session holds an endpoint set opened from its destination string: the handles of
`m_network_devices` are the open endpoints, one per destination, on the ports that the
opening loop computes from the stored bases. -/
structure SessionOpen (s : Session) (w : World) : Prop where
  devices_eq : s.m_network_devices = some (w.live.map Endpoint.handle)
  count_eq : s.m_connections_count = w.live.length
  dests_eq : w.live.length = (destinations s.m_requested_receiver).length
  nonempty : destinations s.m_requested_receiver ≠ []
  rx_eq : w.live.map Endpoint.rx_port =
    (List.range w.live.length).map (port_at s.m_recv_port_number)
  tx_eq : w.live.map Endpoint.tx_port =
    (List.range w.live.length).map (port_at s.m_send_port_number)

/-- Constructor arguments of a session towards the two destinations `a,b`. -/
def args_ab : CtorArgs :=
  { receiver := ['a', ',', 'b'], rx_port := 5004, tx_port := 5004, use_ipv6 := false,
    mcast_if := none, requested_mtu := 1500 }

/-- The session that the constructor builds from `args_ab`. -/
def session_ab : Session :=
  { m_network_devices := some [0, 1], m_connections_count := 2,
    m_requested_receiver := ['a', ',', 'b'], m_recv_port_number := 5004,
    m_send_port_number := 5004, m_ipv6 := false, m_requested_mcast_if := none,
    m_paused := false, m_ldgm_state := none }

/-- The collaborators after the constructor has run on `args_ab` with every call
succeeding. -/
def world_ab : World :=
  (rtp_video_rxtx env_ok args_ab World.init).2

/-- Constructor arguments of a session towards the single destination `a`. -/
def args_a : CtorArgs :=
  { receiver := ['a'], rx_port := 5004, tx_port := 5004, use_ipv6 := false,
    mcast_if := none, requested_mtu := 1500 }

/-- The session that the constructor builds from `args_a`. -/
def session_a : Session :=
  { m_network_devices := some [0], m_connections_count := 1,
    m_requested_receiver := ['a'], m_recv_port_number := 5004,
    m_send_port_number := 5004, m_ipv6 := false, m_requested_mcast_if := none,
    m_paused := false, m_ldgm_state := none }

/-- The collaborators after the constructor has run on `args_a` with every call
succeeding. -/
def world_a : World :=
  (rtp_video_rxtx env_ok args_a World.init).2

/-- What ties the registry to the endpoints between two messages: the registry holds the
identifier of every handle that `rtp_init_if` has returned, in the order of the calls;
these handles are distinct and below the call counter, and every open endpoint is one of
them. -/
structure RegistryInv (env : Env) (w : World) : Prop where
  registry_eq : w.registry = (opened w).map env.rtp_my_ssrc
  opened_lt : ∀ h ∈ opened w, h < w.rtp_calls
  opened_nodup : (opened w).Nodup
  live_opened : ∀ e ∈ w.live, e.handle ∈ opened w

/-- The session towards `a,b` after change-send-port(6000), every call succeeding. -/
def after_port_ab : Outcome Unit × Session × World :=
  process_message env_ok session_ab world_ab (Msg.SENDER_MSG_CHANGE_PORT 6000)

/-- The step from `w` to `w1` made no call on the endpoints or the registry. -/
structure EndpointsUntouched (w w1 : World) : Prop where
  opened_eq : opened w1 = opened w
  closed_eq : closed w1 = closed w
  registry_eq : w1.registry = w.registry
  rtp_calls_eq : w1.rtp_calls = w.rtp_calls
  live_eq : w1.live = w.live

/-- Handles passed to `ldgm_encoder_destroy` in the trace, oldest first. -/
def ldgm_destroyed (w : World) : List Handle :=
  w.trace.filterMap (fun e => match e with
    | Event.ldgm_encoder_destroy h => some h
    | _ => none)

/-- A change-fec string of the grammar of the spec: `percents ` followed by at least three
items separated by spaces, or `cfg ` followed by a profile. -/
def ldgm_cfg_well_formed (ldgm_cfg : CStr) : Prop :=
  (ldgm_cfg.take PERCENTS.length = PERCENTS ∧
      3 ≤ (tokens ' ' (ldgm_cfg.drop PERCENTS.length)).length) ∨
    ldgm_cfg.take CFG.length = CFG

/-- The step from `w` to `w1` made no call on the LDGM encoder. -/
structure LdgmUntouched (w w1 : World) : Prop where
  destroyed_eq : ldgm_destroyed w1 = ldgm_destroyed w
  ldgm_calls_eq : w1.ldgm_calls = w.ldgm_calls
  ldgm_live_eq : w1.ldgm_live = w.ldgm_live

/-- What ties the session to the encoders between two messages: the live encoders are the
one that `m_ldgm_state` holds, if any, and every handle that was live or destroyed came
from an earlier construction. -/
structure LdgmInv (s : Session) (w : World) : Prop where
  own : w.ldgm_live = s.m_ldgm_state.toList
  known : ∀ h, h ∈ ldgm_destroyed w ∨ h ∈ w.ldgm_live → h < w.ldgm_calls

/-- The collaborators after the first statement of the `SENDER_MSG_CHANGE_LDGM` case: the
encoder that `m_ldgm_state` holds, if any, has been destroyed. -/
def after_ldgm_destroy (s : Session) (w : World) : World :=
  match s.m_ldgm_state with
  | some h => ldgm_encoder_destroy w h
  | none => w

/-- Collaborators that succeed on every call but the LDGM encoder constructors, which
return no handle. -/
def env_no_ldgm : Env :=
  { env_ok with ldgm_init_ok := fun _ => false }

/-- The session towards `a` after the message change-fec `percents 1500 1450 5.0`, every
call succeeding: it holds the encoder 0. -/
def after_percents_a : Outcome Unit × Session × World :=
  process_message env_ok session_a world_a
    (Msg.SENDER_MSG_CHANGE_LDGM "percents 1500 1450 5.0".toList)

/-- The non-empty items of a string separated by white space (`isspace`), in the order they
are written: the tokens of the spec's grammar `percents <mtu> <payload> <loss_pct>`. -/
def whitespace_tokens (s : CStr) : List CStr :=
  (s.splitOnP isspace).filter (fun t => !t.isEmpty)

/-- Requests of the `rtp_init_if` calls that one call of `initialize_network` makes, in the
order of the calls. -/
def requests_made (env : Env) (addrs : CStr) (recv_port_base send_port_base : Int)
    (use_ipv6 : Bool) (mcast_if : Option CStr) (w : World) : List OpenReq :=
  (open_requests
    (initialize_network env addrs recv_port_base send_port_base use_ipv6 mcast_if w).2).drop
    (open_requests w).length

/-! ## Lemmas -/

theorem tokens_nil (d : Char) : tokens d [] = [] := by
  simp [tokens]

theorem tokens_delim (d : Char) (s : CStr) : tokens d (d :: s) = tokens d s := by
  simp [tokens, List.splitOn, List.splitOnP_cons]

theorem strtok_r_delim (d : Char) (s : CStr) : strtok_r (d :: s) [d] = strtok_r s [d] := by
  simp [strtok_r, List.dropWhile]

theorem tokens_of_token (d : Char) (p : Char → Bool) (hp : ∀ x, p x = true ↔ x ≠ d)
    (c : Char) (cs : CStr) (hc : c ≠ d) :
    tokens d (c :: cs) =
      (c :: cs).takeWhile p :: tokens d ((c :: cs).dropWhile p).tail := by
  have hsplit := List.takeWhile_append_dropWhile p (c :: cs)
  have htok : ∀ x ∈ (c :: cs).takeWhile p, ¬ ((· == d) x) = true := by
    intro x hx
    have := (hp x).1 (List.mem_takeWhile_imp hx)
    simpa using this
  have hne : (c :: cs).takeWhile p ≠ [] := by
    rw [List.takeWhile_cons, (hp c).2 hc]; simp
  cases hrest : (c :: cs).dropWhile p with
  | nil =>
    rw [hrest, List.append_nil] at hsplit
    have h1 : (c :: cs).splitOnP (· == d) = [c :: cs] := by
      apply List.splitOnP_eq_single
      intro x hx
      exact htok x (by rw [hsplit]; exact hx)
    rw [hsplit]
    simp [tokens, List.splitOn, h1]
  | cons x r =>
    have hx : x = d := by
      have h0 := List.head_dropWhile_not p (c :: cs) (by rw [hrest]; simp)
      simp only [hrest, List.head_cons] at h0
      by_contra hne
      rw [(hp x).2 hne] at h0
      exact absurd h0 (by simp)
    subst hx
    rw [hrest] at hsplit
    have h1 := List.splitOnP_first (· == x) _ htok x (by simp) r
    rw [hsplit] at h1
    have hne2 : (!((c :: cs).takeWhile p).isEmpty) = true := by
      cases h : (c :: cs).takeWhile p with
      | nil => exact absurd h hne
      | cons a b => rfl
    simp only [tokens, List.splitOn, h1, List.tail_cons]
    simp only [List.filter_cons, hne2, ↓reduceIte]

theorem strtok_r_of_token (delim : CStr) (c : Char) (cs : CStr) (hc : delim.contains c = false) :
    strtok_r (c :: cs) delim =
      (some ((c :: cs).takeWhile (fun x => !delim.contains x)),
       ((c :: cs).dropWhile (fun x => !delim.contains x)).tail) := by
  have hd : (c :: cs).dropWhile (fun x => delim.contains x) = c :: cs := by
    rw [List.dropWhile_cons, hc]; rfl
  unfold strtok_r
  rw [hd]
  dsimp only
  cases hrest : (c :: cs).dropWhile (fun x => !delim.contains x) <;> rfl

theorem strtok_r_fst_tokens (d : Char) (s : CStr) :
    (strtok_r s [d]).1 = (tokens d s).head? := by
  induction s with
  | nil => simp [strtok_r, tokens_nil]
  | cons c cs ih =>
    by_cases hc : c = d
    · subst hc; rw [strtok_r_delim, tokens_delim]; exact ih
    · rw [tokens_of_token d (fun x => !([d].contains x)) (by simp) c cs hc,
        strtok_r_of_token [d] c cs (by simp [hc])]
      rfl

theorem strtok_r_snd_tokens (d : Char) (s : CStr) :
    tokens d (strtok_r s [d]).2 = (tokens d s).tail := by
  induction s with
  | nil => simp [strtok_r, tokens_nil]
  | cons c cs ih =>
    by_cases hc : c = d
    · subst hc; rw [strtok_r_delim, tokens_delim]; exact ih
    · rw [tokens_of_token d (fun x => !([d].contains x)) (by simp) c cs hc,
        strtok_r_of_token [d] c cs (by simp [hc])]
      rfl

theorem strtok_r_fst (s : CStr) : (strtok_r s [',']).1 = (destinations s).head? :=
  strtok_r_fst_tokens ',' s

theorem strtok_r_snd (s : CStr) : destinations (strtok_r s [',']).2 = (destinations s).tail :=
  strtok_r_snd_tokens ',' s

theorem strtok_r_snd_length (s delim : CStr) (h : (strtok_r s delim).1 ≠ none) :
    (strtok_r s delim).2.length < s.length := by
  unfold strtok_r at h ⊢
  cases hd : s.dropWhile (fun c => delim.contains c) with
  | nil => rw [hd] at h; exact absurd rfl h
  | cons c cs =>
    have hlen : (c :: cs).length ≤ s.length := by
      rw [← hd]; exact (List.dropWhile_sublist _).length_le
    dsimp only
    cases hr : (c :: cs).dropWhile (fun c => !delim.contains c) with
    | nil =>
      dsimp only
      simp only [List.length_cons, List.length_nil] at hlen ⊢; omega
    | cons x r =>
      have : (x :: r).length ≤ (c :: cs).length := by
        rw [← hr]; exact (List.dropWhile_sublist _).length_le
      dsimp only
      simp only [List.length_cons] at this hlen ⊢; omega

theorem count_loop_eq (fuel : Nat) (saveptr : CStr) (n : Nat) (h : saveptr.length < fuel) :
    count_loop fuel saveptr n = some (n + (destinations saveptr).length) := by
  induction fuel generalizing saveptr n with
  | zero => omega
  | succ f ih =>
    unfold count_loop
    have h1 := strtok_r_fst saveptr
    have h2 := strtok_r_snd saveptr
    have h3 := strtok_r_snd_length saveptr [',']
    cases hr : strtok_r saveptr [','] with
    | mk tok sp =>
      rw [hr] at h1 h2 h3
      cases tok with
      | none =>
        simp only at h1 ⊢
        cases hd : destinations saveptr with
        | nil => simp
        | cons a b => rw [hd] at h1; simp at h1
      | some t =>
        simp only at h1 h2 h3 ⊢
        have := h3 (by simp)
        rw [ih sp (n + 1) (by omega), h2]
        cases hd : destinations saveptr with
        | nil => rw [hd] at h1; simp at h1
        | cons a b => simp; omega

theorem int32_of_fits (x : Int) (h1 : -2147483648 ≤ x) (h2 : x ≤ 2147483647) : int32 x = x := by
  unfold int32; omega

theorem int32_fits (x : Int) : -2147483648 ≤ int32 x ∧ int32 x ≤ 2147483647 := by
  unfold int32; omega

theorem skip_port_before (B : Int) (k : Nat) :
    (if port_before_skip B k = int32 (B + 2) then int32 (port_before_skip B k + 2)
      else port_before_skip B k) = port_at B k := rfl

theorem port_at_add_two (B : Int) (k : Nat) :
    int32 (port_at B k + 2) = port_before_skip B (k + 1) := rfl

theorem port_at_zero (B : Int) : port_at B 0 = B := by
  unfold port_at port_before_skip int32
  split
  · omega
  · rfl

theorem port_before_skip_of_fits (B : Int) (N : Nat) (hfit : ports_fit B N) (k : Nat)
    (hk : k ≤ N) :
    port_before_skip B k = if k = 0 then B else if k = 1 then B + 2 else B + 2 + 2 * (k : Int) := by
  obtain ⟨hlo, hhi⟩ := hfit
  induction k with
  | zero => rfl
  | succ k ih =>
    have ihk := ih (by omega)
    have hB2 : int32 (B + 2) = B + 2 := int32_of_fits _ (by omega) (by omega)
    unfold port_before_skip
    rw [ihk, hB2]
    by_cases h0 : k = 0
    · subst h0
      simp only [↓reduceIte]
      rw [if_neg (by omega)]
      simp
      exact int32_of_fits _ (by omega) (by omega)
    · by_cases h1 : k = 1
      · subst h1
        simp only [↓reduceIte]
        norm_num
        rw [int32_of_fits (B + 2 + 2) (by omega) (by omega)]
        rw [int32_of_fits _ (by omega) (by omega)]
        omega
      · simp only [h0, h1, ↓reduceIte]
        rw [if_neg (by omega)]
        have h2 : ¬ (k + 1 = 0) := by omega
        have h3 : ¬ (k + 1 = 1) := by omega
        simp only [h2, h3, ↓reduceIte]
        rw [int32_of_fits _ (by omega) (by omega)]
        push_cast
        ring

theorem port_at_eq_port_rule (B : Int) (N : Nat) (hfit : ports_fit B N) (k : Nat) (hk : k < N) :
    port_at B k = port_rule B k := by
  have hb := port_before_skip_of_fits B N hfit k (by omega)
  obtain ⟨hlo, hhi⟩ := hfit
  have hB2 : int32 (B + 2) = B + 2 := int32_of_fits _ (by omega) (by omega)
  unfold port_at port_rule
  rw [hb, hB2]
  by_cases h0 : k = 0
  · subst h0
    simp
  · by_cases h1 : k = 1
    · subst h1
      simp only [↓reduceIte]
      norm_num
      rw [int32_of_fits _ (by omega) (by omega)]
      omega
    · simp only [h0, h1, ↓reduceIte]
      rw [if_neg (by omega)]

/-- Every base of the port range fits, for every number of destinations below
`2^30 - 2^15`. -/
theorem ports_fit_of_port_range (B : Int) (N : Nat) (h0 : 0 ≤ B) (h1 : B ≤ 65535)
    (hN : N < 1073709056) : ports_fit B N := by
  unfold ports_fit; omega

/-- Beyond the range of `ports_fit` the ports wrap as C `int` values: from the base
`2147483646` the loop passes `-2147483646` at index 1. -/
theorem port_at_wraps :
    port_at 2147483646 0 = 2147483646 ∧ port_at 2147483646 1 = -2147483646 := by
  decide

theorem atoi_fits (s : CStr) : -2147483648 ≤ atoi s ∧ atoi s ≤ 2147483647 :=
  int32_fits _

/-- Values of `atoi`: the decimal value when it fits a C `int`, the `int` that the
conversion of the `long` of `strtol` leaves otherwise; text without digits gives 0. -/
theorem atoi_values :
    atoi "1500".toList = 1500 ∧ atoi " -7x".toList = -7 ∧ atoi "\t".toList = 0 ∧
      atoi "2147483647".toList = 2147483647 ∧ atoi "2147483648".toList = -2147483648 ∧
      atoi "4294967297".toList = 1 ∧ atoi "99999999999999999999".toList = -1 := by
  decide

theorem rtp_init_if_success (env : Env) (w : World) (req : OpenReq)
    (h : env.rtp_init_if_ok w.rtp_calls req = true) :
    rtp_init_if env w req =
      (some w.rtp_calls,
       { w with trace := w.trace ++ [Event.rtp_init_if req (some w.rtp_calls)],
                rtp_calls := w.rtp_calls + 1,
                live := w.live ++ [⟨w.rtp_calls, req.addr, req.rx_port, req.tx_port⟩] }) := by
  simp [rtp_init_if, h]

theorem rtp_init_if_failure (env : Env) (w : World) (req : OpenReq)
    (h : env.rtp_init_if_ok w.rtp_calls req = false) :
    rtp_init_if env w req =
      (none,
       { w with trace := w.trace ++ [Event.rtp_init_if req none],
                rtp_calls := w.rtp_calls + 1 }) := by
  simp [rtp_init_if, h]

theorem setup_device_eq (env : Env) (w : World) (h : Handle) :
    setup_device env w h =
      { w with trace := w.trace ++ setup_events env h,
               registry := w.registry ++ [env.rtp_my_ssrc h] } := by
  unfold setup_device setup_events pdb_add World.log
  cases env.rtp_set_recv_buf_ok h <;> simp

theorem rollback_devices_trace (w : World) (ds : List Handle) :
    (ds.foldl rtp_done w).trace = w.trace ++ ds.map Event.rtp_done := by
  induction ds generalizing w with
  | nil => simp
  | cons d ds ih => simp [ih, rtp_done]

theorem rollback_devices_live (w : World) (ds : List Handle) :
    (ds.foldl rtp_done w).live = w.live.filter (fun e => !ds.contains e.handle) := by
  induction ds generalizing w with
  | nil => simp
  | cons d ds ih =>
    simp only [List.foldl_cons, ih, rtp_done, List.filter_filter]
    congr 1
    funext e
    by_cases h : e.handle = d <;> simp [h, Bool.and_comm]

theorem rollback_devices_registry (w : World) (ds : List Handle) :
    (ds.foldl rtp_done w).registry = w.registry := by
  induction ds generalizing w with
  | nil => simp
  | cons d ds ih => simp [ih, rtp_done]

theorem rollback_devices_rtp_calls (w : World) (ds : List Handle) :
    (ds.foldl rtp_done w).rtp_calls = w.rtp_calls := by
  induction ds generalizing w with
  | nil => simp
  | cons d ds ih => simp [ih, rtp_done]

theorem LoopInv.next {rb sb : Int} {t : CStr} {ts : List CStr} {st : LoopState}
    (hinv : LoopInv rb sb (t :: ts) st) (devices : Option (List Handle))
    (hd : ∀ ds, devices = some ds → ds.length = st.index + 1) :
    LoopInv rb sb ts (next_state rb sb st devices) := by
  refine ⟨?_, ?_, ?_, ?_, ?_⟩
  · show (strtok_r st.saveptr [',']).1 = ts.head?
    rw [strtok_r_fst, hinv.saveptr_eq]; rfl
  · show destinations (strtok_r st.saveptr [',']).2 = ts.tail
    rw [strtok_r_snd, hinv.saveptr_eq]; rfl
  · exact port_at_add_two rb st.index
  · exact port_at_add_two sb st.index
  · exact hd

theorem open_loop_null (env : Env) (rb sb : Int) (use_ipv6 : Bool) (mcast_if : Option CStr)
    (n : Nat) (st : LoopState) (w : World) (hd : st.devices = none) :
    (open_loop env rb sb use_ipv6 mcast_if (n + 1) st w).1 = Outcome.fault := by
  simp only [open_loop, hd]

theorem open_loop_step (env : Env) (rb sb : Int) (use_ipv6 : Bool) (mcast_if : Option CStr)
    (t : CStr) (ts : List CStr) (st : LoopState) (w : World)
    (hinv : LoopInv rb sb (t :: ts) st) :
    open_loop env rb sb use_ipv6 mcast_if (ts.length + 1) st w =
      match st.devices with
      | none =>
        (Outcome.fault,
          (rtp_init_if env w (request_at rb sb use_ipv6 mcast_if st.index t)).2)
      | some ds =>
        if env.rtp_init_if_ok w.rtp_calls (request_at rb sb use_ipv6 mcast_if st.index t) then
          open_loop env rb sb use_ipv6 mcast_if ts.length
            (next_state rb sb st (some (ds ++ [w.rtp_calls])))
            (setup_device env
              (rtp_init_if env w (request_at rb sb use_ipv6 mcast_if st.index t)).2 w.rtp_calls)
        else
          open_loop env rb sb use_ipv6 mcast_if ts.length (next_state rb sb st none)
            (ds.foldl rtp_done
              (rtp_init_if env w (request_at rb sb use_ipv6 mcast_if st.index t)).2) := by
  have hr := skip_port_before rb st.index
  have hs := skip_port_before sb st.index
  rw [← hinv.recv_port_eq] at hr
  rw [← hinv.send_port_eq] at hs
  have ha : st.addr = some t := hinv.addr_eq
  cases hd : st.devices with
  | none => simp only [open_loop, hd, hr, hs, ha, request_at]
  | some ds =>
    have hlen := hinv.index_eq ds hd
    by_cases hok : env.rtp_init_if_ok w.rtp_calls (request_at rb sb use_ipv6 mcast_if st.index t)
        = true
    · have h1 := rtp_init_if_success env w _ hok
      simp only [open_loop, hd, hr, hs, ha, hok, ↓reduceIte, next_state]
      simp only [request_at] at h1 ⊢
      rw [h1]
    · have hok' : env.rtp_init_if_ok w.rtp_calls
          (request_at rb sb use_ipv6 mcast_if st.index t) = false := by simpa using hok
      have h1 := rtp_init_if_failure env w _ hok'
      simp only [open_loop, hd, hr, hs, ha, hok', next_state, rollback_devices]
      simp only [request_at] at h1 ⊢
      rw [h1, ← hlen, List.take_length]
      simp

theorem open_requests_append (w : World) (evs : List Event) (w1 : World)
    (h : w1.trace = w.trace ++ evs) :
    open_requests w1 = open_requests w ++ evs.filterMap (fun e => match e with
      | Event.rtp_init_if req _ => some req
      | _ => none) := by
  simp [open_requests, h]

theorem opened_append (w : World) (evs : List Event) (w1 : World)
    (h : w1.trace = w.trace ++ evs) :
    opened w1 = opened w ++ evs.filterMap (fun e => match e with
      | Event.rtp_init_if _ (some h) => some h
      | _ => none) := by
  simp [opened, h]

theorem closed_append (w : World) (evs : List Event) (w1 : World)
    (h : w1.trace = w.trace ++ evs) :
    closed w1 = closed w ++ evs.filterMap (fun e => match e with
      | Event.rtp_done h => some h
      | _ => none) := by
  simp [closed, h]

theorem setup_device_trace (env : Env) (w : World) (h : Handle) :
    (setup_device env w h).trace = w.trace ++ setup_events env h := by
  rw [setup_device_eq]

theorem open_requests_setup_device (env : Env) (w : World) (h : Handle) :
    open_requests (setup_device env w h) = open_requests w := by
  rw [open_requests_append w _ _ (setup_device_trace env w h)]
  unfold setup_events
  cases env.rtp_set_recv_buf_ok h <;> simp

theorem opened_setup_device (env : Env) (w : World) (h : Handle) :
    opened (setup_device env w h) = opened w := by
  rw [opened_append w _ _ (setup_device_trace env w h)]
  unfold setup_events
  cases env.rtp_set_recv_buf_ok h <;> simp

theorem closed_setup_device (env : Env) (w : World) (h : Handle) :
    closed (setup_device env w h) = closed w := by
  rw [closed_append w _ _ (setup_device_trace env w h)]
  unfold setup_events
  cases env.rtp_set_recv_buf_ok h <;> simp

theorem open_requests_rtp_init_if (env : Env) (w : World) (req : OpenReq) :
    open_requests (rtp_init_if env w req).2 = open_requests w ++ [req] := by
  unfold rtp_init_if
  split <;> simp [open_requests]

theorem closed_rtp_init_if (env : Env) (w : World) (req : OpenReq) :
    closed (rtp_init_if env w req).2 = closed w := by
  unfold rtp_init_if
  split <;> simp [closed]

theorem rtp_calls_rtp_init_if (env : Env) (w : World) (req : OpenReq) :
    (rtp_init_if env w req).2.rtp_calls = w.rtp_calls + 1 := by
  unfold rtp_init_if
  split <;> rfl

theorem registry_rtp_init_if (env : Env) (w : World) (req : OpenReq) :
    (rtp_init_if env w req).2.registry = w.registry := by
  unfold rtp_init_if
  split <;> rfl

theorem open_requests_rollback (w : World) (ds : List Handle) :
    open_requests (ds.foldl rtp_done w) = open_requests w := by
  rw [open_requests_append w _ _ (rollback_devices_trace w ds)]
  simp

theorem opened_rollback (w : World) (ds : List Handle) :
    opened (ds.foldl rtp_done w) = opened w := by
  rw [opened_append w _ _ (rollback_devices_trace w ds)]
  simp

theorem closed_rollback (w : World) (ds : List Handle) :
    closed (ds.foldl rtp_done w) = closed w ++ ds := by
  rw [closed_append w _ _ (rollback_devices_trace w ds)]
  congr 1
  induction ds with
  | nil => rfl
  | cons d ds ih => simp [ih]

theorem open_loop_all_ok (env : Env) (rb sb : Int) (use_ipv6 : Bool) (mcast_if : Option CStr)
    (ts : List CStr) (st : LoopState) (w : World) (ds : List Handle)
    (hinv : LoopInv rb sb ts st) (hd : st.devices = some ds)
    (hok : ∀ i t, ts[i]? = some t →
      env.rtp_init_if_ok (w.rtp_calls + i)
        (request_at rb sb use_ipv6 mcast_if (st.index + i) t) = true) :
    (open_loop env rb sb use_ipv6 mcast_if ts.length st w).1
        = Outcome.returned (some (ds ++ List.range' w.rtp_calls ts.length)) ∧
      OpensAll env rb sb use_ipv6 mcast_if st.index ts w
        (open_loop env rb sb use_ipv6 mcast_if ts.length st w).2 := by
  induction ts generalizing st w ds with
  | nil =>
    refine ⟨by simp [open_loop, hd], ?_⟩
    constructor <;> simp [open_loop, expected_endpoints, expected_requests]
  | cons t ts ih =>
    have h0 := hok 0 t (by simp)
    rw [Nat.add_zero, Nat.add_zero] at h0
    have hstep := open_loop_step env rb sb use_ipv6 mcast_if t ts st w hinv
    rw [hd] at hstep
    simp only [h0, ↓reduceIte] at hstep
    rw [List.length_cons, hstep]
    have hlen := hinv.index_eq ds hd
    have hnext := hinv.next (some (ds ++ [w.rtp_calls])) (by
      intro ds' h; cases h; simp [hlen])
    have hw1 := rtp_init_if_success env w _ h0
    have f1 : (setup_device env
        (rtp_init_if env w (request_at rb sb use_ipv6 mcast_if st.index t)).2 w.rtp_calls).rtp_calls
          = w.rtp_calls + 1 := by
      rw [setup_device_eq]; exact rtp_calls_rtp_init_if env w _
    have f2 : (setup_device env
        (rtp_init_if env w (request_at rb sb use_ipv6 mcast_if st.index t)).2 w.rtp_calls).live
          = w.live ++ [⟨w.rtp_calls, some t, port_at rb st.index, port_at sb st.index⟩] := by
      rw [setup_device_eq, hw1]; rfl
    have f3 : (setup_device env
        (rtp_init_if env w (request_at rb sb use_ipv6 mcast_if st.index t)).2 w.rtp_calls).registry
          = w.registry ++ [env.rtp_my_ssrc w.rtp_calls] := by
      rw [setup_device_eq, hw1]
    have f4 : open_requests (setup_device env
        (rtp_init_if env w (request_at rb sb use_ipv6 mcast_if st.index t)).2 w.rtp_calls)
          = open_requests w ++ [request_at rb sb use_ipv6 mcast_if st.index t] := by
      rw [open_requests_setup_device, open_requests_rtp_init_if]
    have f5 : opened (setup_device env
        (rtp_init_if env w (request_at rb sb use_ipv6 mcast_if st.index t)).2 w.rtp_calls)
          = opened w ++ [w.rtp_calls] := by
      rw [opened_setup_device,
        opened_append w [Event.rtp_init_if _ (some w.rtp_calls)] _ (by rw [hw1])]
      rfl
    have f6 : closed (setup_device env
        (rtp_init_if env w (request_at rb sb use_ipv6 mcast_if st.index t)).2 w.rtp_calls)
          = closed w := by
      rw [closed_setup_device, closed_rtp_init_if]
    have f7 : (setup_device env
        (rtp_init_if env w (request_at rb sb use_ipv6 mcast_if st.index t)).2 w.rtp_calls).ldgm_calls
          = w.ldgm_calls := by
      rw [setup_device_eq, hw1]
    have f8 : (setup_device env
        (rtp_init_if env w (request_at rb sb use_ipv6 mcast_if st.index t)).2 w.rtp_calls).ldgm_live
          = w.ldgm_live := by
      rw [setup_device_eq, hw1]
    have f9 : (setup_device env
        (rtp_init_if env w (request_at rb sb use_ipv6 mcast_if st.index t)).2 w.rtp_calls).should_exit
          = w.should_exit := by
      rw [setup_device_eq, hw1]
    generalize setup_device env
        (rtp_init_if env w (request_at rb sb use_ipv6 mcast_if st.index t)).2 w.rtp_calls = w2
        at f1 f2 f3 f4 f5 f6 f7 f8 f9 ⊢
    obtain ⟨hres, hall⟩ := ih (next_state rb sb st (some (ds ++ [w.rtp_calls]))) w2
      (ds ++ [w.rtp_calls]) hnext rfl (by
        intro i t' hi
        have := hok (i + 1) t' (by simpa using hi)
        rw [f1, Nat.add_assoc, Nat.add_comm 1 i]
        show env.rtp_init_if_ok (w.rtp_calls + (i + 1))
          (request_at rb sb use_ipv6 mcast_if (st.index + 1 + i) t') = true
        rw [Nat.add_assoc, Nat.add_comm 1 i]
        exact this)
    rw [f1] at hres
    refine ⟨by rw [hres, List.range'_succ]; simp, ?_⟩
    have e1 := hall.rtp_calls_eq
    have e2 := hall.live_eq
    have e3 := hall.registry_eq
    have e4 := hall.requests_eq
    have e5 := hall.opened_eq
    have e6 := hall.closed_eq
    have e7 := hall.ldgm_calls_eq
    have e8 := hall.ldgm_live_eq
    have e9 := hall.should_exit_eq
    rw [f1] at e1 e2 e3 e5
    constructor
    · rw [e1, List.length_cons]; omega
    · rw [e2, f2]; simp [expected_endpoints, next_state]
    · rw [e3, f3, List.length_cons, List.range'_succ]; simp
    · rw [e4, f4]; simp [expected_requests, next_state]
    · rw [e5, f5, List.length_cons, List.range'_succ]; simp
    · rw [e6, f6]
    · rw [e7, f7]
    · rw [e8, f8]
    · rw [e9, f9]

theorem strtok_r_all_delims (s delim : CStr) (h : ∀ c ∈ s, delim.contains c = true) :
    strtok_r s delim = (none, []) := by
  have : s.dropWhile (fun c => delim.contains c) = [] := by
    rw [List.dropWhile_eq_nil_iff]; exact h
  unfold strtok_r
  rw [this]

theorem initialize_network_no_token (env : Env) (addrs : CStr) (rb sb : Int) (use_ipv6 : Bool)
    (mcast_if : Option CStr) (w : World) (h : (strtok_r addrs [',']).1 = none) :
    initialize_network env addrs rb sb use_ipv6 mcast_if w = (Outcome.returned none, w) := by
  unfold initialize_network
  cases hr : strtok_r addrs [','] with
  | mk tok sp =>
    rw [hr] at h
    simp only at h
    subst h
    rfl

theorem initialize_network_eq (env : Env) (addrs : CStr) (rb sb : Int) (use_ipv6 : Bool)
    (mcast_if : Option CStr) (w : World) (t : CStr) (ts : List CStr)
    (h : destinations addrs = t :: ts) :
    initialize_network env addrs rb sb use_ipv6 mcast_if w =
      open_loop env rb sb use_ipv6 mcast_if (t :: ts).length
        ⟨0, (strtok_r addrs [',']).1, (strtok_r addrs [',']).2, rb, sb, some []⟩ w ∧
    LoopInv rb sb (t :: ts)
      ⟨0, (strtok_r addrs [',']).1, (strtok_r addrs [',']).2, rb, sb, some []⟩ := by
  have h1 := strtok_r_fst addrs
  have h2 := strtok_r_snd addrs
  have h3 := strtok_r_snd_length addrs [',']
  rw [h] at h1 h2
  constructor
  · unfold initialize_network
    cases hr : strtok_r addrs [','] with
    | mk tok sp =>
      rw [hr] at h1 h2 h3
      simp only [List.head?_cons] at h1
      simp only [List.tail_cons] at h2
      subst h1
      have hlt := h3 (by simp)
      simp only at hlt ⊢
      rw [count_loop_eq _ _ _ (by omega), h2]
      simp only [List.length_cons]
      rw [Nat.add_comm 1 ts.length]
  · exact ⟨h1, h2, rfl, rfl, by intro ds hds; cases hds; rfl⟩

theorem expected_requests_getElem? (rb sb : Int) (use_ipv6 : Bool) (mcast_if : Option CStr)
    (i : Nat) (ts : List CStr) (k : Nat) (req : OpenReq)
    (h : (expected_requests rb sb use_ipv6 mcast_if i ts)[k]? = some req) :
    req.rx_port = port_at rb (i + k) ∧ req.tx_port = port_at sb (i + k) ∧
      req.addr = ts[k]? := by
  induction ts generalizing i k with
  | nil => simp [expected_requests] at h
  | cons t ts ih =>
    cases k with
    | zero =>
      simp only [expected_requests, List.getElem?_cons_zero, Option.some.injEq] at h
      subst h
      simp [request_at]
    | succ k =>
      simp only [expected_requests, List.getElem?_cons_succ] at h
      have := ih (i + 1) k h
      simpa [Nat.add_assoc, Nat.add_comm 1 k] using this

theorem open_loop_requests (env : Env) (rb sb : Int) (use_ipv6 : Bool) (mcast_if : Option CStr)
    (ts : List CStr) (st : LoopState) (w : World) (hinv : LoopInv rb sb ts st) :
    ∃ m, m ≤ ts.length ∧
      open_requests (open_loop env rb sb use_ipv6 mcast_if ts.length st w).2 =
        open_requests w ++ (expected_requests rb sb use_ipv6 mcast_if st.index ts).take m := by
  induction ts generalizing st w with
  | nil => exact ⟨0, by simp, by simp [open_loop]⟩
  | cons t ts ih =>
    have hstep := open_loop_step env rb sb use_ipv6 mcast_if t ts st w hinv
    rw [List.length_cons, hstep]
    cases hd : st.devices with
    | none =>
      refine ⟨1, by simp, ?_⟩
      simp [open_requests_rtp_init_if, expected_requests]
    | some ds =>
      have hlen := hinv.index_eq ds hd
      simp only
      split
      · obtain ⟨m, hm, heq⟩ := ih (next_state rb sb st (some (ds ++ [w.rtp_calls])))
          (setup_device env
            (rtp_init_if env w (request_at rb sb use_ipv6 mcast_if st.index t)).2 w.rtp_calls)
          (hinv.next _ (by intro ds' h; cases h; simp [hlen]))
        refine ⟨m + 1, by omega, ?_⟩
        rw [heq, open_requests_setup_device, open_requests_rtp_init_if]
        simp [expected_requests, next_state]
      · obtain ⟨m, hm, heq⟩ := ih (next_state rb sb st none)
          (ds.foldl rtp_done
            (rtp_init_if env w (request_at rb sb use_ipv6 mcast_if st.index t)).2)
          (hinv.next _ (by intro ds' h; cases h))
        refine ⟨m + 1, by omega, ?_⟩
        rw [heq, open_requests_rollback, open_requests_rtp_init_if]
        simp [expected_requests, next_state]

theorem initialize_network_requests (env : Env) (addrs : CStr) (rb sb : Int) (use_ipv6 : Bool)
    (mcast_if : Option CStr) (w : World) :
    ∃ m, m ≤ (destinations addrs).length ∧
      open_requests (initialize_network env addrs rb sb use_ipv6 mcast_if w).2 =
        open_requests w ++
          (expected_requests rb sb use_ipv6 mcast_if 0 (destinations addrs)).take m := by
  cases hds : destinations addrs with
  | nil =>
    have h1 := strtok_r_fst addrs
    rw [hds] at h1
    rw [initialize_network_no_token env addrs rb sb use_ipv6 mcast_if w h1]
    exact ⟨0, by simp, by simp⟩
  | cons t ts =>
    obtain ⟨heq, hinv⟩ := initialize_network_eq env addrs rb sb use_ipv6 mcast_if w t ts hds
    rw [heq]
    exact open_loop_requests env rb sb use_ipv6 mcast_if (t :: ts) _ w hinv

theorem initialize_network_all_ok (env : Env) (addrs : CStr) (rb sb : Int) (use_ipv6 : Bool)
    (mcast_if : Option CStr) (w : World) (hne : destinations addrs ≠ [])
    (hok : ∀ i t, (destinations addrs)[i]? = some t →
      env.rtp_init_if_ok (w.rtp_calls + i) (request_at rb sb use_ipv6 mcast_if i t) = true) :
    (initialize_network env addrs rb sb use_ipv6 mcast_if w).1
        = Outcome.returned (some (List.range' w.rtp_calls (destinations addrs).length)) ∧
      OpensAll env rb sb use_ipv6 mcast_if 0 (destinations addrs) w
        (initialize_network env addrs rb sb use_ipv6 mcast_if w).2 := by
  cases hds : destinations addrs with
  | nil => exact absurd hds hne
  | cons t ts =>
    obtain ⟨heq, hinv⟩ := initialize_network_eq env addrs rb sb use_ipv6 mcast_if w t ts hds
    rw [heq]
    rw [hds] at hok
    have := open_loop_all_ok env rb sb use_ipv6 mcast_if (t :: ts) _ w [] hinv rfl
      (by intro i t' hi
          show env.rtp_init_if_ok (w.rtp_calls + i)
            (request_at rb sb use_ipv6 mcast_if (0 + i) t') = true
          rw [Nat.zero_add]
          exact hok i t' hi)
    simpa using this

theorem open_loop_fail_at (env : Env) (rb sb : Int) (use_ipv6 : Bool) (mcast_if : Option CStr)
    (ts1 : List CStr) (t : CStr) (ts2 : List CStr) (st : LoopState) (w : World)
    (ds : List Handle) (hinv : LoopInv rb sb (ts1 ++ t :: ts2) st) (hd : st.devices = some ds)
    (hok : ∀ i t1, ts1[i]? = some t1 →
      env.rtp_init_if_ok (w.rtp_calls + i)
        (request_at rb sb use_ipv6 mcast_if (st.index + i) t1) = true)
    (hfail : env.rtp_init_if_ok (w.rtp_calls + ts1.length)
      (request_at rb sb use_ipv6 mcast_if (st.index + ts1.length) t) = false) :
    (ts2 ≠ [] →
      (open_loop env rb sb use_ipv6 mcast_if (ts1 ++ t :: ts2).length st w).1 = Outcome.fault) ∧
    (ts2 = [] →
      (open_loop env rb sb use_ipv6 mcast_if (ts1 ++ t :: ts2).length st w).1
          = Outcome.returned none ∧
      (open_loop env rb sb use_ipv6 mcast_if (ts1 ++ t :: ts2).length st w).2.registry
          = w.registry ++ (List.range' w.rtp_calls ts1.length).map env.rtp_my_ssrc ∧
      (open_loop env rb sb use_ipv6 mcast_if (ts1 ++ t :: ts2).length st w).2.live
          = w.live.filter
              (fun e => !(ds ++ List.range' w.rtp_calls ts1.length).contains e.handle) ∧
      closed (open_loop env rb sb use_ipv6 mcast_if (ts1 ++ t :: ts2).length st w).2
          = closed w ++ (ds ++ List.range' w.rtp_calls ts1.length) ∧
      (open_loop env rb sb use_ipv6 mcast_if (ts1 ++ t :: ts2).length st w).2.rtp_calls
          = w.rtp_calls + ts1.length + 1) := by
  induction ts1 generalizing st w ds with
  | nil =>
    have h0 := hfail
    simp only [List.length_nil, Nat.add_zero] at h0
    simp only [List.nil_append] at hinv ⊢
    have hstep := open_loop_step env rb sb use_ipv6 mcast_if t ts2 st w hinv
    rw [hd] at hstep
    simp only [h0, Bool.false_eq_true, ↓reduceIte] at hstep
    rw [List.length_cons, hstep]
    have hw1 := rtp_init_if_failure env w _ h0
    constructor
    · intro hne
      cases ts2 with
      | nil => exact absurd rfl hne
      | cons t2 ts2 => exact open_loop_null env rb sb use_ipv6 mcast_if _ _ _ rfl
    · intro he
      subst he
      simp only [List.length_nil, open_loop, next_state, List.range'_zero, List.map_nil,
        List.append_nil, true_and]
      refine ⟨?_, ?_, ?_, ?_⟩
      · rw [rollback_devices_registry, hw1]
      · rw [rollback_devices_live, hw1]
      · rw [closed_rollback, closed_rtp_init_if]
      · rw [rollback_devices_rtp_calls, hw1]
  | cons t1 ts1 ih =>
    have h0 := hok 0 t1 (by simp)
    rw [Nat.add_zero, Nat.add_zero] at h0
    simp only [List.cons_append] at hinv ⊢
    have hstep := open_loop_step env rb sb use_ipv6 mcast_if t1 (ts1 ++ t :: ts2) st w hinv
    rw [hd] at hstep
    simp only [h0, ↓reduceIte] at hstep
    rw [List.length_cons, hstep]
    have hlen := hinv.index_eq ds hd
    have hnext := hinv.next (some (ds ++ [w.rtp_calls])) (by
      intro ds' h; cases h; simp [hlen])
    have hw1 := rtp_init_if_success env w _ h0
    have f1 : (setup_device env
        (rtp_init_if env w (request_at rb sb use_ipv6 mcast_if st.index t1)).2 w.rtp_calls).rtp_calls
          = w.rtp_calls + 1 := by
      rw [setup_device_eq]; exact rtp_calls_rtp_init_if env w _
    have f2 : (setup_device env
        (rtp_init_if env w (request_at rb sb use_ipv6 mcast_if st.index t1)).2 w.rtp_calls).live
          = w.live ++ [⟨w.rtp_calls, some t1, port_at rb st.index, port_at sb st.index⟩] := by
      rw [setup_device_eq, hw1]; rfl
    have f3 : (setup_device env
        (rtp_init_if env w (request_at rb sb use_ipv6 mcast_if st.index t1)).2 w.rtp_calls).registry
          = w.registry ++ [env.rtp_my_ssrc w.rtp_calls] := by
      rw [setup_device_eq, hw1]
    have f6 : closed (setup_device env
        (rtp_init_if env w (request_at rb sb use_ipv6 mcast_if st.index t1)).2 w.rtp_calls)
          = closed w := by
      rw [closed_setup_device, closed_rtp_init_if]
    generalize setup_device env
        (rtp_init_if env w (request_at rb sb use_ipv6 mcast_if st.index t1)).2 w.rtp_calls = w2
        at f1 f2 f3 f6 ⊢
    obtain ⟨hA, hB⟩ := ih (next_state rb sb st (some (ds ++ [w.rtp_calls]))) w2
      (ds ++ [w.rtp_calls]) hnext rfl
      (by
        intro i t' hi
        have := hok (i + 1) t' (by simpa using hi)
        rw [f1, Nat.add_assoc, Nat.add_comm 1 i]
        show env.rtp_init_if_ok (w.rtp_calls + (i + 1))
          (request_at rb sb use_ipv6 mcast_if (st.index + 1 + i) t') = true
        rw [Nat.add_assoc, Nat.add_comm 1 i]
        exact this)
      (by
        rw [f1, Nat.add_assoc, Nat.add_comm 1 ts1.length]
        show env.rtp_init_if_ok (w.rtp_calls + (ts1.length + 1))
          (request_at rb sb use_ipv6 mcast_if (st.index + 1 + ts1.length) t) = false
        rw [Nat.add_assoc, Nat.add_comm 1 ts1.length]
        exact hfail)
    refine ⟨hA, ?_⟩
    intro he
    obtain ⟨g1, g2, g3, g4, g5⟩ := hB he
    rw [f1] at g2 g3 g4 g5
    refine ⟨g1, ?_, ?_, ?_, ?_⟩
    · rw [g2, f3, List.length_cons, List.range'_succ]; simp
    · rw [g3, f2, List.length_cons, List.range'_succ]
      simp [List.filter_append]
    · rw [g4, f6, List.length_cons, List.range'_succ]; simp
    · rw [g5, List.length_cons]; omega

theorem initialize_network_fail_at (env : Env) (addrs : CStr) (rb sb : Int) (use_ipv6 : Bool)
    (mcast_if : Option CStr) (w : World) (k : Nat)
    (hk : k < (destinations addrs).length)
    (hok : ∀ i t, i < k → (destinations addrs)[i]? = some t →
      env.rtp_init_if_ok (w.rtp_calls + i) (request_at rb sb use_ipv6 mcast_if i t) = true)
    (hfail : ∀ t, (destinations addrs)[k]? = some t →
      env.rtp_init_if_ok (w.rtp_calls + k) (request_at rb sb use_ipv6 mcast_if k t) = false) :
    (k + 1 < (destinations addrs).length →
      (initialize_network env addrs rb sb use_ipv6 mcast_if w).1 = Outcome.fault) ∧
    (k + 1 = (destinations addrs).length →
      (initialize_network env addrs rb sb use_ipv6 mcast_if w).1 = Outcome.returned none ∧
      (initialize_network env addrs rb sb use_ipv6 mcast_if w).2.registry
          = w.registry ++ (List.range' w.rtp_calls k).map env.rtp_my_ssrc ∧
      (initialize_network env addrs rb sb use_ipv6 mcast_if w).2.live
          = w.live.filter (fun e => !(List.range' w.rtp_calls k).contains e.handle) ∧
      closed (initialize_network env addrs rb sb use_ipv6 mcast_if w).2
          = closed w ++ List.range' w.rtp_calls k ∧
      (initialize_network env addrs rb sb use_ipv6 mcast_if w).2.rtp_calls
          = w.rtp_calls + k + 1) := by
  have hsplit : destinations addrs =
      (destinations addrs).take k ++ (destinations addrs)[k] :: (destinations addrs).drop (k + 1) := by
    rw [← List.drop_eq_getElem_cons hk, List.take_append_drop]
  have hlen1 : ((destinations addrs).take k).length = k := by
    rw [List.length_take]; omega
  have hlen2 : ((destinations addrs).drop (k + 1)).length = (destinations addrs).length - (k + 1) :=
    List.length_drop _ _
  cases hds : destinations addrs with
  | nil => rw [hds] at hk; simp at hk
  | cons t ts =>
    obtain ⟨heq, hinv⟩ := initialize_network_eq env addrs rb sb use_ipv6 mcast_if w t ts hds
    rw [heq, ← hds]
    rw [← hds] at hinv
    rw [hsplit] at hinv
    have key := open_loop_fail_at env rb sb use_ipv6 mcast_if ((destinations addrs).take k)
      ((destinations addrs)[k]) ((destinations addrs).drop (k + 1)) _ w [] hinv rfl
      (by intro i t' hi
          have hik : i < k := by
            have := (List.getElem?_eq_some_iff.1 hi).1
            rw [hlen1] at this; exact this
          rw [List.getElem?_take_of_lt hik] at hi
          show env.rtp_init_if_ok (w.rtp_calls + i)
            (request_at rb sb use_ipv6 mcast_if (0 + i) t') = true
          rw [Nat.zero_add]
          exact hok i t' hik hi)
      (by rw [hlen1]
          show env.rtp_init_if_ok (w.rtp_calls + k)
            (request_at rb sb use_ipv6 mcast_if (0 + k) (destinations addrs)[k]) = false
          rw [Nat.zero_add]
          exact hfail _ (List.getElem?_eq_getElem hk))
    rw [← hsplit, hlen1] at key
    constructor
    · intro h
      exact key.1 (by
        intro he
        rw [he] at hlen2
        simp at hlen2; omega)
    · intro h
      have := key.2 (by
        apply List.eq_nil_of_length_eq_zero
        rw [hlen2]; omega)
      simpa using this

theorem expected_endpoints_eq_map (rb sb : Int) (i : Nat) (h : Handle) (ts : List CStr) :
    expected_endpoints rb sb i h ts =
      (List.range ts.length).map
        (fun j => (⟨h + j, ts[j]?, port_at rb (i + j), port_at sb (i + j)⟩ : Endpoint)) := by
  induction ts generalizing i h with
  | nil => simp [expected_endpoints]
  | cons t ts ih =>
    rw [expected_endpoints, ih, List.length_cons, List.range_succ_eq_map]
    simp only [List.map_cons, List.map_map, Nat.add_zero, List.getElem?_cons_zero]
    congr 1
    apply List.map_congr_left
    intro j _
    simp [Nat.add_assoc, Nat.add_comm 1 j]

theorem session_ab_constructed :
    rtp_video_rxtx env_ok args_ab World.init = (Outcome.returned session_ab, world_ab) := by
  decide

theorem session_a_constructed :
    rtp_video_rxtx env_ok args_a World.init = (Outcome.returned session_a, world_a) := by
  decide

theorem change_tx_port_of_some (env : Env) (s : Session) (w : World) (tx_port : Int)
    (hs : List Handle)
    (h : (initialize_network env s.m_requested_receiver s.m_recv_port_number tx_port s.m_ipv6
      s.m_requested_mcast_if (destroy_rtp_devices w s.m_network_devices)).1
        = Outcome.returned (some hs)) :
    change_tx_port env s w tx_port =
      (Outcome.returned (),
       { s with m_send_port_number := tx_port, m_network_devices := some hs },
       (initialize_network env s.m_requested_receiver s.m_recv_port_number tx_port s.m_ipv6
          s.m_requested_mcast_if (destroy_rtp_devices w s.m_network_devices)).2) := by
  unfold change_tx_port
  simp only [h]

theorem change_tx_port_of_none (env : Env) (s : Session) (w : World) (tx_port : Int)
    (h : (initialize_network env s.m_requested_receiver s.m_recv_port_number tx_port s.m_ipv6
      s.m_requested_mcast_if (destroy_rtp_devices w s.m_network_devices)).1
        = Outcome.returned none) :
    change_tx_port env s w tx_port =
      (Outcome.thrown "Changing RX port failed!",
       { s with m_send_port_number := tx_port, m_network_devices := none },
       (initialize_network env s.m_requested_receiver s.m_recv_port_number tx_port s.m_ipv6
          s.m_requested_mcast_if (destroy_rtp_devices w s.m_network_devices)).2) := by
  unfold change_tx_port
  simp only [h]

theorem destroy_rtp_devices_live_eq_nil (s : Session) (w : World)
    (h : s.m_network_devices = some (w.live.map Endpoint.handle)) :
    (destroy_rtp_devices w s.m_network_devices).live = [] := by
  rw [h]
  show ((w.live.map Endpoint.handle).foldl rtp_done w).live = []
  rw [rollback_devices_live, List.filter_eq_nil_iff]
  intro e he
  simp only [Bool.not_eq_true, Bool.not_eq_false', List.contains_eq_any_beq, List.any_eq_true]
  exact ⟨e.handle, List.mem_map_of_mem _ he, by simp⟩

theorem RegistryInv.of_frame {env : Env} {w w1 : World} (hinv : RegistryInv env w)
    (h1 : opened w1 = opened w) (h2 : w1.registry = w.registry)
    (h3 : w1.rtp_calls = w.rtp_calls) (h4 : ∀ e ∈ w1.live, e.handle ∈ opened w) :
    RegistryInv env w1 :=
  ⟨by rw [h1, h2]; exact hinv.registry_eq,
   by rw [h1, h3]; exact hinv.opened_lt,
   by rw [h1]; exact hinv.opened_nodup,
   by rw [h1]; exact h4⟩

theorem RegistryInv.rollback {env : Env} {w : World} (hinv : RegistryInv env w)
    (ds : List Handle) : RegistryInv env (ds.foldl rtp_done w) := by
  apply hinv.of_frame (opened_rollback w ds) (rollback_devices_registry w ds)
    (rollback_devices_rtp_calls w ds)
  intro e he
  rw [rollback_devices_live] at he
  exact hinv.live_opened e (List.mem_of_mem_filter he)

theorem RegistryInv.destroy {env : Env} {w : World} (hinv : RegistryInv env w)
    (devices : Option (List Handle)) : RegistryInv env (destroy_rtp_devices w devices) := by
  cases devices with
  | none => exact hinv
  | some ds => exact hinv.rollback ds

theorem RegistryInv.open_failure {env : Env} {w : World} (hinv : RegistryInv env w)
    (req : OpenReq) (h : env.rtp_init_if_ok w.rtp_calls req = false) :
    RegistryInv env (rtp_init_if env w req).2 := by
  have hw1 := rtp_init_if_failure env w req h
  have ho : opened (rtp_init_if env w req).2 = opened w := by
    rw [opened_append w [Event.rtp_init_if req none] _ (by rw [hw1])]; simp
  refine ⟨?_, ?_, ?_, ?_⟩
  · rw [ho, hw1]; exact hinv.registry_eq
  · intro h' hh
    rw [ho] at hh
    have := hinv.opened_lt h' hh
    rw [hw1]
    exact Nat.lt_succ_of_lt this
  · rw [ho]; exact hinv.opened_nodup
  · rw [ho, hw1]; exact hinv.live_opened

theorem RegistryInv.open_success {env : Env} {w : World} (hinv : RegistryInv env w)
    (req : OpenReq) (h : env.rtp_init_if_ok w.rtp_calls req = true) :
    RegistryInv env (setup_device env (rtp_init_if env w req).2 w.rtp_calls) := by
  have hw1 := rtp_init_if_success env w req h
  have ho : opened (setup_device env (rtp_init_if env w req).2 w.rtp_calls)
      = opened w ++ [w.rtp_calls] := by
    rw [opened_setup_device,
      opened_append w [Event.rtp_init_if req (some w.rtp_calls)] _ (by rw [hw1])]
    rfl
  refine ⟨?_, ?_, ?_, ?_⟩
  · rw [ho, setup_device_eq, hw1]
    simp [hinv.registry_eq]
  · intro h' hh
    rw [ho, List.mem_append, List.mem_singleton] at hh
    rw [setup_device_eq, hw1]
    rcases hh with hh | hh
    · exact Nat.lt_succ_of_lt (hinv.opened_lt h' hh)
    · rw [hh]; exact Nat.lt_succ_self _
  · rw [ho]
    apply List.Nodup.append hinv.opened_nodup (List.nodup_singleton _)
    intro x hx hx'
    rw [List.mem_singleton] at hx'
    subst hx'
    exact absurd (hinv.opened_lt _ hx) (Nat.lt_irrefl _)
  · intro e he
    rw [setup_device_eq, hw1] at he
    simp only [List.mem_append, List.mem_singleton] at he
    rw [ho, List.mem_append, List.mem_singleton]
    rcases he with he | he
    · exact Or.inl (hinv.live_opened e he)
    · right; rw [he]

theorem open_loop_registry_inv (env : Env) (rb sb : Int) (use_ipv6 : Bool)
    (mcast_if : Option CStr) (ts : List CStr) (st : LoopState) (w : World) (ds : List Handle)
    (hinv : LoopInv rb sb ts st) (hd : st.devices = some ds) (hreg : RegistryInv env w)
    (hnf : (open_loop env rb sb use_ipv6 mcast_if ts.length st w).1 ≠ Outcome.fault) :
    RegistryInv env (open_loop env rb sb use_ipv6 mcast_if ts.length st w).2 := by
  induction ts generalizing st w ds with
  | nil => exact hreg
  | cons t ts ih =>
    have hstep := open_loop_step env rb sb use_ipv6 mcast_if t ts st w hinv
    rw [hd] at hstep
    rw [List.length_cons] at hnf ⊢
    rw [hstep] at hnf ⊢
    have hlen := hinv.index_eq ds hd
    by_cases hok : env.rtp_init_if_ok w.rtp_calls (request_at rb sb use_ipv6 mcast_if st.index t)
        = true
    · simp only [hok, ↓reduceIte] at hnf ⊢
      exact ih _ _ (ds ++ [w.rtp_calls])
        (hinv.next _ (by intro ds' h; cases h; simp [hlen])) rfl
        (hreg.open_success _ hok) hnf
    · have hok' : env.rtp_init_if_ok w.rtp_calls
          (request_at rb sb use_ipv6 mcast_if st.index t) = false := by simpa using hok
      simp only [hok', Bool.false_eq_true, ↓reduceIte] at hnf ⊢
      cases ts with
      | nil => exact (hreg.open_failure _ hok').rollback ds
      | cons t2 ts2 =>
        exact absurd (open_loop_null env rb sb use_ipv6 mcast_if _ _ _ rfl) hnf

theorem initialize_network_registry_inv (env : Env) (addrs : CStr) (rb sb : Int)
    (use_ipv6 : Bool) (mcast_if : Option CStr) (w : World) (hreg : RegistryInv env w)
    (hnf : (initialize_network env addrs rb sb use_ipv6 mcast_if w).1 ≠ Outcome.fault) :
    RegistryInv env (initialize_network env addrs rb sb use_ipv6 mcast_if w).2 := by
  cases hds : destinations addrs with
  | nil =>
    have h1 := strtok_r_fst addrs
    rw [hds] at h1
    rw [initialize_network_no_token env addrs rb sb use_ipv6 mcast_if w h1]
    exact hreg
  | cons t ts =>
    obtain ⟨heq, hinv⟩ := initialize_network_eq env addrs rb sb use_ipv6 mcast_if w t ts hds
    rw [heq] at hnf ⊢
    exact open_loop_registry_inv env rb sb use_ipv6 mcast_if (t :: ts) _ w [] hinv rfl hreg hnf

theorem change_tx_port_registry_inv (env : Env) (s : Session) (w : World) (p : Int)
    (hreg : RegistryInv env w)
    (hnf : (change_tx_port env s w p).1 ≠ Outcome.fault) :
    RegistryInv env (change_tx_port env s w p).2.2 := by
  have key := initialize_network_registry_inv env s.m_requested_receiver s.m_recv_port_number p
    s.m_ipv6 s.m_requested_mcast_if (destroy_rtp_devices w s.m_network_devices)
    (hreg.destroy _)
  unfold change_tx_port at hnf ⊢
  simp only at hnf ⊢
  cases hr : (initialize_network env s.m_requested_receiver s.m_recv_port_number p
    s.m_ipv6 s.m_requested_mcast_if (destroy_rtp_devices w s.m_network_devices)).1 with
  | returned devices =>
    have := key (by rw [hr]; simp)
    cases devices <;> simpa [hr] using this
  | thrown what => have := key (by rw [hr]; simp); simpa [hr] using this
  | aborted => have := key (by rw [hr]; simp); simpa [hr] using this
  | fault => simp [hr] at hnf
  | diverged => have := key (by rw [hr]; simp); simpa [hr] using this

theorem EndpointsUntouched.endpoints_refl (w : World) : EndpointsUntouched w w :=
  ⟨rfl, rfl, rfl, rfl, rfl⟩

theorem EndpointsUntouched.endpoints_trans {w w1 w2 : World} (h1 : EndpointsUntouched w w1)
    (h2 : EndpointsUntouched w1 w2) : EndpointsUntouched w w2 :=
  ⟨h2.opened_eq.trans h1.opened_eq, h2.closed_eq.trans h1.closed_eq,
   h2.registry_eq.trans h1.registry_eq, h2.rtp_calls_eq.trans h1.rtp_calls_eq,
   h2.live_eq.trans h1.live_eq⟩

theorem ldgm_encoder_destroy_untouched (w : World) (h : Handle) :
    EndpointsUntouched w (ldgm_encoder_destroy w h) :=
  ⟨by simp [opened, ldgm_encoder_destroy], by simp [closed, ldgm_encoder_destroy], rfl, rfl, rfl⟩

theorem exit_uv_untouched (w : World) (status : Int) : EndpointsUntouched w (exit_uv w status) :=
  ⟨by simp [opened, exit_uv], by simp [closed, exit_uv], rfl, rfl, rfl⟩

theorem ldgm_encoder_init_with_param_untouched (env : Env) (w : World) (mtu_len data_len : Int)
    (loss_pct : CDouble) :
    EndpointsUntouched w (ldgm_encoder_init_with_param env w mtu_len data_len loss_pct).2 := by
  unfold ldgm_encoder_init_with_param ldgm_encoder_construct
  split <;> exact ⟨by simp [opened], by simp [closed], rfl, rfl, rfl⟩

theorem ldgm_encoder_init_with_cfg_untouched (env : Env) (w : World) (cfg : CStr) :
    EndpointsUntouched w (ldgm_encoder_init_with_cfg env w cfg).2 := by
  unfold ldgm_encoder_init_with_cfg ldgm_encoder_construct
  split <;> exact ⟨by simp [opened], by simp [closed], rfl, rfl, rfl⟩

theorem store_ldgm_state_untouched (s : Session) (w : World) (r : Option Handle × World)
    (h : EndpointsUntouched w r.2) : EndpointsUntouched w (store_ldgm_state s r).2.2 := by
  unfold store_ldgm_state
  cases r.1 with
  | none => exact h.endpoints_trans (exit_uv_untouched _ _)
  | some _ => exact h

theorem change_ldgm_untouched (env : Env) (s : Session) (w : World) (ldgm_cfg : CStr) :
    EndpointsUntouched w (process_message env s w (Msg.SENDER_MSG_CHANGE_LDGM ldgm_cfg)).2.2 := by
  have h1 : EndpointsUntouched w (match s.m_ldgm_state with
      | some h => ldgm_encoder_destroy w h
      | none => w) := by
    cases s.m_ldgm_state with
    | none => exact EndpointsUntouched.endpoints_refl w
    | some h => exact ldgm_encoder_destroy_untouched w h
  unfold process_message
  simp only
  generalize (match s.m_ldgm_state with
      | some h => ldgm_encoder_destroy w h
      | none => w) = w1 at h1
  split
  · split
    · exact h1
    · split
      · exact h1
      · split
        · exact h1
        · exact store_ldgm_state_untouched s w _
            (h1.endpoints_trans (ldgm_encoder_init_with_param_untouched env w1 _ _ _))
  · split
    · exact store_ldgm_state_untouched s w _
        (h1.endpoints_trans (ldgm_encoder_init_with_cfg_untouched env w1 _))
    · exact h1

theorem RegistryInv.registry_untouched {env : Env} {w w1 : World} (hinv : RegistryInv env w)
    (h : EndpointsUntouched w w1) : RegistryInv env w1 :=
  hinv.of_frame h.opened_eq h.registry_eq h.rtp_calls_eq
    (by rw [h.live_eq]; exact hinv.live_opened)

theorem RegistryInv.registry_change_dest {env : Env} {w : World} (hinv : RegistryInv env w)
    (h : Handle) (addr : CStr) : RegistryInv env (rtp_change_dest env w h addr).2 := by
  refine @RegistryInv.of_frame env w (rtp_change_dest env w h addr).2 hinv ?_ rfl rfl ?_
  · simp [opened, rtp_change_dest]
  intro e he
  simp only [rtp_change_dest] at he
  split at he
  · rw [List.mem_map] at he
    obtain ⟨e0, he0, rfl⟩ := he
    have := hinv.live_opened e0 he0
    split <;> exact this
  · exact hinv.live_opened e he

theorem process_message_registry_inv (env : Env) (s : Session) (w : World) (msg : Msg)
    (hreg : RegistryInv env w)
    (hnf : (process_message env s w msg).1 ≠ Outcome.fault) :
    RegistryInv env (process_message env s w msg).2.2 := by
  cases msg with
  | SENDER_MSG_CHANGE_RECEIVER receiver =>
    unfold process_message
    simp only
    split
    · split
      · exact hreg.registry_change_dest _ _
      · exact hreg
    · exact hreg
  | SENDER_MSG_CHANGE_PORT port => exact change_tx_port_registry_inv env s w port hreg hnf
  | SENDER_MSG_PAUSE => exact hreg
  | SENDER_MSG_PLAY => exact hreg
  | SENDER_MSG_CHANGE_LDGM ldgm_cfg => exact hreg.registry_untouched (change_ldgm_untouched env s w ldgm_cfg)

theorem pdb_init_registry_inv (env : Env) : RegistryInv env (pdb_init World.init) :=
  ⟨rfl, by intro h hh; simp [opened, pdb_init, World.init] at hh,
   by simp [opened, pdb_init, World.init],
   by intro e he; simp [pdb_init, World.init] at he⟩

theorem rtp_video_rxtx_registry_inv (env : Env) (a : CtorArgs) (s : Session) (w : World)
    (h : rtp_video_rxtx env a World.init = (Outcome.returned s, w)) : RegistryInv env w := by
  have key := initialize_network_registry_inv env a.receiver a.rx_port a.tx_port a.use_ipv6
    a.mcast_if (pdb_init World.init) (pdb_init_registry_inv env)
  unfold rtp_video_rxtx at h
  split at h
  · cases h
  · simp only at h
    cases hr : (initialize_network env a.receiver a.rx_port a.tx_port a.use_ipv6
      a.mcast_if (pdb_init World.init)).1 with
    | returned devices =>
      have hk := key (by rw [hr]; simp)
      rw [hr] at h
      cases devices with
      | none => simp at h
      | some ds =>
        simp only at h
        split at h
        · cases h; exact hk
        · cases h
    | thrown what => rw [hr] at h; cases h
    | aborted => rw [hr] at h; cases h
    | fault => rw [hr] at h; cases h
    | diverged => rw [hr] at h; cases h

theorem reachable_registry_inv (env : Env) (a : CtorArgs) (s : Session) (w : World)
    (h : Reachable env a s w) : RegistryInv env w := by
  induction h with
  | ctor hc => exact rtp_video_rxtx_registry_inv env a _ _ hc
  | step msg _ hstep ih =>
    have := process_message_registry_inv env _ _ msg ih (by rw [hstep]; simp)
    rw [hstep] at this
    exact this

theorem strtok_r_of_tokens_cons (d : Char) (s : CStr) (t : CStr) (ts : List CStr)
    (h : tokens d s = t :: ts) :
    strtok_r s [d] = (some t, (strtok_r s [d]).2) ∧ tokens d (strtok_r s [d]).2 = ts := by
  have h1 := strtok_r_fst_tokens d s
  have h2 := strtok_r_snd_tokens d s
  rw [h] at h1 h2
  refine ⟨?_, h2⟩
  have h3 : (strtok_r s [d]).1 = some t := h1
  rw [← h3]

theorem ldgm_construct_ok (env : Env) (w : World) (ev : Option Handle → Event)
    (hok : env.ldgm_init_ok w.ldgm_calls = true) :
    ldgm_encoder_construct env w ev =
      (some w.ldgm_calls,
       { w with trace := w.trace ++ [ev (some w.ldgm_calls)],
                ldgm_calls := w.ldgm_calls + 1,
                ldgm_live := w.ldgm_live ++ [w.ldgm_calls] }) := by
  simp [ldgm_encoder_construct, hok]

theorem change_ldgm_percents (env : Env) (s : Session) (w : World) (ldgm_cfg : CStr)
    (t1 t2 t3 : CStr) (ts : List CStr)
    (hp : ldgm_cfg.take PERCENTS.length = PERCENTS)
    (ht : tokens ' ' (ldgm_cfg.drop PERCENTS.length) = t1 :: t2 :: t3 :: ts) :
    process_message env s w (Msg.SENDER_MSG_CHANGE_LDGM ldgm_cfg) =
      store_ldgm_state s (ldgm_encoder_init_with_param env
        (match s.m_ldgm_state with
          | some h => ldgm_encoder_destroy w h
          | none => w) (atoi t1) (atoi t2) (env.atof t3)) := by
  obtain ⟨e1, r1⟩ := strtok_r_of_tokens_cons ' ' _ _ _ ht
  obtain ⟨e2, r2⟩ := strtok_r_of_tokens_cons ' ' _ _ _ r1
  obtain ⟨e3, _⟩ := strtok_r_of_tokens_cons ' ' _ _ _ r2
  have hs : strncmp_eq0 ldgm_cfg PERCENTS PERCENTS.length = true := by
    simp [strncmp_eq0, hp]
  unfold process_message
  simp only [hs, ↓reduceIte]
  rw [e1]
  simp only
  rw [e2]
  simp only
  rw [e3]

theorem change_ldgm_cfg (env : Env) (s : Session) (w : World) (ldgm_cfg : CStr)
    (hc : ldgm_cfg.take CFG.length = CFG) :
    process_message env s w (Msg.SENDER_MSG_CHANGE_LDGM ldgm_cfg) =
      store_ldgm_state s (ldgm_encoder_init_with_cfg env
        (match s.m_ldgm_state with
          | some h => ldgm_encoder_destroy w h
          | none => w) (ldgm_cfg.drop CFG.length)) := by
  have hs : strncmp_eq0 ldgm_cfg CFG CFG.length = true := by
    simp [strncmp_eq0, hc]
  have hn : strncmp_eq0 ldgm_cfg PERCENTS PERCENTS.length = false := by
    simp only [strncmp_eq0, beq_eq_false_iff_ne, ne_eq]
    intro h
    have h4 := congrArg (List.take 1) h
    have h5 := congrArg (List.take 1) hc
    simp only [List.take_take, PERCENTS, CFG, List.length_cons, List.length_nil] at h4 h5
    simp at h4 h5
    rw [h5] at h4
    simp at h4
  unfold process_message
  simp only [hs, hn, ↓reduceIte, Bool.false_eq_true]

theorem change_ldgm_well_formed (env : Env) (s : Session) (w : World) (ldgm_cfg : CStr)
    (hwf : ldgm_cfg_well_formed ldgm_cfg) :
    ∃ ev : Option Handle → Event, (∀ r h, ev r ≠ Event.ldgm_encoder_destroy h) ∧
      process_message env s w (Msg.SENDER_MSG_CHANGE_LDGM ldgm_cfg) =
        store_ldgm_state s (ldgm_encoder_construct env
          (match s.m_ldgm_state with
            | some h => ldgm_encoder_destroy w h
            | none => w) ev) := by
  rcases hwf with ⟨hp, hlen⟩ | hc
  · cases ht : tokens ' ' (ldgm_cfg.drop PERCENTS.length) with
    | nil => rw [ht] at hlen; simp at hlen
    | cons t1 l1 =>
      cases l1 with
      | nil => rw [ht] at hlen; simp at hlen
      | cons t2 l2 =>
        cases l2 with
        | nil => rw [ht] at hlen; simp at hlen
        | cons t3 ts =>
          exact ⟨_, by intro r h; simp, change_ldgm_percents env s w ldgm_cfg t1 t2 t3 ts hp ht⟩
  · exact ⟨_, by intro r h; simp, change_ldgm_cfg env s w ldgm_cfg hc⟩

theorem change_ldgm_step (env : Env) (s : Session) (w : World) (ldgm_cfg : CStr)
    (hown : w.ldgm_live = s.m_ldgm_state.toList)
    (hwf : ldgm_cfg_well_formed ldgm_cfg)
    (hok : env.ldgm_init_ok w.ldgm_calls = true) :
    (process_message env s w (Msg.SENDER_MSG_CHANGE_LDGM ldgm_cfg)).1 = Outcome.returned () ∧
    (process_message env s w (Msg.SENDER_MSG_CHANGE_LDGM ldgm_cfg)).2.1
      = { s with m_ldgm_state := some w.ldgm_calls } ∧
    (process_message env s w (Msg.SENDER_MSG_CHANGE_LDGM ldgm_cfg)).2.2.ldgm_live
      = [w.ldgm_calls] ∧
    (process_message env s w (Msg.SENDER_MSG_CHANGE_LDGM ldgm_cfg)).2.2.ldgm_calls
      = w.ldgm_calls + 1 ∧
    ldgm_destroyed (process_message env s w (Msg.SENDER_MSG_CHANGE_LDGM ldgm_cfg)).2.2
      = ldgm_destroyed w ++ s.m_ldgm_state.toList := by
  obtain ⟨ev, hev, heq⟩ := change_ldgm_well_formed env s w ldgm_cfg hwf
  rw [heq]
  have hnd : ∀ r, (match ev r with
      | Event.ldgm_encoder_destroy h => some h
      | _ => none) = none := by
    intro r
    have := hev r
    cases hr : ev r <;> simp_all
  cases hs : s.m_ldgm_state with
  | none =>
    rw [hs] at hown
    simp only
    rw [ldgm_construct_ok env w ev hok]
    simp [store_ldgm_state, hown, ldgm_destroyed, hnd]
  | some h =>
    rw [hs] at hown
    simp only
    have hc : (ldgm_encoder_destroy w h).ldgm_calls = w.ldgm_calls := rfl
    rw [ldgm_construct_ok env _ ev (by rw [hc]; exact hok)]
    simp [store_ldgm_state, hown, ldgm_destroyed, hnd, ldgm_encoder_destroy]

theorem initialize_network_some_all_ok (env : Env) (addrs : CStr) (rb sb : Int) (use_ipv6 : Bool)
    (mcast_if : Option CStr) (w : World) (hs : List Handle)
    (h : (initialize_network env addrs rb sb use_ipv6 mcast_if w).1
      = Outcome.returned (some hs)) :
    ∀ i t, (destinations addrs)[i]? = some t →
      env.rtp_init_if_ok (w.rtp_calls + i) (request_at rb sb use_ipv6 mcast_if i t) = true := by
  intro i
  induction i using Nat.strong_induction_on with
  | _ i ih =>
    intro t ht
    by_contra hne
    have hfalse : env.rtp_init_if_ok (w.rtp_calls + i)
        (request_at rb sb use_ipv6 mcast_if i t) = false := by simpa using hne
    have hi : i < (destinations addrs).length := (List.getElem?_eq_some_iff.1 ht).1
    obtain ⟨hA, hB⟩ := initialize_network_fail_at env addrs rb sb use_ipv6 mcast_if w i hi
      (fun j t' hj hjt => ih j hj t' hjt)
      (by intro t' ht'
          rw [ht] at ht'
          cases ht'
          exact hfalse)
    by_cases hlast : i + 1 = (destinations addrs).length
    · rw [(hB hlast).1] at h; cases h
    · rw [hA (by omega)] at h; cases h

theorem initialize_network_some (env : Env) (addrs : CStr) (rb sb : Int) (use_ipv6 : Bool)
    (mcast_if : Option CStr) (w : World) (hs : List Handle)
    (h : (initialize_network env addrs rb sb use_ipv6 mcast_if w).1
      = Outcome.returned (some hs)) :
    destinations addrs ≠ [] ∧
      hs = List.range' w.rtp_calls (destinations addrs).length ∧
      OpensAll env rb sb use_ipv6 mcast_if 0 (destinations addrs) w
        (initialize_network env addrs rb sb use_ipv6 mcast_if w).2 := by
  have hne : destinations addrs ≠ [] := by
    intro hnil
    have h1 := strtok_r_fst addrs
    rw [hnil] at h1
    rw [initialize_network_no_token env addrs rb sb use_ipv6 mcast_if w h1] at h
    cases h
  obtain ⟨h1, h2⟩ := initialize_network_all_ok env addrs rb sb use_ipv6 mcast_if w hne
    (initialize_network_some_all_ok env addrs rb sb use_ipv6 mcast_if w hs h)
  rw [h1] at h
  cases h
  exact ⟨hne, rfl, h2⟩

theorem session_open_of_opened (env : Env) (s : Session) (w0 : World) (hs : List Handle)
    (h : (initialize_network env s.m_requested_receiver s.m_recv_port_number
        s.m_send_port_number s.m_ipv6 s.m_requested_mcast_if w0).1
      = Outcome.returned (some hs))
    (hlive : w0.live = [])
    (hdev : s.m_network_devices = some hs)
    (hcount : s.m_connections_count = hs.length) :
    SessionOpen s (initialize_network env s.m_requested_receiver s.m_recv_port_number
        s.m_send_port_number s.m_ipv6 s.m_requested_mcast_if w0).2 := by
  obtain ⟨hne, hhs, hall⟩ := initialize_network_some env _ _ _ _ _ w0 hs h
  have e2 := hall.live_eq
  rw [hlive, expected_endpoints_eq_map] at e2
  simp only [List.nil_append, Nat.zero_add] at e2
  have hlen : (initialize_network env s.m_requested_receiver s.m_recv_port_number
        s.m_send_port_number s.m_ipv6 s.m_requested_mcast_if w0).2.live.length
      = (destinations s.m_requested_receiver).length := by
    rw [e2]; simp
  refine ⟨?_, ?_, hlen, hne, ?_, ?_⟩
  · rw [hdev, hhs, e2, List.map_map, List.range'_eq_map_range]
    rfl
  · rw [hcount, hhs, hlen]; simp
  · rw [hlen, e2, List.map_map]; rfl
  · rw [hlen, e2, List.map_map]; rfl

theorem SessionOpen.session_untouched {s s1 : Session} {w w1 : World} (h : SessionOpen s w)
    (hw : w1.live = w.live)
    (h1 : s1.m_network_devices = s.m_network_devices)
    (h2 : s1.m_connections_count = s.m_connections_count)
    (h3 : s1.m_requested_receiver = s.m_requested_receiver)
    (h4 : s1.m_recv_port_number = s.m_recv_port_number)
    (h5 : s1.m_send_port_number = s.m_send_port_number) : SessionOpen s1 w1 := by
  refine ⟨?_, ?_, ?_, ?_, ?_, ?_⟩
  · rw [h1, hw]; exact h.devices_eq
  · rw [h2, hw]; exact h.count_eq
  · rw [h3, hw]; exact h.dests_eq
  · rw [h3]; exact h.nonempty
  · rw [h4, hw]; exact h.rx_eq
  · rw [h5, hw]; exact h.tx_eq

theorem SessionOpen.session_change_dest {s : Session} {w : World} (h : SessionOpen s w) (env : Env)
    (hd : Handle) (addr : CStr) : SessionOpen s (rtp_change_dest env w hd addr).2 := by
  have hmap : ∀ l : List Endpoint,
      (l.map (fun e => if e.handle = hd then { e with addr := some addr } else e)).map
          Endpoint.handle = l.map Endpoint.handle ∧
      (l.map (fun e => if e.handle = hd then { e with addr := some addr } else e)).map
          Endpoint.rx_port = l.map Endpoint.rx_port ∧
      (l.map (fun e => if e.handle = hd then { e with addr := some addr } else e)).map
          Endpoint.tx_port = l.map Endpoint.tx_port := by
    intro l
    refine ⟨?_, ?_, ?_⟩ <;>
    · rw [List.map_map]
      apply List.map_congr_left
      intro e _
      simp only [Function.comp]
      split <;> rfl
  simp only [rtp_change_dest]
  split
  · obtain ⟨m1, m2, m3⟩ := hmap w.live
    refine ⟨?_, ?_, ?_, h.nonempty, ?_, ?_⟩
    · simp only [m1]; exact h.devices_eq
    · simp only [List.length_map]; exact h.count_eq
    · simp only [List.length_map]; exact h.dests_eq
    · simp only [m2, List.length_map]; exact h.rx_eq
    · simp only [m3, List.length_map]; exact h.tx_eq
  · exact ⟨h.devices_eq, h.count_eq, h.dests_eq, h.nonempty, h.rx_eq, h.tx_eq⟩

theorem store_ldgm_state_session (s : Session) (r : Option Handle × World) :
    (store_ldgm_state s r).2.1 = { s with m_ldgm_state := r.1 } := by
  unfold store_ldgm_state
  cases r.1 <;> rfl

theorem change_ldgm_session (env : Env) (s : Session) (w : World) (ldgm_cfg : CStr) :
    ∃ st, (process_message env s w (Msg.SENDER_MSG_CHANGE_LDGM ldgm_cfg)).2.1
      = { s with m_ldgm_state := st } := by
  unfold process_message
  simp only
  split
  · split
    · exact ⟨s.m_ldgm_state, rfl⟩
    · split
      · exact ⟨s.m_ldgm_state, rfl⟩
      · split
        · exact ⟨s.m_ldgm_state, rfl⟩
        · exact ⟨_, store_ldgm_state_session s _⟩
  · split
    · exact ⟨_, store_ldgm_state_session s _⟩
    · exact ⟨s.m_ldgm_state, rfl⟩

theorem change_tx_port_session_open (env : Env) (s : Session) (w : World) (p : Int)
    (hopen : SessionOpen s w)
    (hret : (change_tx_port env s w p).1 = Outcome.returned ()) :
    SessionOpen (change_tx_port env s w p).2.1 (change_tx_port env s w p).2.2 := by
  have hlive := destroy_rtp_devices_live_eq_nil s w hopen.devices_eq
  cases hr : (initialize_network env s.m_requested_receiver s.m_recv_port_number p s.m_ipv6
      s.m_requested_mcast_if (destroy_rtp_devices w s.m_network_devices)).1 with
  | returned devices =>
    cases devices with
    | none => rw [change_tx_port_of_none env s w p hr] at hret; cases hret
    | some hs =>
      rw [change_tx_port_of_some env s w p hs hr]
      obtain ⟨_, hhs, _⟩ := initialize_network_some env _ _ _ _ _ _ hs hr
      exact session_open_of_opened env
        { s with m_send_port_number := p, m_network_devices := some hs }
        (destroy_rtp_devices w s.m_network_devices) hs hr hlive rfl
        (by show s.m_connections_count = hs.length
            rw [hopen.count_eq, hopen.dests_eq, hhs]; simp)
  | thrown what => unfold change_tx_port at hret; simp [hr] at hret
  | aborted => unfold change_tx_port at hret; simp [hr] at hret
  | fault => unfold change_tx_port at hret; simp [hr] at hret
  | diverged => unfold change_tx_port at hret; simp [hr] at hret

theorem process_message_session_open (env : Env) (s : Session) (w : World) (msg : Msg)
    (hopen : SessionOpen s w)
    (hret : (process_message env s w msg).1 = Outcome.returned ()) :
    SessionOpen (process_message env s w msg).2.1 (process_message env s w msg).2.2 := by
  cases msg with
  | SENDER_MSG_CHANGE_RECEIVER receiver =>
    unfold process_message
    simp only
    split
    · split
      · exact hopen.session_change_dest env _ _
      · exact hopen
    · exact hopen
  | SENDER_MSG_CHANGE_PORT port => exact change_tx_port_session_open env s w port hopen hret
  | SENDER_MSG_PAUSE => exact hopen.session_untouched rfl rfl rfl rfl rfl rfl
  | SENDER_MSG_PLAY => exact hopen.session_untouched rfl rfl rfl rfl rfl rfl
  | SENDER_MSG_CHANGE_LDGM ldgm_cfg =>
    obtain ⟨st, hst⟩ := change_ldgm_session env s w ldgm_cfg
    have hw := change_ldgm_untouched env s w ldgm_cfg
    rw [hst]
    exact hopen.session_untouched hw.live_eq rfl rfl rfl rfl rfl

theorem rtp_video_rxtx_session_open (env : Env) (a : CtorArgs) (s : Session) (w : World)
    (h : rtp_video_rxtx env a World.init = (Outcome.returned s, w)) : SessionOpen s w := by
  unfold rtp_video_rxtx at h
  split at h
  · cases h
  · simp only at h
    cases hr : (initialize_network env a.receiver a.rx_port a.tx_port a.use_ipv6
      a.mcast_if (pdb_init World.init)).1 with
    | returned devices =>
      rw [hr] at h
      cases devices with
      | none => simp at h
      | some ds =>
        simp only at h
        split at h
        · simp only [Prod.mk.injEq, Outcome.returned.injEq] at h
          obtain ⟨hs, hw⟩ := h
          subst hs
          rw [← hw]
          exact session_open_of_opened env _ (pdb_init World.init) ds hr rfl rfl rfl
        · cases h
    | thrown what => rw [hr] at h; cases h
    | aborted => rw [hr] at h; cases h
    | fault => rw [hr] at h; cases h
    | diverged => rw [hr] at h; cases h

theorem reachable_session_open (env : Env) (a : CtorArgs) (s : Session) (w : World)
    (h : Reachable env a s w) : SessionOpen s w := by
  induction h with
  | ctor hc => exact rtp_video_rxtx_session_open env a _ _ hc
  | step msg _ hstep ih =>
    have := process_message_session_open env _ _ msg ih (by rw [hstep])
    rw [hstep] at this
    exact this

theorem LdgmUntouched.ldgm_refl (w : World) : LdgmUntouched w w :=
  ⟨rfl, rfl, rfl⟩

theorem LdgmUntouched.ldgm_trans {w w1 w2 : World} (h1 : LdgmUntouched w w1)
    (h2 : LdgmUntouched w1 w2) : LdgmUntouched w w2 :=
  ⟨h2.destroyed_eq.trans h1.destroyed_eq, h2.ldgm_calls_eq.trans h1.ldgm_calls_eq,
   h2.ldgm_live_eq.trans h1.ldgm_live_eq⟩

theorem rtp_init_if_ldgm_untouched (env : Env) (w : World) (req : OpenReq) :
    LdgmUntouched w (rtp_init_if env w req).2 := by
  unfold rtp_init_if
  split <;> exact ⟨by simp [ldgm_destroyed], rfl, rfl⟩

theorem rtp_done_ldgm_untouched (w : World) (h : Handle) : LdgmUntouched w (rtp_done w h) :=
  ⟨by simp [ldgm_destroyed, rtp_done], rfl, rfl⟩

theorem rollback_ldgm_untouched (w : World) (ds : List Handle) :
    LdgmUntouched w (ds.foldl rtp_done w) := by
  induction ds generalizing w with
  | nil => exact LdgmUntouched.ldgm_refl w
  | cons d ds ih => exact (rtp_done_ldgm_untouched w d).ldgm_trans (ih (rtp_done w d))

theorem setup_device_ldgm_untouched (env : Env) (w : World) (h : Handle) :
    LdgmUntouched w (setup_device env w h) := by
  rw [setup_device_eq]
  refine ⟨?_, rfl, rfl⟩
  unfold setup_events
  cases env.rtp_set_recv_buf_ok h <;> simp [ldgm_destroyed]

theorem rtp_change_dest_ldgm_untouched (env : Env) (w : World) (h : Handle) (addr : CStr) :
    LdgmUntouched w (rtp_change_dest env w h addr).2 :=
  ⟨by simp [ldgm_destroyed, rtp_change_dest], rfl, rfl⟩

theorem open_loop_ldgm_untouched (env : Env) (rb sb : Int) (use_ipv6 : Bool)
    (mcast_if : Option CStr) (n : Nat) (st : LoopState) (w : World) :
    LdgmUntouched w (open_loop env rb sb use_ipv6 mcast_if n st w).2 := by
  induction n generalizing st w with
  | zero => exact LdgmUntouched.ldgm_refl w
  | succ n ih =>
    unfold open_loop
    simp only
    split
    · exact rtp_init_if_ldgm_untouched env w _
    · split
      · exact ((rtp_init_if_ldgm_untouched env w _).ldgm_trans
          (setup_device_ldgm_untouched env _ _)).ldgm_trans (ih _ _)
      · exact ((rtp_init_if_ldgm_untouched env w _).ldgm_trans
          (rollback_ldgm_untouched _ _)).ldgm_trans (ih _ _)

theorem initialize_network_ldgm_untouched (env : Env) (addrs : CStr) (rb sb : Int)
    (use_ipv6 : Bool) (mcast_if : Option CStr) (w : World) :
    LdgmUntouched w (initialize_network env addrs rb sb use_ipv6 mcast_if w).2 := by
  unfold initialize_network
  split
  · exact LdgmUntouched.ldgm_refl w
  · split
    · exact LdgmUntouched.ldgm_refl w
    · exact open_loop_ldgm_untouched env rb sb use_ipv6 mcast_if _ _ w

theorem destroy_rtp_devices_ldgm_untouched (w : World) (devices : Option (List Handle)) :
    LdgmUntouched w (destroy_rtp_devices w devices) := by
  cases devices with
  | none => exact LdgmUntouched.ldgm_refl w
  | some ds => exact rollback_ldgm_untouched w ds

theorem change_tx_port_ldgm (env : Env) (s : Session) (w : World) (p : Int) :
    LdgmUntouched w (change_tx_port env s w p).2.2 ∧
      (change_tx_port env s w p).2.1.m_ldgm_state = s.m_ldgm_state := by
  have key := (destroy_rtp_devices_ldgm_untouched w s.m_network_devices).ldgm_trans
    (initialize_network_ldgm_untouched env s.m_requested_receiver s.m_recv_port_number p
      s.m_ipv6 s.m_requested_mcast_if (destroy_rtp_devices w s.m_network_devices))
  unfold change_tx_port
  simp only
  split
  · split <;> exact ⟨key, rfl⟩
  all_goals exact ⟨key, rfl⟩

theorem LdgmInv.inv_untouched {s s1 : Session} {w w1 : World} (h : LdgmInv s w)
    (hw : LdgmUntouched w w1) (hs : s1.m_ldgm_state = s.m_ldgm_state) : LdgmInv s1 w1 :=
  ⟨by rw [hw.ldgm_live_eq, hs]; exact h.own,
   by rw [hw.destroyed_eq, hw.ldgm_live_eq, hw.ldgm_calls_eq]; exact h.known⟩

theorem LdgmInv.after_destroy {s : Session} {w : World} (h : LdgmInv s w) :
    (match s.m_ldgm_state with
      | some e => ldgm_encoder_destroy w e
      | none => w).ldgm_live = [] ∧
    (match s.m_ldgm_state with
      | some e => ldgm_encoder_destroy w e
      | none => w).ldgm_calls = w.ldgm_calls ∧
    ldgm_destroyed (match s.m_ldgm_state with
      | some e => ldgm_encoder_destroy w e
      | none => w) = ldgm_destroyed w ++ s.m_ldgm_state.toList := by
  have hown := h.own
  cases hs : s.m_ldgm_state with
  | none =>
    rw [hs] at hown
    simp [hown]
  | some e =>
    rw [hs] at hown
    simp [ldgm_encoder_destroy, ldgm_destroyed, hown]

theorem LdgmInv.store_construct {s : Session} {w w1 : World} (h : LdgmInv s w) (env : Env)
    (ev : Option Handle → Event) (hev : ∀ r e, ev r ≠ Event.ldgm_encoder_destroy e)
    (h1 : w1.ldgm_live = []) (h2 : w1.ldgm_calls = w.ldgm_calls)
    (h3 : ldgm_destroyed w1 = ldgm_destroyed w ++ s.m_ldgm_state.toList) :
    LdgmInv (store_ldgm_state s (ldgm_encoder_construct env w1 ev)).2.1
      (store_ldgm_state s (ldgm_encoder_construct env w1 ev)).2.2 := by
  have hnd : ∀ r, (match ev r with
      | Event.ldgm_encoder_destroy h => some h
      | _ => none) = none := by
    intro r
    have := hev r
    cases hr : ev r <;> simp_all
  have hk : ∀ e, e ∈ ldgm_destroyed w1 → e < w.ldgm_calls := by
    intro e he
    rw [h3, List.mem_append] at he
    rcases he with he | he
    · exact h.known e (Or.inl he)
    · exact h.known e (Or.inr (by rw [h.own]; exact he))
  unfold store_ldgm_state ldgm_encoder_construct
  by_cases hok : env.ldgm_init_ok w1.ldgm_calls = true
  · simp only [hok, ↓reduceIte]
    refine ⟨by simp [h1], ?_⟩
    intro e he
    simp only [ldgm_destroyed, List.filterMap_append, List.filterMap_cons, hnd,
      List.filterMap_nil, List.append_nil, h1, List.nil_append, List.mem_singleton] at he
    show e < w1.ldgm_calls + 1
    rcases he with he | he
    · have := hk e he
      rw [h2]; exact Nat.lt_succ_of_lt this
    · rw [he]; exact Nat.lt_succ_self _
  · have hok' : env.ldgm_init_ok w1.ldgm_calls = false := by simpa using hok
    simp only [hok', Bool.false_eq_true, ↓reduceIte]
    refine ⟨by simp [exit_uv, h1], ?_⟩
    intro e he
    simp only [ldgm_destroyed, exit_uv, List.filterMap_append, List.filterMap_cons, hnd,
      List.filterMap_nil, List.append_nil, h1, List.not_mem_nil, or_false] at he
    show e < w1.ldgm_calls + 1
    have := hk e he
    rw [h2]; exact Nat.lt_succ_of_lt this

theorem change_ldgm_ldgm_inv (env : Env) (s : Session) (w : World) (ldgm_cfg : CStr)
    (h : LdgmInv s w)
    (hret : (process_message env s w (Msg.SENDER_MSG_CHANGE_LDGM ldgm_cfg)).1
      = Outcome.returned ()) :
    LdgmInv (process_message env s w (Msg.SENDER_MSG_CHANGE_LDGM ldgm_cfg)).2.1
      (process_message env s w (Msg.SENDER_MSG_CHANGE_LDGM ldgm_cfg)).2.2 := by
  obtain ⟨d1, d2, d3⟩ := h.after_destroy
  unfold process_message at hret ⊢
  simp only at hret ⊢
  generalize (match s.m_ldgm_state with
      | some e => ldgm_encoder_destroy w e
      | none => w) = w1 at d1 d2 d3 hret ⊢
  by_cases hp : strncmp_eq0 ldgm_cfg PERCENTS PERCENTS.length = true
  · simp only [hp, ↓reduceIte] at hret ⊢
    rcases h1 : strtok_r (ldgm_cfg.drop PERCENTS.length) [' '] with ⟨tok1, sp1⟩
    rw [h1] at hret
    cases tok1 with
    | none => simp at hret
    | some item1 =>
      simp only at hret ⊢
      rcases h2 : strtok_r sp1 [' '] with ⟨tok2, sp2⟩
      rw [h2] at hret
      cases tok2 with
      | none => simp at hret
      | some item2 =>
        simp only at hret ⊢
        rcases h3 : strtok_r sp2 [' '] with ⟨tok3, sp3⟩
        rw [h3] at hret
        cases tok3 with
        | none => simp at hret
        | some item3 =>
          exact h.store_construct env _ (by intro r e; simp) d1 d2 d3
  · simp only [hp, Bool.false_eq_true, ↓reduceIte] at hret ⊢
    by_cases hc : strncmp_eq0 ldgm_cfg CFG CFG.length = true
    · simp only [hc, ↓reduceIte] at hret ⊢
      exact h.store_construct env _ (by intro r e; simp) d1 d2 d3
    · simp only [hc, Bool.false_eq_true, ↓reduceIte] at hret
      cases hret

theorem process_message_ldgm_inv (env : Env) (s : Session) (w : World) (msg : Msg)
    (h : LdgmInv s w)
    (hret : (process_message env s w msg).1 = Outcome.returned ()) :
    LdgmInv (process_message env s w msg).2.1 (process_message env s w msg).2.2 := by
  cases msg with
  | SENDER_MSG_CHANGE_RECEIVER receiver =>
    unfold process_message
    simp only
    split
    · split
      · exact h.inv_untouched (rtp_change_dest_ldgm_untouched env w _ _) rfl
      · exact h
    · exact h
  | SENDER_MSG_CHANGE_PORT port =>
    obtain ⟨h1, h2⟩ := change_tx_port_ldgm env s w port
    exact h.inv_untouched h1 h2
  | SENDER_MSG_PAUSE => exact h.inv_untouched (LdgmUntouched.ldgm_refl w) rfl
  | SENDER_MSG_PLAY => exact h.inv_untouched (LdgmUntouched.ldgm_refl w) rfl
  | SENDER_MSG_CHANGE_LDGM ldgm_cfg => exact change_ldgm_ldgm_inv env s w ldgm_cfg h hret

theorem rtp_video_rxtx_ldgm_inv (env : Env) (a : CtorArgs) (s : Session) (w : World)
    (h : rtp_video_rxtx env a World.init = (Outcome.returned s, w)) : LdgmInv s w := by
  have key := initialize_network_ldgm_untouched env a.receiver a.rx_port a.tx_port a.use_ipv6
    a.mcast_if (pdb_init World.init)
  have h0 : LdgmInv ⟨none, 0, a.receiver, a.rx_port, a.tx_port, a.use_ipv6, a.mcast_if, false,
      none⟩ (pdb_init World.init) :=
    ⟨rfl, by intro e he; simp [ldgm_destroyed, pdb_init, World.init] at he⟩
  unfold rtp_video_rxtx at h
  split at h
  · cases h
  · simp only at h
    cases hr : (initialize_network env a.receiver a.rx_port a.tx_port a.use_ipv6
      a.mcast_if (pdb_init World.init)).1 with
    | returned devices =>
      rw [hr] at h
      cases devices with
      | none => simp at h
      | some ds =>
        simp only at h
        split at h
        · simp only [Prod.mk.injEq, Outcome.returned.injEq] at h
          obtain ⟨hs, hw⟩ := h
          subst hs
          rw [← hw]
          exact h0.inv_untouched key rfl
        · cases h
    | thrown what => rw [hr] at h; cases h
    | aborted => rw [hr] at h; cases h
    | fault => rw [hr] at h; cases h
    | diverged => rw [hr] at h; cases h

theorem reachable_ldgm_inv (env : Env) (a : CtorArgs) (s : Session) (w : World)
    (h : Reachable env a s w) : LdgmInv s w := by
  induction h with
  | ctor hc => exact rtp_video_rxtx_ldgm_inv env a _ _ hc
  | step msg _ hstep ih =>
    have := process_message_ldgm_inv env _ _ msg ih (by rw [hstep])
    rw [hstep] at this
    exact this

theorem open_loop_returned_or_fault (env : Env) (rb sb : Int) (use_ipv6 : Bool)
    (mcast_if : Option CStr) (n : Nat) (st : LoopState) (w : World) :
    (∃ r, (open_loop env rb sb use_ipv6 mcast_if n st w).1 = Outcome.returned r) ∨
      (open_loop env rb sb use_ipv6 mcast_if n st w).1 = Outcome.fault := by
  induction n generalizing st w with
  | zero => exact Or.inl ⟨st.devices, rfl⟩
  | succ n ih =>
    unfold open_loop
    simp only
    split
    · exact Or.inr rfl
    · split <;> exact ih _ _

theorem initialize_network_terminates (env : Env) (addrs : CStr) (rb sb : Int) (use_ipv6 : Bool)
    (mcast_if : Option CStr) (w : World) :
    (∃ r, (initialize_network env addrs rb sb use_ipv6 mcast_if w).1 = Outcome.returned r) ∨
      (initialize_network env addrs rb sb use_ipv6 mcast_if w).1 = Outcome.fault := by
  cases hds : destinations addrs with
  | nil =>
    have h1 := strtok_r_fst addrs
    rw [hds] at h1
    rw [initialize_network_no_token env addrs rb sb use_ipv6 mcast_if w h1]
    exact Or.inl ⟨none, rfl⟩
  | cons t ts =>
    rw [(initialize_network_eq env addrs rb sb use_ipv6 mcast_if w t ts hds).1]
    exact open_loop_returned_or_fault env rb sb use_ipv6 mcast_if _ _ w

theorem change_ldgm_cases (env : Env) (s : Session) (w : World) (ldgm_cfg : CStr) :
    process_message env s w (Msg.SENDER_MSG_CHANGE_LDGM ldgm_cfg)
        = (Outcome.aborted, s, after_ldgm_destroy s w) ∨
      (∃ ev : Option Handle → Event, (∀ r h, ev r ≠ Event.ldgm_encoder_destroy h) ∧
        process_message env s w (Msg.SENDER_MSG_CHANGE_LDGM ldgm_cfg)
          = store_ldgm_state s (ldgm_encoder_construct env (after_ldgm_destroy s w) ev)) := by
  unfold process_message after_ldgm_destroy
  simp only
  generalize (match s.m_ldgm_state with
      | some e => ldgm_encoder_destroy w e
      | none => w) = w1
  by_cases hp : strncmp_eq0 ldgm_cfg PERCENTS PERCENTS.length = true
  · simp only [hp, ↓reduceIte]
    rcases h1 : strtok_r (ldgm_cfg.drop PERCENTS.length) [' '] with ⟨tok1, sp1⟩
    cases tok1 with
    | none => exact Or.inl rfl
    | some item1 =>
      simp only
      rcases h2 : strtok_r sp1 [' '] with ⟨tok2, sp2⟩
      cases tok2 with
      | none => exact Or.inl rfl
      | some item2 =>
        simp only
        rcases h3 : strtok_r sp2 [' '] with ⟨tok3, sp3⟩
        cases tok3 with
        | none => exact Or.inl rfl
        | some item3 => exact Or.inr ⟨_, by intro r e; simp, rfl⟩
  · simp only [hp, Bool.false_eq_true, ↓reduceIte]
    by_cases hc : strncmp_eq0 ldgm_cfg CFG CFG.length = true
    · simp only [hc, ↓reduceIte]
      exact Or.inr ⟨_, by intro r e; simp, rfl⟩
    · simp only [hc, Bool.false_eq_true, ↓reduceIte]
      exact Or.inl trivial

theorem after_ldgm_destroy_trace (s : Session) (w : World) :
    (after_ldgm_destroy s w).trace
      = w.trace ++ s.m_ldgm_state.toList.map Event.ldgm_encoder_destroy := by
  unfold after_ldgm_destroy
  cases s.m_ldgm_state <;> simp [ldgm_encoder_destroy]

theorem after_ldgm_destroy_ldgm_calls (s : Session) (w : World) :
    (after_ldgm_destroy s w).ldgm_calls = w.ldgm_calls := by
  unfold after_ldgm_destroy
  cases s.m_ldgm_state <;> rfl

theorem store_construct_trace (env : Env) (s : Session) (w1 : World)
    (ev : Option Handle → Event) :
    (store_ldgm_state s (ldgm_encoder_construct env w1 ev)).2.2.trace
      = w1.trace ++
          (if env.ldgm_init_ok w1.ldgm_calls then [ev (some w1.ldgm_calls)]
           else [ev none, Event.exit_uv 1]) := by
  unfold store_ldgm_state ldgm_encoder_construct
  cases env.ldgm_init_ok w1.ldgm_calls <;> simp [exit_uv]

theorem store_construct_failed (env : Env) (s : Session) (w1 : World)
    (ev : Option Handle → Event) (hfail : env.ldgm_init_ok w1.ldgm_calls = false) :
    store_ldgm_state s (ldgm_encoder_construct env w1 ev)
      = (Outcome.returned (), { s with m_ldgm_state := none },
         exit_uv { w1 with trace := w1.trace ++ [ev none],
                           ldgm_calls := w1.ldgm_calls + 1 } 1) := by
  simp [store_ldgm_state, ldgm_encoder_construct, hfail]

theorem ldgm_destroyed_append (w : World) (evs : List Event) (w1 : World)
    (h : w1.trace = w.trace ++ evs) :
    ldgm_destroyed w1 = ldgm_destroyed w ++ evs.filterMap (fun e => match e with
      | Event.ldgm_encoder_destroy h => some h
      | _ => none) := by
  simp [ldgm_destroyed, h]

theorem store_construct_destroyed (env : Env) (s : Session) (w1 : World)
    (ev : Option Handle → Event) (hev : ∀ r h, ev r ≠ Event.ldgm_encoder_destroy h) :
    ldgm_destroyed (store_ldgm_state s (ldgm_encoder_construct env w1 ev)).2.2
      = ldgm_destroyed w1 := by
  have hnd : ∀ r, (match ev r with
      | Event.ldgm_encoder_destroy h => some h
      | _ => none) = none := by
    intro r
    have := hev r
    cases hr : ev r <;> simp_all
  rw [ldgm_destroyed_append w1 _ _ (store_construct_trace env s w1 ev)]
  cases env.ldgm_init_ok w1.ldgm_calls <;> simp [hnd]

theorem store_construct_field (env : Env) (s : Session) (w1 : World)
    (ev : Option Handle → Event) (e : Handle)
    (h : (store_ldgm_state s (ldgm_encoder_construct env w1 ev)).2.1.m_ldgm_state = some e) :
    e = w1.ldgm_calls := by
  unfold store_ldgm_state ldgm_encoder_construct at h
  cases hok : env.ldgm_init_ok w1.ldgm_calls
  · simp [hok] at h
  · simp [hok] at h
    exact h.symm

theorem change_ldgm_malformed (env : Env) (s : Session) (w : World) (ldgm_cfg : CStr)
    (hmal : (ldgm_cfg.take PERCENTS.length ≠ PERCENTS ∧ ldgm_cfg.take CFG.length ≠ CFG) ∨
      (ldgm_cfg.take PERCENTS.length = PERCENTS ∧
        (tokens ' ' (ldgm_cfg.drop PERCENTS.length)).length < 3)) :
    process_message env s w (Msg.SENDER_MSG_CHANGE_LDGM ldgm_cfg)
      = (Outcome.aborted, s, after_ldgm_destroy s w) := by
  unfold process_message after_ldgm_destroy
  simp only
  generalize (match s.m_ldgm_state with
      | some e => ldgm_encoder_destroy w e
      | none => w) = w1
  rcases hmal with ⟨hp, hc⟩ | ⟨hp, hlen⟩
  · have hp' : strncmp_eq0 ldgm_cfg PERCENTS PERCENTS.length = false := by
      simp only [strncmp_eq0, beq_eq_false_iff_ne, ne_eq]
      intro h
      apply hp
      rw [h]; rfl
    have hc' : strncmp_eq0 ldgm_cfg CFG CFG.length = false := by
      simp only [strncmp_eq0, beq_eq_false_iff_ne, ne_eq]
      intro h
      apply hc
      rw [h]; rfl
    simp only [hp', hc', Bool.false_eq_true, ↓reduceIte]
  · have hp' : strncmp_eq0 ldgm_cfg PERCENTS PERCENTS.length = true := by
      simp [strncmp_eq0, hp]
    simp only [hp', ↓reduceIte]
    have f1 := strtok_r_fst_tokens ' ' (ldgm_cfg.drop PERCENTS.length)
    have s1 := strtok_r_snd_tokens ' ' (ldgm_cfg.drop PERCENTS.length)
    rcases h1 : strtok_r (ldgm_cfg.drop PERCENTS.length) [' '] with ⟨tok1, sp1⟩
    rw [h1] at f1 s1
    simp only at f1 s1
    cases tok1 with
    | none => rfl
    | some item1 =>
      simp only
      have f2 := strtok_r_fst_tokens ' ' sp1
      have s2 := strtok_r_snd_tokens ' ' sp1
      rcases h2 : strtok_r sp1 [' '] with ⟨tok2, sp2⟩
      rw [h2] at f2 s2
      simp only at f2 s2
      cases tok2 with
      | none => rfl
      | some item2 =>
        simp only
        have f3 := strtok_r_fst_tokens ' ' sp2
        rcases h3 : strtok_r sp2 [' '] with ⟨tok3, sp3⟩
        rw [h3] at f3
        simp only at f3
        cases tok3 with
        | none => rfl
        | some item3 =>
          exfalso
          cases ht : tokens ' ' (ldgm_cfg.drop PERCENTS.length) with
          | nil => rw [ht] at f1; simp at f1
          | cons a l1 =>
            rw [ht] at s1 hlen
            simp only [List.tail_cons] at s1
            cases l1 with
            | nil => rw [s1] at f2; simp at f2
            | cons b l2 =>
              rw [s1] at s2
              simp only [List.tail_cons] at s2
              cases l2 with
              | nil => rw [s2] at f3; simp at f3
              | cons c l3 => simp only [List.length_cons] at hlen; omega

theorem session_a_constructed_no_ldgm :
    rtp_video_rxtx env_no_ldgm args_a World.init = (Outcome.returned session_a, world_a) := by
  decide

theorem open_loop_null_closed (env : Env) (rb sb : Int) (use_ipv6 : Bool)
    (mcast_if : Option CStr) (n : Nat) (st : LoopState) (w : World) (hd : st.devices = none) :
    closed (open_loop env rb sb use_ipv6 mcast_if n st w).2 = closed w := by
  cases n with
  | zero => rfl
  | succ n =>
    simp only [open_loop, hd]
    exact closed_rtp_init_if env w _

theorem open_loop_fail_closed (env : Env) (rb sb : Int) (use_ipv6 : Bool)
    (mcast_if : Option CStr) (ts1 : List CStr) (t : CStr) (ts2 : List CStr) (st : LoopState)
    (w : World) (ds : List Handle) (hinv : LoopInv rb sb (ts1 ++ t :: ts2) st)
    (hd : st.devices = some ds)
    (hok : ∀ i t1, ts1[i]? = some t1 →
      env.rtp_init_if_ok (w.rtp_calls + i)
        (request_at rb sb use_ipv6 mcast_if (st.index + i) t1) = true)
    (hfail : env.rtp_init_if_ok (w.rtp_calls + ts1.length)
      (request_at rb sb use_ipv6 mcast_if (st.index + ts1.length) t) = false) :
    closed (open_loop env rb sb use_ipv6 mcast_if (ts1 ++ t :: ts2).length st w).2
      = closed w ++ (ds ++ List.range' w.rtp_calls ts1.length) := by
  induction ts1 generalizing st w ds with
  | nil =>
    have h0 := hfail
    simp only [List.length_nil, Nat.add_zero] at h0
    simp only [List.nil_append] at hinv ⊢
    have hstep := open_loop_step env rb sb use_ipv6 mcast_if t ts2 st w hinv
    rw [hd] at hstep
    simp only [h0, Bool.false_eq_true, ↓reduceIte] at hstep
    rw [List.length_cons, hstep, open_loop_null_closed env rb sb use_ipv6 mcast_if _ _ _ rfl,
      closed_rollback, closed_rtp_init_if]
    simp
  | cons t1 ts1 ih =>
    have h0 := hok 0 t1 (by simp)
    rw [Nat.add_zero, Nat.add_zero] at h0
    simp only [List.cons_append] at hinv ⊢
    have hstep := open_loop_step env rb sb use_ipv6 mcast_if t1 (ts1 ++ t :: ts2) st w hinv
    rw [hd] at hstep
    simp only [h0, ↓reduceIte] at hstep
    rw [List.length_cons, hstep]
    have hlen := hinv.index_eq ds hd
    have hnext := hinv.next (some (ds ++ [w.rtp_calls])) (by
      intro ds' h; cases h; simp [hlen])
    have f1 : (setup_device env
        (rtp_init_if env w (request_at rb sb use_ipv6 mcast_if st.index t1)).2 w.rtp_calls).rtp_calls
          = w.rtp_calls + 1 := by
      rw [setup_device_eq]; exact rtp_calls_rtp_init_if env w _
    have f6 : closed (setup_device env
        (rtp_init_if env w (request_at rb sb use_ipv6 mcast_if st.index t1)).2 w.rtp_calls)
          = closed w := by
      rw [closed_setup_device, closed_rtp_init_if]
    generalize setup_device env
        (rtp_init_if env w (request_at rb sb use_ipv6 mcast_if st.index t1)).2 w.rtp_calls = w2
        at f1 f6 ⊢
    have key := ih (next_state rb sb st (some (ds ++ [w.rtp_calls]))) w2
      (ds ++ [w.rtp_calls]) hnext rfl
      (by
        intro i t' hi
        have := hok (i + 1) t' (by simpa using hi)
        rw [f1, Nat.add_assoc, Nat.add_comm 1 i]
        show env.rtp_init_if_ok (w.rtp_calls + (i + 1))
          (request_at rb sb use_ipv6 mcast_if (st.index + 1 + i) t') = true
        rw [Nat.add_assoc, Nat.add_comm 1 i]
        exact this)
      (by
        rw [f1, Nat.add_assoc, Nat.add_comm 1 ts1.length]
        show env.rtp_init_if_ok (w.rtp_calls + (ts1.length + 1))
          (request_at rb sb use_ipv6 mcast_if (st.index + 1 + ts1.length) t) = false
        rw [Nat.add_assoc, Nat.add_comm 1 ts1.length]
        exact hfail)
    rw [key, f1, f6, List.length_cons, List.range'_succ]
    simp

theorem initialize_network_fail_closed (env : Env) (addrs : CStr) (rb sb : Int)
    (use_ipv6 : Bool) (mcast_if : Option CStr) (w : World) (k : Nat)
    (hk : k < (destinations addrs).length)
    (hok : ∀ i t, i < k → (destinations addrs)[i]? = some t →
      env.rtp_init_if_ok (w.rtp_calls + i) (request_at rb sb use_ipv6 mcast_if i t) = true)
    (hfail : ∀ t, (destinations addrs)[k]? = some t →
      env.rtp_init_if_ok (w.rtp_calls + k) (request_at rb sb use_ipv6 mcast_if k t) = false) :
    closed (initialize_network env addrs rb sb use_ipv6 mcast_if w).2
      = closed w ++ List.range' w.rtp_calls k := by
  have hsplit : destinations addrs =
      (destinations addrs).take k ++ (destinations addrs)[k] :: (destinations addrs).drop (k + 1) := by
    rw [← List.drop_eq_getElem_cons hk, List.take_append_drop]
  have hlen1 : ((destinations addrs).take k).length = k := by
    rw [List.length_take]; omega
  cases hds : destinations addrs with
  | nil => rw [hds] at hk; simp at hk
  | cons t ts =>
    obtain ⟨heq, hinv⟩ := initialize_network_eq env addrs rb sb use_ipv6 mcast_if w t ts hds
    rw [heq, ← hds]
    rw [← hds] at hinv
    rw [hsplit] at hinv
    have key := open_loop_fail_closed env rb sb use_ipv6 mcast_if ((destinations addrs).take k)
      ((destinations addrs)[k]) ((destinations addrs).drop (k + 1)) _ w [] hinv rfl
      (by intro i t' hi
          have hik : i < k := by
            have := (List.getElem?_eq_some_iff.1 hi).1
            rw [hlen1] at this; exact this
          rw [List.getElem?_take_of_lt hik] at hi
          show env.rtp_init_if_ok (w.rtp_calls + i)
            (request_at rb sb use_ipv6 mcast_if (0 + i) t') = true
          rw [Nat.zero_add]
          exact hok i t' hik hi)
      (by rw [hlen1]
          show env.rtp_init_if_ok (w.rtp_calls + k)
            (request_at rb sb use_ipv6 mcast_if (0 + k) (destinations addrs)[k]) = false
          rw [Nat.zero_add]
          exact hfail _ (List.getElem?_eq_getElem hk))
    rw [← hsplit, hlen1] at key
    simpa using key

theorem opened_rtp_init_if_ge (env : Env) (w : World) (req : OpenReq) :
    opened w <+: opened (rtp_init_if env w req).2 := by
  unfold rtp_init_if
  split
  · simp [opened]
  · simp [opened]

theorem open_loop_null_opened (env : Env) (rb sb : Int) (use_ipv6 : Bool)
    (mcast_if : Option CStr) (n : Nat) (st : LoopState) (w : World) (hd : st.devices = none) :
    opened w <+: opened (open_loop env rb sb use_ipv6 mcast_if n st w).2 := by
  cases n with
  | zero => exact List.prefix_refl _
  | succ n =>
    simp only [open_loop, hd]
    exact opened_rtp_init_if_ge env w _

theorem open_loop_fail_opened (env : Env) (rb sb : Int) (use_ipv6 : Bool)
    (mcast_if : Option CStr) (ts1 : List CStr) (t : CStr) (ts2 : List CStr) (st : LoopState)
    (w : World) (ds : List Handle) (hinv : LoopInv rb sb (ts1 ++ t :: ts2) st)
    (hd : st.devices = some ds)
    (hok : ∀ i t1, ts1[i]? = some t1 →
      env.rtp_init_if_ok (w.rtp_calls + i)
        (request_at rb sb use_ipv6 mcast_if (st.index + i) t1) = true)
    (hfail : env.rtp_init_if_ok (w.rtp_calls + ts1.length)
      (request_at rb sb use_ipv6 mcast_if (st.index + ts1.length) t) = false) :
    (opened w ++ List.range' w.rtp_calls ts1.length) <+:
      opened (open_loop env rb sb use_ipv6 mcast_if (ts1 ++ t :: ts2).length st w).2 := by
  induction ts1 generalizing st w ds with
  | nil =>
    have h0 := hfail
    simp only [List.length_nil, Nat.add_zero] at h0
    simp only [List.nil_append] at hinv ⊢
    have hstep := open_loop_step env rb sb use_ipv6 mcast_if t ts2 st w hinv
    rw [hd] at hstep
    simp only [h0, Bool.false_eq_true, ↓reduceIte] at hstep
    rw [List.length_cons, hstep]
    have hw1 := rtp_init_if_failure env w _ h0
    have h1 := open_loop_null_opened env rb sb use_ipv6 mcast_if ts2.length
      (next_state rb sb st none)
      (ds.foldl rtp_done (rtp_init_if env w (request_at rb sb use_ipv6 mcast_if st.index t)).2)
      rfl
    rw [opened_rollback,
      opened_append w [Event.rtp_init_if _ none] _ (by rw [hw1])] at h1
    simpa using h1
  | cons t1 ts1 ih =>
    have h0 := hok 0 t1 (by simp)
    rw [Nat.add_zero, Nat.add_zero] at h0
    simp only [List.cons_append, List.length_cons] at hinv ⊢
    have hstep := open_loop_step env rb sb use_ipv6 mcast_if t1 (ts1 ++ t :: ts2) st w hinv
    rw [hd] at hstep
    simp only [h0, ↓reduceIte] at hstep
    rw [hstep]
    have hlen := hinv.index_eq ds hd
    have hnext := hinv.next (some (ds ++ [w.rtp_calls])) (by
      intro ds' h; cases h; simp [hlen])
    have hw1 := rtp_init_if_success env w _ h0
    have f1 : (setup_device env
        (rtp_init_if env w (request_at rb sb use_ipv6 mcast_if st.index t1)).2 w.rtp_calls).rtp_calls
          = w.rtp_calls + 1 := by
      rw [setup_device_eq]; exact rtp_calls_rtp_init_if env w _
    have f5 : opened (setup_device env
        (rtp_init_if env w (request_at rb sb use_ipv6 mcast_if st.index t1)).2 w.rtp_calls)
          = opened w ++ [w.rtp_calls] := by
      rw [opened_setup_device,
        opened_append w [Event.rtp_init_if _ (some w.rtp_calls)] _ (by rw [hw1])]
      rfl
    generalize setup_device env
        (rtp_init_if env w (request_at rb sb use_ipv6 mcast_if st.index t1)).2 w.rtp_calls = w2
        at f1 f5 ⊢
    have key := ih (next_state rb sb st (some (ds ++ [w.rtp_calls]))) w2
      (ds ++ [w.rtp_calls]) hnext rfl
      (by
        intro i t' hi
        have := hok (i + 1) t' (by simpa using hi)
        rw [f1, Nat.add_assoc, Nat.add_comm 1 i]
        show env.rtp_init_if_ok (w.rtp_calls + (i + 1))
          (request_at rb sb use_ipv6 mcast_if (st.index + 1 + i) t') = true
        rw [Nat.add_assoc, Nat.add_comm 1 i]
        exact this)
      (by
        rw [f1, Nat.add_assoc, Nat.add_comm 1 ts1.length]
        show env.rtp_init_if_ok (w.rtp_calls + (ts1.length + 1))
          (request_at rb sb use_ipv6 mcast_if (st.index + 1 + ts1.length) t) = false
        rw [Nat.add_assoc, Nat.add_comm 1 ts1.length]
        exact hfail)
    rw [f1, f5] at key
    rw [List.range'_succ]
    simpa using key

theorem initialize_network_fail_opened (env : Env) (addrs : CStr) (rb sb : Int)
    (use_ipv6 : Bool) (mcast_if : Option CStr) (w : World) (k : Nat)
    (hk : k < (destinations addrs).length)
    (hok : ∀ i t, i < k → (destinations addrs)[i]? = some t →
      env.rtp_init_if_ok (w.rtp_calls + i) (request_at rb sb use_ipv6 mcast_if i t) = true)
    (hfail : ∀ t, (destinations addrs)[k]? = some t →
      env.rtp_init_if_ok (w.rtp_calls + k) (request_at rb sb use_ipv6 mcast_if k t) = false) :
    (opened w ++ List.range' w.rtp_calls k) <+:
      opened (initialize_network env addrs rb sb use_ipv6 mcast_if w).2 := by
  have hsplit : destinations addrs =
      (destinations addrs).take k ++ (destinations addrs)[k] :: (destinations addrs).drop (k + 1) := by
    rw [← List.drop_eq_getElem_cons hk, List.take_append_drop]
  have hlen1 : ((destinations addrs).take k).length = k := by
    rw [List.length_take]; omega
  cases hds : destinations addrs with
  | nil => rw [hds] at hk; simp at hk
  | cons t ts =>
    obtain ⟨heq, hinv⟩ := initialize_network_eq env addrs rb sb use_ipv6 mcast_if w t ts hds
    rw [heq, ← hds]
    rw [← hds] at hinv
    rw [hsplit] at hinv
    have key := open_loop_fail_opened env rb sb use_ipv6 mcast_if ((destinations addrs).take k)
      ((destinations addrs)[k]) ((destinations addrs).drop (k + 1)) _ w [] hinv rfl
      (by intro i t' hi
          have hik : i < k := by
            have := (List.getElem?_eq_some_iff.1 hi).1
            rw [hlen1] at this; exact this
          rw [List.getElem?_take_of_lt hik] at hi
          show env.rtp_init_if_ok (w.rtp_calls + i)
            (request_at rb sb use_ipv6 mcast_if (0 + i) t') = true
          rw [Nat.zero_add]
          exact hok i t' hik hi)
      (by rw [hlen1]
          show env.rtp_init_if_ok (w.rtp_calls + k)
            (request_at rb sb use_ipv6 mcast_if (0 + k) (destinations addrs)[k]) = false
          rw [Nat.zero_add]
          exact hfail _ (List.getElem?_eq_getElem hk))
    rw [← hsplit, hlen1] at key
    exact key

theorem open_loop_requests_count (env : Env) (rb sb : Int) (use_ipv6 : Bool)
    (mcast_if : Option CStr) (ts : List CStr) (st : LoopState) (w : World)
    (hinv : LoopInv rb sb ts st) :
    ∃ m, m ≤ ts.length ∧
      open_requests (open_loop env rb sb use_ipv6 mcast_if ts.length st w).2 =
        open_requests w ++ (expected_requests rb sb use_ipv6 mcast_if st.index ts).take m ∧
      ((open_loop env rb sb use_ipv6 mcast_if ts.length st w).1 ≠ Outcome.fault →
        m = ts.length) := by
  induction ts generalizing st w with
  | nil => exact ⟨0, by simp, by simp [open_loop], fun _ => rfl⟩
  | cons t ts ih =>
    have hstep := open_loop_step env rb sb use_ipv6 mcast_if t ts st w hinv
    rw [List.length_cons, hstep]
    cases hd : st.devices with
    | none =>
      refine ⟨1, by simp, ?_, ?_⟩
      · simp [open_requests_rtp_init_if, expected_requests]
      · intro h; exact absurd rfl h
    | some ds =>
      have hlen := hinv.index_eq ds hd
      simp only
      split
      · obtain ⟨m, hm, heq, hcount⟩ := ih (next_state rb sb st (some (ds ++ [w.rtp_calls])))
          (setup_device env
            (rtp_init_if env w (request_at rb sb use_ipv6 mcast_if st.index t)).2 w.rtp_calls)
          (hinv.next _ (by intro ds' h; cases h; simp [hlen]))
        refine ⟨m + 1, by omega, ?_, ?_⟩
        · rw [heq, open_requests_setup_device, open_requests_rtp_init_if]
          simp [expected_requests, next_state]
        · intro h; rw [hcount h]
      · obtain ⟨m, hm, heq, hcount⟩ := ih (next_state rb sb st none)
          (ds.foldl rtp_done
            (rtp_init_if env w (request_at rb sb use_ipv6 mcast_if st.index t)).2)
          (hinv.next _ (by intro ds' h; cases h))
        refine ⟨m + 1, by omega, ?_, ?_⟩
        · rw [heq, open_requests_rollback, open_requests_rtp_init_if]
          simp [expected_requests, next_state]
        · intro h; rw [hcount h]

theorem initialize_network_requests_count (env : Env) (addrs : CStr) (rb sb : Int)
    (use_ipv6 : Bool) (mcast_if : Option CStr) (w : World) :
    ∃ m, m ≤ (destinations addrs).length ∧
      open_requests (initialize_network env addrs rb sb use_ipv6 mcast_if w).2 =
        open_requests w ++
          (expected_requests rb sb use_ipv6 mcast_if 0 (destinations addrs)).take m ∧
      ((initialize_network env addrs rb sb use_ipv6 mcast_if w).1 ≠ Outcome.fault →
        m = (destinations addrs).length) := by
  cases hds : destinations addrs with
  | nil =>
    have h1 := strtok_r_fst addrs
    rw [hds] at h1
    rw [initialize_network_no_token env addrs rb sb use_ipv6 mcast_if w h1]
    exact ⟨0, by simp, by simp, fun _ => rfl⟩
  | cons t ts =>
    obtain ⟨heq, hinv⟩ := initialize_network_eq env addrs rb sb use_ipv6 mcast_if w t ts hds
    rw [heq]
    exact open_loop_requests_count env rb sb use_ipv6 mcast_if (t :: ts) _ w hinv

theorem open_loop_requests_full (env : Env) (rb sb : Int) (use_ipv6 : Bool)
    (mcast_if : Option CStr) (ts : List CStr) (st : LoopState) (w : World)
    (hinv : LoopInv rb sb ts st) :
    ∃ m, m ≤ ts.length ∧
      open_requests (open_loop env rb sb use_ipv6 mcast_if ts.length st w).2 =
        open_requests w ++ (expected_requests rb sb use_ipv6 mcast_if st.index ts).take m ∧
      ((open_loop env rb sb use_ipv6 mcast_if ts.length st w).1 ≠ Outcome.fault →
        m = ts.length) ∧
      (ts ≠ [] → 1 ≤ m) := by
  induction ts generalizing st w with
  | nil => exact ⟨0, by simp, by simp [open_loop], fun _ => rfl, fun h => absurd rfl h⟩
  | cons t ts ih =>
    have hstep := open_loop_step env rb sb use_ipv6 mcast_if t ts st w hinv
    rw [List.length_cons, hstep]
    cases hd : st.devices with
    | none =>
      refine ⟨1, by simp, ?_, ?_, fun _ => Nat.le_refl 1⟩
      · simp [open_requests_rtp_init_if, expected_requests]
      · intro h; exact absurd rfl h
    | some ds =>
      have hlen := hinv.index_eq ds hd
      simp only
      split
      · obtain ⟨m, hm, heq, hcount, _⟩ := ih (next_state rb sb st (some (ds ++ [w.rtp_calls])))
          (setup_device env
            (rtp_init_if env w (request_at rb sb use_ipv6 mcast_if st.index t)).2 w.rtp_calls)
          (hinv.next _ (by intro ds' h; cases h; simp [hlen]))
        refine ⟨m + 1, by omega, ?_, ?_, fun _ => by omega⟩
        · rw [heq, open_requests_setup_device, open_requests_rtp_init_if]
          simp [expected_requests, next_state]
        · intro h; rw [hcount h]
      · obtain ⟨m, hm, heq, hcount, _⟩ := ih (next_state rb sb st none)
          (ds.foldl rtp_done
            (rtp_init_if env w (request_at rb sb use_ipv6 mcast_if st.index t)).2)
          (hinv.next _ (by intro ds' h; cases h))
        refine ⟨m + 1, by omega, ?_, ?_, fun _ => by omega⟩
        · rw [heq, open_requests_rollback, open_requests_rtp_init_if]
          simp [expected_requests, next_state]
        · intro h; rw [hcount h]

theorem initialize_network_requests_full (env : Env) (addrs : CStr) (rb sb : Int)
    (use_ipv6 : Bool) (mcast_if : Option CStr) (w : World) :
    ∃ m, m ≤ (destinations addrs).length ∧
      open_requests (initialize_network env addrs rb sb use_ipv6 mcast_if w).2 =
        open_requests w ++
          (expected_requests rb sb use_ipv6 mcast_if 0 (destinations addrs)).take m ∧
      ((initialize_network env addrs rb sb use_ipv6 mcast_if w).1 ≠ Outcome.fault →
        m = (destinations addrs).length) ∧
      (destinations addrs ≠ [] → 1 ≤ m) := by
  cases hds : destinations addrs with
  | nil =>
    have h1 := strtok_r_fst addrs
    rw [hds] at h1
    rw [initialize_network_no_token env addrs rb sb use_ipv6 mcast_if w h1]
    exact ⟨0, by simp, by simp, fun _ => rfl, fun h => absurd rfl h⟩
  | cons t ts =>
    obtain ⟨heq, hinv⟩ := initialize_network_eq env addrs rb sb use_ipv6 mcast_if w t ts hds
    rw [heq]
    exact open_loop_requests_full env rb sb use_ipv6 mcast_if (t :: ts) _ w hinv

theorem expected_requests_length (rb sb : Int) (use_ipv6 : Bool) (mcast_if : Option CStr)
    (i : Nat) (ts : List CStr) :
    (expected_requests rb sb use_ipv6 mcast_if i ts).length = ts.length := by
  induction ts generalizing i with
  | nil => rfl
  | cons t ts ih => simp [expected_requests, ih]

theorem first_pass_count (addrs : CStr) (h : (strtok_r addrs [',']).1 ≠ none) :
    count_loop (addrs.length + 1) (strtok_r addrs [',']).2 1
      = some (destinations addrs).length := by
  have h1 := strtok_r_fst addrs
  have h2 := strtok_r_snd addrs
  have h3 := strtok_r_snd_length addrs [','] h
  rw [count_loop_eq _ _ _ (by omega), h2]
  cases hd : destinations addrs with
  | nil => rw [hd] at h1; exact absurd h1 h
  | cons t ts => simp [Nat.add_comm]

theorem mem_tokens_ne_nil (d : Char) (s t : CStr) (h : t ∈ tokens d s) : t ≠ [] := by
  unfold tokens at h
  have := (List.mem_filter.1 h).2
  intro hnil
  rw [hnil] at this
  simp at this

/-- What holds of the two tokenisation passes of `initialize_network` for every address
string and every opener: the first pass counts the non-empty comma-separated items; on
every iteration of the opening loop that runs, the address handed to `rtp_init_if` is
present and is the item of that index, which is not empty; the loop runs at most
`required_connections` times, and exactly that many times whenever no store through a NULL
`devices` cuts it short. -/
theorem tokenisation_passes_agree (env : Env) (addrs : CStr)
    (recv_port_base send_port_base : Int) (use_ipv6 : Bool) (mcast_if : Option CStr)
    (w : World) :
    ((strtok_r addrs [',']).1 ≠ none →
      count_loop (addrs.length + 1) (strtok_r addrs [',']).2 1
        = some (destinations addrs).length) ∧
    (∀ (k : Nat) (req : OpenReq),
      ((open_requests (initialize_network env addrs recv_port_base send_port_base use_ipv6
          mcast_if w).2).drop (open_requests w).length)[k]? = some req →
      ∃ t, (destinations addrs)[k]? = some t ∧ req.addr = some t ∧ t ≠ []) ∧
    (open_requests (initialize_network env addrs recv_port_base send_port_base use_ipv6
        mcast_if w).2).length ≤ (open_requests w).length + (destinations addrs).length ∧
    ((initialize_network env addrs recv_port_base send_port_base use_ipv6 mcast_if w).1
        ≠ Outcome.fault →
      (open_requests (initialize_network env addrs recv_port_base send_port_base use_ipv6
        mcast_if w).2).length = (open_requests w).length + (destinations addrs).length) := by
  obtain ⟨m, hm, heq, hcount⟩ := initialize_network_requests_count env addrs recv_port_base
    send_port_base use_ipv6 mcast_if w
  have hlen := expected_requests_length recv_port_base send_port_base use_ipv6 mcast_if 0
    (destinations addrs)
  refine ⟨first_pass_count addrs, ?_, ?_, ?_⟩
  · intro k req h
    rw [heq, List.drop_left] at h
    have hk : k < m := by
      have := (List.getElem?_eq_some_iff.1 h).1
      rw [List.length_take] at this
      omega
    rw [List.getElem?_take_of_lt hk] at h
    obtain ⟨_, _, haddr⟩ := expected_requests_getElem? _ _ _ _ _ _ _ _ h
    have hkN : k < (destinations addrs).length := by omega
    refine ⟨(destinations addrs)[k], List.getElem?_eq_getElem hkN, ?_, ?_⟩
    · rw [haddr, List.getElem?_eq_getElem hkN]
    · exact mem_tokens_ne_nil ',' addrs _ (List.getElem_mem hkN)
  · rw [heq, List.length_append, List.length_take, hlen]
    omega
  · intro h
    rw [heq, List.length_append, List.length_take, hlen, hcount h]
    simp

/-! ## The claims -/

/-- C1 (defect of the code): with the two destinations `a,b` and an opener that fails on the
first one, `initialize_network` does not return failure. After the rollback the loop is not
left: `rtp_init_if` is called for `b` and its result is stored through the NULL `devices`.
The endpoint opened by that call is still open and never closed. -/
theorem C1_rollback_does_not_leave_loop :
    (initialize_network (env_fail_at 0) ['a', ',', 'b'] 5004 5004 false none World.init).1
        = Outcome.fault ∧
      (initialize_network (env_fail_at 0) ['a', ',', 'b'] 5004 5004 false none World.init).2.live
        = [⟨1, some ['b'], 5008, 5008⟩] ∧
      closed (initialize_network (env_fail_at 0) ['a', ',', 'b'] 5004 5004 false none
        World.init).2 = [] := by
  decide

/-- C2: for every receive base and send base whose ports fit a C `int` (`ports_fit`: the
base is a value of the type and `base + 2 + 2N` does not exceed `INT_MAX`, which holds of
every base of the port range `0 .. 65535`, see `ports_fit_of_port_range`) and whatever the
collaborators do, the `rtp_init_if` calls that `initialize_network` makes are the calls of
the indices 0, 1, 2, ... in order, and the call of index `k` has receive port
`port_rule recv_port_base k` and send port `port_rule send_port_base k`: base, base+4, then
base+2+2k, each from its own base. When there is a destination at least the call of index 0
is made; never more calls are made than there are destinations, and every destination gets
its call unless the run ends in the store through the NULL `devices`. -/
theorem C2_port_allocation (env : Env) (addrs : CStr) (recv_port_base send_port_base : Int)
    (use_ipv6 : Bool) (mcast_if : Option CStr) (w : World)
    (hrecv : ports_fit recv_port_base (destinations addrs).length)
    (hsend : ports_fit send_port_base (destinations addrs).length) :
    (requests_made env addrs recv_port_base send_port_base use_ipv6 mcast_if w).map
        (fun req => (req.rx_port, req.tx_port))
      = (List.range
          (requests_made env addrs recv_port_base send_port_base use_ipv6 mcast_if w).length).map
        (fun k => (port_rule recv_port_base k, port_rule send_port_base k)) ∧
    (destinations addrs ≠ [] →
      1 ≤ (requests_made env addrs recv_port_base send_port_base use_ipv6 mcast_if w).length) ∧
    (requests_made env addrs recv_port_base send_port_base use_ipv6 mcast_if w).length
      ≤ (destinations addrs).length ∧
    ((initialize_network env addrs recv_port_base send_port_base use_ipv6 mcast_if w).1
        ≠ Outcome.fault →
      (requests_made env addrs recv_port_base send_port_base use_ipv6 mcast_if w).length
        = (destinations addrs).length) := by
  obtain ⟨m, hm, heq, hcount, hpos⟩ := initialize_network_requests_full env addrs
    recv_port_base send_port_base use_ipv6 mcast_if w
  have hlen := expected_requests_length recv_port_base send_port_base use_ipv6 mcast_if 0
    (destinations addrs)
  have hmade : requests_made env addrs recv_port_base send_port_base use_ipv6 mcast_if w
      = (expected_requests recv_port_base send_port_base use_ipv6 mcast_if 0
          (destinations addrs)).take m := by
    unfold requests_made
    rw [heq, List.drop_left]
  have hmlen : (requests_made env addrs recv_port_base send_port_base use_ipv6 mcast_if
      w).length = m := by
    rw [hmade, List.length_take, hlen]
    omega
  rw [hmlen]
  refine ⟨?_, hpos, hm, hcount⟩
  rw [hmade]
  apply List.ext_getElem?
  intro k
  by_cases hk : k < m
  · have hkN : k < (destinations addrs).length := by omega
    have hex : k < (expected_requests recv_port_base send_port_base use_ipv6 mcast_if 0
        (destinations addrs)).length := by rw [hlen]; exact hkN
    obtain ⟨h1, h2, _⟩ := expected_requests_getElem? _ _ _ _ _ _ _ _
      (List.getElem?_eq_getElem hex)
    rw [Nat.zero_add] at h1 h2
    rw [port_at_eq_port_rule _ _ hrecv k hkN] at h1
    rw [port_at_eq_port_rule _ _ hsend k hkN] at h2
    rw [List.getElem?_map, List.getElem?_take_of_lt hk, List.getElem?_eq_getElem hex,
      List.getElem?_map, List.getElem?_range hk]
    simp [h1, h2]
  · have h1 : ((expected_requests recv_port_base send_port_base use_ipv6 mcast_if 0
        (destinations addrs)).take m).length ≤ k := by
      rw [List.length_take]; omega
    rw [List.getElem?_map, List.getElem?_eq_none h1, List.getElem?_map,
      List.getElem?_eq_none (by rw [List.length_range]; omega)]
    rfl

/-- C2 witness: the destinations `10.0.0.1,10.0.0.2` with bases 5004/5004 are requested at
(5004,5004) and (5008,5008), the values of the rule at the indices 0 and 1. -/
theorem C2_port_allocation_witness :
    (requests_made env_ok "10.0.0.1,10.0.0.2".toList 5004 5004 false none World.init
      = [⟨some "10.0.0.1".toList, none, 5004, 5004, false⟩,
         ⟨some "10.0.0.2".toList, none, 5008, 5008, false⟩] ∧
     (List.range 2).map (fun k => (port_rule 5004 k, port_rule 5004 k))
      = [((5004 : Int), (5004 : Int)), (5008, 5008)]) ∧
    ((requests_made env_ok "10.0.0.1,10.0.0.2".toList 5004 5004 false none World.init).map
        (fun req => (req.rx_port, req.tx_port))
      = (List.range
          (requests_made env_ok "10.0.0.1,10.0.0.2".toList 5004 5004 false none
            World.init).length).map
        (fun k => (port_rule 5004 k, port_rule 5004 k)) ∧
    (destinations "10.0.0.1,10.0.0.2".toList ≠ [] →
      1 ≤ (requests_made env_ok "10.0.0.1,10.0.0.2".toList 5004 5004 false none
        World.init).length) ∧
    (requests_made env_ok "10.0.0.1,10.0.0.2".toList 5004 5004 false none World.init).length
      ≤ (destinations "10.0.0.1,10.0.0.2".toList).length ∧
    ((initialize_network env_ok "10.0.0.1,10.0.0.2".toList 5004 5004 false none World.init).1
        ≠ Outcome.fault →
      (requests_made env_ok "10.0.0.1,10.0.0.2".toList 5004 5004 false none World.init).length
        = (destinations "10.0.0.1,10.0.0.2".toList).length)) :=
  ⟨by decide,
   C2_port_allocation env_ok "10.0.0.1,10.0.0.2".toList 5004 5004 false none World.init
     (by decide) (by decide)⟩

/-- C3 (the claim fails): with the destinations `a,b` and an opener that fails on the second
one, `initialize_network` returns failure and the registry, empty before the call, still
holds the record added for the first endpoint, which has been closed. -/
theorem C3_counterexample :
    (initialize_network (env_fail_at 1) ['a', ',', 'b'] 5004 5004 false none World.init).1
        = Outcome.returned none ∧
      World.init.registry = [] ∧
      (initialize_network (env_fail_at 1) ['a', ',', 'b'] 5004 5004 false none
        World.init).2.registry = [1000] ∧
      (initialize_network (env_fail_at 1) ['a', ',', 'b'] 5004 5004 false none
        World.init).2.live = [] := by
  decide

/-- C3 (amended): if the opener succeeds on the destinations 1..k-1 and fails on the k-th,
then when `initialize_network` returns failure the registry holds what it held before the
call followed by the k-1 records added for the endpoints opened before the failure: the
rollback closes these endpoints and leaves their records in the registry. -/
theorem C3_registry_after_failed_open (env : Env) (addrs : CStr)
    (recv_port_base send_port_base : Int) (use_ipv6 : Bool) (mcast_if : Option CStr) (w : World)
    (k : Nat) (hk1 : 1 ≤ k) (hkN : k ≤ (destinations addrs).length)
    (hok : ∀ i t, i < k - 1 → (destinations addrs)[i]? = some t →
      env.rtp_init_if_ok (w.rtp_calls + i)
        (request_at recv_port_base send_port_base use_ipv6 mcast_if i t) = true)
    (hfail : ∀ t, (destinations addrs)[k - 1]? = some t →
      env.rtp_init_if_ok (w.rtp_calls + (k - 1))
        (request_at recv_port_base send_port_base use_ipv6 mcast_if (k - 1) t) = false)
    (hret : (initialize_network env addrs recv_port_base send_port_base use_ipv6 mcast_if w).1
      = Outcome.returned none) :
    (initialize_network env addrs recv_port_base send_port_base use_ipv6 mcast_if w).2.registry
      = w.registry ++ (List.range' w.rtp_calls (k - 1)).map env.rtp_my_ssrc := by
  obtain ⟨hA, hB⟩ := initialize_network_fail_at env addrs recv_port_base send_port_base use_ipv6
    mcast_if w (k - 1) (by omega) hok hfail
  by_cases hlast : k - 1 + 1 = (destinations addrs).length
  · exact (hB hlast).2.1
  · rw [hA (by omega)] at hret
    cases hret

/-- C3 witness: the destinations `a,b`, the opener failing on the second (k = 2). -/
theorem C3_registry_after_failed_open_witness :
    (initialize_network (env_fail_at 1) ['a', ',', 'b'] 5004 5004 false none
        World.init).2.registry
      = World.init.registry ++ (List.range' World.init.rtp_calls (2 - 1)).map
          (env_fail_at 1).rtp_my_ssrc :=
  C3_registry_after_failed_open (env_fail_at 1) ['a', ',', 'b'] 5004 5004 false none World.init 2
    (by decide) (by decide)
    (by intro i t hi _
        have : i = 0 := by omega
        subst this; rfl)
    (by intro t _; rfl) (by decide)

/-- C4: when the opener succeeds on the request made for each of the N ≥ 1 destinations,
`initialize_network` returns N fresh handles in the order of the destination list; the
endpoint at index `i` is open on destination `i` with the ports that the loop computes for
that index (`port_at`), which are the ports of the allocation rule (`port_rule`) whenever
the ports fit a C `int`, and the registry receives the identifier of each of the N handles,
in order. Nothing is assumed on `rtp_set_recv_buf`. -/
theorem C4_open_all_destinations (env : Env) (addrs : CStr)
    (recv_port_base send_port_base : Int) (use_ipv6 : Bool) (mcast_if : Option CStr) (w : World)
    (hne : destinations addrs ≠ [])
    (hok : ∀ i t, (destinations addrs)[i]? = some t →
      env.rtp_init_if_ok (w.rtp_calls + i)
        (request_at recv_port_base send_port_base use_ipv6 mcast_if i t) = true) :
    (initialize_network env addrs recv_port_base send_port_base use_ipv6 mcast_if w).1
        = Outcome.returned (some (List.range' w.rtp_calls (destinations addrs).length)) ∧
      (initialize_network env addrs recv_port_base send_port_base use_ipv6 mcast_if w).2.live
        = w.live ++ (List.range (destinations addrs).length).map
            (fun i => (⟨w.rtp_calls + i, (destinations addrs)[i]?,
              port_at recv_port_base i, port_at send_port_base i⟩ : Endpoint)) ∧
      (initialize_network env addrs recv_port_base send_port_base use_ipv6 mcast_if w).2.registry
        = w.registry ++
            (List.range' w.rtp_calls (destinations addrs).length).map env.rtp_my_ssrc ∧
      (ports_fit recv_port_base (destinations addrs).length →
        ports_fit send_port_base (destinations addrs).length →
        (initialize_network env addrs recv_port_base send_port_base use_ipv6 mcast_if w).2.live
          = w.live ++ (List.range (destinations addrs).length).map
              (fun i => (⟨w.rtp_calls + i, (destinations addrs)[i]?,
                port_rule recv_port_base i, port_rule send_port_base i⟩ : Endpoint))) := by
  obtain ⟨h1, h2⟩ := initialize_network_all_ok env addrs recv_port_base send_port_base use_ipv6
    mcast_if w hne hok
  have hlive : (initialize_network env addrs recv_port_base send_port_base use_ipv6 mcast_if
      w).2.live = w.live ++ (List.range (destinations addrs).length).map
        (fun i => (⟨w.rtp_calls + i, (destinations addrs)[i]?,
          port_at recv_port_base i, port_at send_port_base i⟩ : Endpoint)) := by
    rw [h2.live_eq, expected_endpoints_eq_map]
    simp
  refine ⟨h1, hlive, h2.registry_eq, ?_⟩
  intro hrecv hsend
  rw [hlive]
  congr 1
  apply List.map_congr_left
  intro i hi
  rw [List.mem_range] at hi
  rw [port_at_eq_port_rule _ _ hrecv i hi, port_at_eq_port_rule _ _ hsend i hi]

/-- C4 witness: the destinations `a,b` with every `rtp_set_recv_buf` failing; the bases
5004 and 6004 fit, and the two endpoints are open on (5004,6004) and (5008,6008). -/
theorem C4_open_all_destinations_witness :
    (ports_fit 5004 (destinations ['a', ',', 'b']).length ∧
      ports_fit 6004 (destinations ['a', ',', 'b']).length ∧
      (initialize_network (env_small_buf) ['a', ',', 'b'] 5004 6004 false none World.init).2.live
        = [⟨0, some ['a'], 5004, 6004⟩, ⟨1, some ['b'], 5008, 6008⟩]) ∧
    ((initialize_network (env_small_buf) ['a', ',', 'b'] 5004 6004 false none World.init).1
        = Outcome.returned (some (List.range' World.init.rtp_calls
            (destinations ['a', ',', 'b']).length)) ∧
      (initialize_network (env_small_buf) ['a', ',', 'b'] 5004 6004 false none World.init).2.live
        = World.init.live ++ (List.range (destinations ['a', ',', 'b']).length).map
            (fun i => (⟨World.init.rtp_calls + i, (destinations ['a', ',', 'b'])[i]?,
              port_at 5004 i, port_at 6004 i⟩ : Endpoint)) ∧
      (initialize_network (env_small_buf) ['a', ',', 'b'] 5004 6004 false none
          World.init).2.registry
        = World.init.registry ++
            (List.range' World.init.rtp_calls (destinations ['a', ',', 'b']).length).map
              (env_small_buf).rtp_my_ssrc ∧
      (ports_fit 5004 (destinations ['a', ',', 'b']).length →
        ports_fit 6004 (destinations ['a', ',', 'b']).length →
        (initialize_network (env_small_buf) ['a', ',', 'b'] 5004 6004 false none
            World.init).2.live
          = World.init.live ++ (List.range (destinations ['a', ',', 'b']).length).map
              (fun i => (⟨World.init.rtp_calls + i, (destinations ['a', ',', 'b'])[i]?,
                port_rule 5004 i, port_rule 6004 i⟩ : Endpoint)))) :=
  ⟨by decide,
   C4_open_all_destinations (env_small_buf) ['a', ',', 'b'] 5004 6004 false none World.init
     (by decide)
     (by intro i t _; rfl)⟩

/-- C5: an address string without destination, empty or made of commas only, makes
`initialize_network` return failure with the collaborators untouched: no `rtp_init_if`
call, no registry entry. -/
theorem C5_no_destination (env : Env) (addrs : CStr) (recv_port_base send_port_base : Int)
    (use_ipv6 : Bool) (mcast_if : Option CStr) (w : World) (h : ∀ c ∈ addrs, c = ',') :
    initialize_network env addrs recv_port_base send_port_base use_ipv6 mcast_if w
      = (Outcome.returned none, w) := by
  apply initialize_network_no_token
  rw [strtok_r_all_delims addrs [','] (by intro c hc; simp [h c hc])]

/-- C5 witness: the string `,,`. -/
theorem C5_no_destination_witness :
    initialize_network env_ok [',', ','] 5004 5004 false none World.init
      = (Outcome.returned none, World.init) :=
  C5_no_destination env_ok [',', ','] 5004 5004 false none World.init (by decide)

/-- C6: in every state of a constructed session, when the opener succeeds on the request
made for each destination the message change-send-port(p) returns normally, has closed each
endpoint of the old set, and leaves in `m_network_devices` and in the collaborators exactly
what `initialize_network` produces for the stored destination string, the stored receive
base and the send base `p`: one fresh endpoint per destination, as many as before, receive
ports unchanged, send ports those that the loop computes from `p` (`port_at`), which are the
ports of the allocation rule from `p` (`port_rule`) whenever the ports fit a C `int`, and
`m_send_port_number = p`. -/
theorem C6_change_tx_port_reopens (env : Env) (a : CtorArgs) (s : Session) (w : World)
    (p : Int) (hr : Reachable env a s w)
    (hok : ∀ i t, (destinations s.m_requested_receiver)[i]? = some t →
      env.rtp_init_if_ok (w.rtp_calls + i)
        (request_at s.m_recv_port_number p s.m_ipv6 s.m_requested_mcast_if i t) = true) :
    (process_message env s w (Msg.SENDER_MSG_CHANGE_PORT p)).1 = Outcome.returned () ∧
    closed (process_message env s w (Msg.SENDER_MSG_CHANGE_PORT p)).2.2
      = closed w ++ w.live.map Endpoint.handle ∧
    initialize_network env s.m_requested_receiver s.m_recv_port_number p s.m_ipv6
        s.m_requested_mcast_if (destroy_rtp_devices w s.m_network_devices)
      = (Outcome.returned
          (process_message env s w (Msg.SENDER_MSG_CHANGE_PORT p)).2.1.m_network_devices,
         (process_message env s w (Msg.SENDER_MSG_CHANGE_PORT p)).2.2) ∧
    (process_message env s w (Msg.SENDER_MSG_CHANGE_PORT p)).2.1.m_network_devices
      = some (List.range' w.rtp_calls w.live.length) ∧
    (process_message env s w (Msg.SENDER_MSG_CHANGE_PORT p)).2.2.live
      = (List.range w.live.length).map
          (fun i => (⟨w.rtp_calls + i, (destinations s.m_requested_receiver)[i]?,
            port_at s.m_recv_port_number i, port_at p i⟩ : Endpoint)) ∧
    (process_message env s w (Msg.SENDER_MSG_CHANGE_PORT p)).2.2.live.map Endpoint.rx_port
      = w.live.map Endpoint.rx_port ∧
    (process_message env s w (Msg.SENDER_MSG_CHANGE_PORT p)).2.1.m_send_port_number = p ∧
    (ports_fit s.m_recv_port_number w.live.length → ports_fit p w.live.length →
      (process_message env s w (Msg.SENDER_MSG_CHANGE_PORT p)).2.2.live
        = (List.range w.live.length).map
            (fun i => (⟨w.rtp_calls + i, (destinations s.m_requested_receiver)[i]?,
              port_rule s.m_recv_port_number i, port_rule p i⟩ : Endpoint))) := by
  have hopen := reachable_session_open env a s w hr
  have hcalls : (destroy_rtp_devices w s.m_network_devices).rtp_calls = w.rtp_calls := by
    rw [hopen.devices_eq]; exact rollback_devices_rtp_calls w _
  have hclosed : closed (destroy_rtp_devices w s.m_network_devices)
      = closed w ++ w.live.map Endpoint.handle := by
    rw [hopen.devices_eq]; exact closed_rollback w _
  have hlive := destroy_rtp_devices_live_eq_nil s w hopen.devices_eq
  obtain ⟨h1, h2⟩ := initialize_network_all_ok env s.m_requested_receiver s.m_recv_port_number p
    s.m_ipv6 s.m_requested_mcast_if (destroy_rtp_devices w s.m_network_devices) hopen.nonempty
    (by rw [hcalls]; exact hok)
  rw [hcalls, ← hopen.dests_eq] at h1
  have hpm : process_message env s w (Msg.SENDER_MSG_CHANGE_PORT p) = _ :=
    change_tx_port_of_some env s w p _ h1
  have e2 := h2.live_eq
  rw [hlive, hcalls, expected_endpoints_eq_map, ← hopen.dests_eq] at e2
  simp only [List.nil_append, Nat.zero_add] at e2
  rw [hpm]
  refine ⟨rfl, ?_, ?_, rfl, e2, ?_, rfl, ?_⟩
  · rw [h2.closed_eq, hclosed]
  · rw [← h1]
  · show List.map Endpoint.rx_port (initialize_network env s.m_requested_receiver
      s.m_recv_port_number p s.m_ipv6 s.m_requested_mcast_if
      (destroy_rtp_devices w s.m_network_devices)).2.live = _
    rw [e2, hopen.rx_eq, List.map_map]
    rfl
  · intro hrecv hsend
    show (initialize_network env s.m_requested_receiver
      s.m_recv_port_number p s.m_ipv6 s.m_requested_mcast_if
      (destroy_rtp_devices w s.m_network_devices)).2.live = _
    rw [e2]
    apply List.map_congr_left
    intro i hi
    rw [List.mem_range] at hi
    rw [port_at_eq_port_rule _ _ hrecv i hi, port_at_eq_port_rule _ _ hsend i hi]

/-- C6 witness: the session towards `a,b` (bases 5004/5004) receives change-send-port(6000);
the bases 5004 and 6000 fit, and the two new endpoints are open on (5004,6000) and
(5008,6004). -/
theorem C6_change_tx_port_reopens_witness :
    (ports_fit session_ab.m_recv_port_number world_ab.live.length ∧
      ports_fit 6000 world_ab.live.length ∧
      (process_message env_ok session_ab world_ab (Msg.SENDER_MSG_CHANGE_PORT 6000)).2.2.live
        = [⟨2, some ['a'], 5004, 6000⟩, ⟨3, some ['b'], 5008, 6004⟩]) ∧
    ((process_message env_ok session_ab world_ab (Msg.SENDER_MSG_CHANGE_PORT 6000)).1
      = Outcome.returned () ∧
    closed (process_message env_ok session_ab world_ab (Msg.SENDER_MSG_CHANGE_PORT 6000)).2.2
      = closed world_ab ++ world_ab.live.map Endpoint.handle ∧
    initialize_network env_ok session_ab.m_requested_receiver session_ab.m_recv_port_number 6000
        session_ab.m_ipv6 session_ab.m_requested_mcast_if
        (destroy_rtp_devices world_ab session_ab.m_network_devices)
      = (Outcome.returned (process_message env_ok session_ab world_ab
            (Msg.SENDER_MSG_CHANGE_PORT 6000)).2.1.m_network_devices,
         (process_message env_ok session_ab world_ab (Msg.SENDER_MSG_CHANGE_PORT 6000)).2.2) ∧
    (process_message env_ok session_ab world_ab
        (Msg.SENDER_MSG_CHANGE_PORT 6000)).2.1.m_network_devices
      = some (List.range' world_ab.rtp_calls world_ab.live.length) ∧
    (process_message env_ok session_ab world_ab (Msg.SENDER_MSG_CHANGE_PORT 6000)).2.2.live
      = (List.range world_ab.live.length).map
          (fun i => (⟨world_ab.rtp_calls + i, (destinations session_ab.m_requested_receiver)[i]?,
            port_at session_ab.m_recv_port_number i, port_at 6000 i⟩ : Endpoint)) ∧
    (process_message env_ok session_ab world_ab
        (Msg.SENDER_MSG_CHANGE_PORT 6000)).2.2.live.map Endpoint.rx_port
      = world_ab.live.map Endpoint.rx_port ∧
    (process_message env_ok session_ab world_ab
        (Msg.SENDER_MSG_CHANGE_PORT 6000)).2.1.m_send_port_number = 6000 ∧
    (ports_fit session_ab.m_recv_port_number world_ab.live.length →
      ports_fit 6000 world_ab.live.length →
      (process_message env_ok session_ab world_ab (Msg.SENDER_MSG_CHANGE_PORT 6000)).2.2.live
        = (List.range world_ab.live.length).map
            (fun i => (⟨world_ab.rtp_calls + i,
              (destinations session_ab.m_requested_receiver)[i]?,
              port_rule session_ab.m_recv_port_number i, port_rule 6000 i⟩ : Endpoint)))) :=
  ⟨by decide,
   C6_change_tx_port_reopens env_ok args_ab session_ab world_ab 6000
     (Reachable.ctor session_ab_constructed) (by intro i t _; rfl)⟩

/-- C7 (defect of the code): on the session towards `a,b`, change-send-port(6000) with an
opener that fails on `a` does not throw. `initialize_network` stores through the NULL
`devices` after its rollback, so no exception reaches the caller; `m_network_devices`
still holds the handles 0 and 1 that `destroy_rtp_devices` has closed, and the endpoint
just opened for `b` stays open. -/
theorem C7_failed_reopen_does_not_throw :
    (process_message (env_fail_at 2) session_ab world_ab (Msg.SENDER_MSG_CHANGE_PORT 6000)).1
      = Outcome.fault ∧
    (process_message (env_fail_at 2) session_ab world_ab
        (Msg.SENDER_MSG_CHANGE_PORT 6000)).2.1.m_network_devices = some [0, 1] ∧
    closed (process_message (env_fail_at 2) session_ab world_ab
        (Msg.SENDER_MSG_CHANGE_PORT 6000)).2.2 = [0, 1] ∧
    (process_message (env_fail_at 2) session_ab world_ab
        (Msg.SENDER_MSG_CHANGE_PORT 6000)).2.2.live = [⟨3, some ['b'], 5008, 6004⟩] := by
  decide

/-- C8 (the claim fails): the session towards `a,b`, after one change-send-port(6000) with
every call succeeding, is a reachable state in which endpoint 0 has been closed, is not
open any more, and its identifier 1000 is still in the registry. -/
theorem C8_counterexample :
    Reachable env_ok args_ab after_port_ab.2.1 after_port_ab.2.2 ∧
      0 ∈ closed after_port_ab.2.2 ∧
      (∀ e ∈ after_port_ab.2.2.live, e.handle ≠ 0) ∧
      env_ok.rtp_my_ssrc 0 ∈ after_port_ab.2.2.registry :=
  ⟨Reachable.step (Msg.SENDER_MSG_CHANGE_PORT 6000) (Reachable.ctor session_ab_constructed)
      (by decide),
   by decide, by decide, by decide⟩

/-- C8 (amended): in every state reachable from a constructed session by control messages,
with distinct identifiers for distinct endpoints, every open endpoint has exactly one
registry record, and the registry is the list of the identifiers of all the endpoints ever
opened for the session, in opening order: the records of the endpoints that
change-send-port has closed stay in it. -/
theorem C8_registry_of_reachable (env : Env) (a : CtorArgs) (s : Session) (w : World)
    (hinj : Function.Injective env.rtp_my_ssrc) (hr : Reachable env a s w) :
    (∀ e ∈ w.live, w.registry.count (env.rtp_my_ssrc e.handle) = 1) ∧
      w.registry = (opened w).map env.rtp_my_ssrc := by
  have hinv := reachable_registry_inv env a s w hr
  refine ⟨?_, hinv.registry_eq⟩
  intro e he
  rw [hinv.registry_eq, List.count_map_of_injective _ _ hinj]
  exact List.count_eq_one_of_mem hinv.opened_nodup (hinv.live_opened e he)

/-- C8 witness: the session towards `a,b` after change-send-port(6000). -/
theorem C8_registry_of_reachable_witness :
    (∀ e ∈ after_port_ab.2.2.live,
        after_port_ab.2.2.registry.count (env_ok.rtp_my_ssrc e.handle) = 1) ∧
      after_port_ab.2.2.registry = (opened after_port_ab.2.2).map env_ok.rtp_my_ssrc :=
  C8_registry_of_reachable env_ok args_ab after_port_ab.2.1 after_port_ab.2.2
    (fun x y h => Nat.add_left_cancel h)
    (Reachable.step (Msg.SENDER_MSG_CHANGE_PORT 6000) (Reachable.ctor session_ab_constructed)
      (by decide))

/-- C9: in every state of a constructed session with more than one open endpoint,
change-destination fails the assertion `m_connections_count == 1`: the dispatch aborts,
`rtp_change_dest` is not called and the session and the endpoints are as before. -/
theorem C9_change_receiver_rejected (env : Env) (a : CtorArgs) (s : Session) (w : World)
    (receiver : CStr) (hr : Reachable env a s w) (hmany : 1 < w.live.length) :
    process_message env s w (Msg.SENDER_MSG_CHANGE_RECEIVER receiver)
      = (Outcome.aborted, s, w) := by
  have hopen := reachable_session_open env a s w hr
  have hc : ¬ s.m_connections_count = 1 := by
    rw [hopen.count_eq]; omega
  unfold process_message
  simp only [hc, ↓reduceIte]

/-- C9 witness: the session towards `a,b`, two endpoints open. -/
theorem C9_change_receiver_rejected_witness :
    process_message env_ok session_ab world_ab (Msg.SENDER_MSG_CHANGE_RECEIVER ['c'])
      = (Outcome.aborted, session_ab, world_ab) :=
  C9_change_receiver_rejected env_ok args_ab session_ab world_ab ['c']
    (Reachable.ctor session_ab_constructed) (by decide)

/-- C10: in every state of a constructed session, two well-formed change-fec messages in a
row whose constructions succeed each return normally with exactly one live encoder, the
one the session holds: the first message leaves the encoder it built, the second leaves
the encoder it built, and `ldgm_encoder_destroy` has been called on the first encoder
exactly once. -/
theorem C10_two_fec_reconfigurations (env : Env) (a : CtorArgs) (s : Session) (w : World)
    (cfg1 cfg2 : CStr) (hr : Reachable env a s w)
    (hwf1 : ldgm_cfg_well_formed cfg1) (hwf2 : ldgm_cfg_well_formed cfg2)
    (hok1 : env.ldgm_init_ok w.ldgm_calls = true)
    (hok2 : env.ldgm_init_ok (w.ldgm_calls + 1) = true) :
    (process_message env s w (Msg.SENDER_MSG_CHANGE_LDGM cfg1)).1 = Outcome.returned () ∧
    (process_message env s w (Msg.SENDER_MSG_CHANGE_LDGM cfg1)).2.1.m_ldgm_state
      = some w.ldgm_calls ∧
    (process_message env s w (Msg.SENDER_MSG_CHANGE_LDGM cfg1)).2.2.ldgm_live
      = [w.ldgm_calls] ∧
    (process_message env
        (process_message env s w (Msg.SENDER_MSG_CHANGE_LDGM cfg1)).2.1
        (process_message env s w (Msg.SENDER_MSG_CHANGE_LDGM cfg1)).2.2
        (Msg.SENDER_MSG_CHANGE_LDGM cfg2)).1 = Outcome.returned () ∧
    (process_message env
        (process_message env s w (Msg.SENDER_MSG_CHANGE_LDGM cfg1)).2.1
        (process_message env s w (Msg.SENDER_MSG_CHANGE_LDGM cfg1)).2.2
        (Msg.SENDER_MSG_CHANGE_LDGM cfg2)).2.1.m_ldgm_state = some (w.ldgm_calls + 1) ∧
    (process_message env
        (process_message env s w (Msg.SENDER_MSG_CHANGE_LDGM cfg1)).2.1
        (process_message env s w (Msg.SENDER_MSG_CHANGE_LDGM cfg1)).2.2
        (Msg.SENDER_MSG_CHANGE_LDGM cfg2)).2.2.ldgm_live = [w.ldgm_calls + 1] ∧
    (ldgm_destroyed (process_message env
        (process_message env s w (Msg.SENDER_MSG_CHANGE_LDGM cfg1)).2.1
        (process_message env s w (Msg.SENDER_MSG_CHANGE_LDGM cfg1)).2.2
        (Msg.SENDER_MSG_CHANGE_LDGM cfg2)).2.2).count w.ldgm_calls = 1 := by
  have hown := (reachable_ldgm_inv env a s w hr).own
  have hknown := (reachable_ldgm_inv env a s w hr).known
  obtain ⟨a1, a2, a3, a4, a5⟩ := change_ldgm_step env s w cfg1 hown hwf1 hok1
  obtain ⟨b1, b2, b3, b4, b5⟩ := change_ldgm_step env
    (process_message env s w (Msg.SENDER_MSG_CHANGE_LDGM cfg1)).2.1
    (process_message env s w (Msg.SENDER_MSG_CHANGE_LDGM cfg1)).2.2 cfg2
    (by rw [a3, a2]; rfl) hwf2 (by rw [a4]; exact hok2)
  rw [a4] at b3 b2
  refine ⟨a1, by rw [a2], a3, b1, by rw [b2], b3, ?_⟩
  rw [b5, a5, a2]
  have h1 : (ldgm_destroyed w).count w.ldgm_calls = 0 := by
    rw [List.count_eq_zero]
    intro hm
    exact absurd (hknown _ (Or.inl hm)) (Nat.lt_irrefl _)
  have h2 : (s.m_ldgm_state.toList).count w.ldgm_calls = 0 := by
    rw [List.count_eq_zero]
    intro hm
    rw [← hown] at hm
    exact absurd (hknown _ (Or.inr hm)) (Nat.lt_irrefl _)
  simp [List.count_append, h1, h2]

/-- C10 witness: the new session towards `a` receives `percents 1500 1450 5.0`, then
`cfg myprofile`. -/
theorem C10_two_fec_reconfigurations_witness :
    (process_message env_ok session_a world_a
      (Msg.SENDER_MSG_CHANGE_LDGM "percents 1500 1450 5.0".toList)).1 = Outcome.returned () ∧
    (process_message env_ok session_a world_a
      (Msg.SENDER_MSG_CHANGE_LDGM "percents 1500 1450 5.0".toList)).2.1.m_ldgm_state
      = some world_a.ldgm_calls ∧
    (process_message env_ok session_a world_a
      (Msg.SENDER_MSG_CHANGE_LDGM "percents 1500 1450 5.0".toList)).2.2.ldgm_live
      = [world_a.ldgm_calls] ∧
    (process_message env_ok
        (process_message env_ok session_a world_a
          (Msg.SENDER_MSG_CHANGE_LDGM "percents 1500 1450 5.0".toList)).2.1
        (process_message env_ok session_a world_a
          (Msg.SENDER_MSG_CHANGE_LDGM "percents 1500 1450 5.0".toList)).2.2
        (Msg.SENDER_MSG_CHANGE_LDGM "cfg myprofile".toList)).1 = Outcome.returned () ∧
    (process_message env_ok
        (process_message env_ok session_a world_a
          (Msg.SENDER_MSG_CHANGE_LDGM "percents 1500 1450 5.0".toList)).2.1
        (process_message env_ok session_a world_a
          (Msg.SENDER_MSG_CHANGE_LDGM "percents 1500 1450 5.0".toList)).2.2
        (Msg.SENDER_MSG_CHANGE_LDGM "cfg myprofile".toList)).2.1.m_ldgm_state
      = some (world_a.ldgm_calls + 1) ∧
    (process_message env_ok
        (process_message env_ok session_a world_a
          (Msg.SENDER_MSG_CHANGE_LDGM "percents 1500 1450 5.0".toList)).2.1
        (process_message env_ok session_a world_a
          (Msg.SENDER_MSG_CHANGE_LDGM "percents 1500 1450 5.0".toList)).2.2
        (Msg.SENDER_MSG_CHANGE_LDGM "cfg myprofile".toList)).2.2.ldgm_live
      = [world_a.ldgm_calls + 1] ∧
    (ldgm_destroyed (process_message env_ok
        (process_message env_ok session_a world_a
          (Msg.SENDER_MSG_CHANGE_LDGM "percents 1500 1450 5.0".toList)).2.1
        (process_message env_ok session_a world_a
          (Msg.SENDER_MSG_CHANGE_LDGM "percents 1500 1450 5.0".toList)).2.2
        (Msg.SENDER_MSG_CHANGE_LDGM "cfg myprofile".toList)).2.2).count world_a.ldgm_calls
      = 1 :=
  C10_two_fec_reconfigurations env_ok args_a session_a world_a "percents 1500 1450 5.0".toList
    "cfg myprofile".toList (Reachable.ctor session_a_constructed)
    (Or.inl ⟨by decide, by decide⟩) (Or.inr (by decide)) rfl rfl

/-- C11 (the claim fails): the session towards `a` holds the encoder 0 after the message
`percents 1500 1450 5.0`. The malformed message `bogus` then destroys the encoder 0 and
aborts in the parser: in the state the dispatcher leaves, `m_ldgm_state` still holds the
handle 0, which has been destroyed. -/
theorem C11_counterexample :
    Reachable env_ok args_a after_percents_a.2.1 after_percents_a.2.2 ∧
      after_percents_a.2.1.m_ldgm_state = some 0 ∧
      (process_message env_ok after_percents_a.2.1 after_percents_a.2.2
        (Msg.SENDER_MSG_CHANGE_LDGM "bogus".toList)).1 = Outcome.aborted ∧
      (process_message env_ok after_percents_a.2.1 after_percents_a.2.2
        (Msg.SENDER_MSG_CHANGE_LDGM "bogus".toList)).2.1.m_ldgm_state = some 0 ∧
      0 ∈ ldgm_destroyed (process_message env_ok after_percents_a.2.1 after_percents_a.2.2
        (Msg.SENDER_MSG_CHANGE_LDGM "bogus".toList)).2.2 :=
  ⟨Reachable.step (Msg.SENDER_MSG_CHANGE_LDGM "percents 1500 1450 5.0".toList)
      (Reachable.ctor session_a_constructed) (by decide),
   by decide, by decide, by decide, by decide⟩

/-- C11 (amended): for every change-fec dispatch on a constructed session that holds an
encoder `h`, the first call the dispatch makes is `ldgm_encoder_destroy h`, so that every
constructor call of the dispatch comes after it, and no other encoder is destroyed; and
whenever the dispatch returns, whether the construction succeeded or not, `m_ldgm_state`
holds no handle that has been destroyed. -/
theorem C11_destroy_before_construct (env : Env) (a : CtorArgs) (s : Session) (w : World)
    (ldgm_cfg : CStr) (h : Handle) (hr : Reachable env a s w) (hs : s.m_ldgm_state = some h) :
    (∃ rest, (process_message env s w (Msg.SENDER_MSG_CHANGE_LDGM ldgm_cfg)).2.2.trace
        = w.trace ++ Event.ldgm_encoder_destroy h :: rest ∧
      ∀ e ∈ rest, ∀ x, e ≠ Event.ldgm_encoder_destroy x) ∧
    ((process_message env s w (Msg.SENDER_MSG_CHANGE_LDGM ldgm_cfg)).1 = Outcome.returned () →
      ∀ e, (process_message env s w (Msg.SENDER_MSG_CHANGE_LDGM ldgm_cfg)).2.1.m_ldgm_state
          = some e →
        e ∉ ldgm_destroyed (process_message env s w (Msg.SENDER_MSG_CHANGE_LDGM ldgm_cfg)).2.2) := by
  have hinv := reachable_ldgm_inv env a s w hr
  have htr := after_ldgm_destroy_trace s w
  have hcalls := after_ldgm_destroy_ldgm_calls s w
  have hd := ldgm_destroyed_append w _ _ htr
  rw [hs] at htr hd
  simp only [Option.toList_some, List.map_cons, List.map_nil, List.filterMap_cons,
    List.filterMap_nil] at htr hd
  have hk : ∀ x ∈ ldgm_destroyed (after_ldgm_destroy s w), x < w.ldgm_calls := by
    intro x hx
    rw [hd, List.mem_append, List.mem_singleton] at hx
    rcases hx with hx | hx
    · exact hinv.known x (Or.inl hx)
    · refine hinv.known x (Or.inr ?_)
      rw [hinv.own, hs, hx]
      simp
  rcases change_ldgm_cases env s w ldgm_cfg with hab | ⟨ev, hev, hst⟩
  · rw [hab]
    refine ⟨⟨[], by rw [htr], by simp⟩, ?_⟩
    intro hret
    cases hret
  · rw [hst]
    refine ⟨⟨if env.ldgm_init_ok (after_ldgm_destroy s w).ldgm_calls then
        [ev (some (after_ldgm_destroy s w).ldgm_calls)]
      else [ev none, Event.exit_uv 1], ?_, ?_⟩, ?_⟩
    · rw [store_construct_trace, htr, List.append_assoc]; rfl
    · intro e he x
      split at he
      · rw [List.mem_singleton] at he
        rw [he]; exact hev _ _
      · simp only [List.mem_cons, List.mem_singleton, List.not_mem_nil, or_false] at he
        rcases he with he | he
        · rw [he]; exact hev _ _
        · rw [he]; simp
    · intro _ e he hmem
      have h1 := store_construct_field env s _ ev e he
      rw [store_construct_destroyed env s _ ev hev] at hmem
      have h2 := hk e hmem
      rw [h1, hcalls] at h2
      exact Nat.lt_irrefl _ h2

/-- C11 witness: the session towards `a` that holds the encoder built for
`percents 1500 1450 5.0` receives `cfg myprofile`. -/
theorem C11_destroy_before_construct_witness :
    (∃ rest, (process_message env_ok after_percents_a.2.1 after_percents_a.2.2
          (Msg.SENDER_MSG_CHANGE_LDGM "cfg myprofile".toList)).2.2.trace
        = after_percents_a.2.2.trace ++ Event.ldgm_encoder_destroy 0 :: rest ∧
      ∀ e ∈ rest, ∀ x, e ≠ Event.ldgm_encoder_destroy x) ∧
    ((process_message env_ok after_percents_a.2.1 after_percents_a.2.2
          (Msg.SENDER_MSG_CHANGE_LDGM "cfg myprofile".toList)).1 = Outcome.returned () →
      ∀ e, (process_message env_ok after_percents_a.2.1 after_percents_a.2.2
          (Msg.SENDER_MSG_CHANGE_LDGM "cfg myprofile".toList)).2.1.m_ldgm_state = some e →
        e ∉ ldgm_destroyed (process_message env_ok after_percents_a.2.1 after_percents_a.2.2
          (Msg.SENDER_MSG_CHANGE_LDGM "cfg myprofile".toList)).2.2) :=
  C11_destroy_before_construct env_ok args_a after_percents_a.2.1 after_percents_a.2.2
    "cfg myprofile".toList 0
    (Reachable.step (Msg.SENDER_MSG_CHANGE_LDGM "percents 1500 1450 5.0".toList)
      (Reachable.ctor session_a_constructed) (by decide))
    (by decide)

/-- C12 (the claim fails): in `percents 1500<TAB>1450<TAB>5.0` three white-space separated
items follow the prefix, but the code splits on the space character only: it finds one
item, the second `strtok_r` returns NULL, the assertion fails and no constructor is
called. -/
theorem C12_counterexample :
    whitespace_tokens "1500\t1450\t5.0".toList
        = ["1500".toList, "1450".toList, "5.0".toList] ∧
      process_message env_ok session_a world_a
          (Msg.SENDER_MSG_CHANGE_LDGM (PERCENTS ++ "1500\t1450\t5.0".toList))
        = (Outcome.aborted, session_a, world_a) := by
  decide

/-- C12 (amended): for every string `percents ` followed by three items `m`, `p`, `l`
separated by space characters, the dispatcher calls `ldgm_encoder_init_with_param` with the
C `int` values `atoi m` and `atoi p` and the `double` that `atof` gives for `l`, on the
collaborators in which the old encoder, if any, has been destroyed; for every string `cfg `
followed by `profile` it calls `ldgm_encoder_init_with_cfg` with `profile` unmodified. -/
theorem C12_constructor_arguments (env : Env) (s : Session) (w : World)
    (rest m p l profile : CStr) (ht : tokens ' ' rest = [m, p, l]) :
    process_message env s w (Msg.SENDER_MSG_CHANGE_LDGM (PERCENTS ++ rest))
        = store_ldgm_state s
            (ldgm_encoder_init_with_param env (after_ldgm_destroy s w) (atoi m) (atoi p)
              (env.atof l)) ∧
      process_message env s w (Msg.SENDER_MSG_CHANGE_LDGM (CFG ++ profile))
        = store_ldgm_state s
            (ldgm_encoder_init_with_cfg env (after_ldgm_destroy s w) profile) := by
  constructor
  · have h := change_ldgm_percents env s w (PERCENTS ++ rest) m p l []
      (List.take_left' rfl) (by rw [List.drop_left' rfl]; exact ht)
    exact h
  · have h := change_ldgm_cfg env s w (CFG ++ profile) (List.take_left' rfl)
    rw [List.drop_left' rfl] at h
    exact h

/-- C12 witness: `percents 1500 1450 5.0` and `cfg myprofile` on the new session towards
`a`; the constructor receives the integers 1500 and 1450 and the `double` 5.0, as the call
recorded in the trace shows. -/
theorem C12_constructor_arguments_witness :
    (atoi "1500".toList = 1500 ∧ atoi "1450".toList = 1450 ∧
      env_ok.atof "5.0".toList = ⟨4617315517961601024⟩ ∧
      (process_message env_ok session_a world_a
          (Msg.SENDER_MSG_CHANGE_LDGM (PERCENTS ++ "1500 1450 5.0".toList))).2.2.trace
        = world_a.trace ++
            [Event.ldgm_encoder_init_with_param 1500 1450 ⟨4617315517961601024⟩ (some 0)]) ∧
    (process_message env_ok session_a world_a
          (Msg.SENDER_MSG_CHANGE_LDGM (PERCENTS ++ "1500 1450 5.0".toList))
        = store_ldgm_state session_a
            (ldgm_encoder_init_with_param env_ok (after_ldgm_destroy session_a world_a)
              (atoi "1500".toList) (atoi "1450".toList) (env_ok.atof "5.0".toList)) ∧
      process_message env_ok session_a world_a
          (Msg.SENDER_MSG_CHANGE_LDGM (CFG ++ "myprofile".toList))
        = store_ldgm_state session_a
            (ldgm_encoder_init_with_cfg env_ok (after_ldgm_destroy session_a world_a)
              "myprofile".toList)) :=
  ⟨by decide,
   C12_constructor_arguments env_ok session_a world_a "1500 1450 5.0".toList "1500".toList
     "1450".toList "5.0".toList "myprofile".toList (by decide)⟩

/-- C13 (the claim fails): in `percents 1500 <TAB> <TAB>` one white-space separated item
follows the prefix, fewer than three, but the code splits on the space character only: it
finds the three items `1500`, `<TAB>` and `<TAB>`, and calls the constructor with the
integers 1500 and 0 and the `double` that `atof` gives for `<TAB>`; the message is not
rejected. -/
theorem C13_counterexample :
    "percents 1500 \t \t".toList.take PERCENTS.length = PERCENTS ∧
      whitespace_tokens ("percents 1500 \t \t".toList.drop PERCENTS.length)
        = ["1500".toList] ∧
      tokens ' ' ("percents 1500 \t \t".toList.drop PERCENTS.length)
        = ["1500".toList, "\t".toList, "\t".toList] ∧
      (process_message env_ok session_a world_a
        (Msg.SENDER_MSG_CHANGE_LDGM "percents 1500 \t \t".toList)).1 = Outcome.returned () ∧
      (process_message env_ok session_a world_a
        (Msg.SENDER_MSG_CHANGE_LDGM "percents 1500 \t \t".toList)).2.2.ldgm_calls
        = world_a.ldgm_calls + 1 ∧
      (process_message env_ok session_a world_a
        (Msg.SENDER_MSG_CHANGE_LDGM "percents 1500 \t \t".toList)).2.2.trace
        = world_a.trace ++ [Event.ldgm_encoder_init_with_param 1500 0 ⟨0⟩ (some 0)] := by
  decide

/-- C13 (amended): a change-fec string that begins with neither `percents ` nor `cfg `
(compared character by character, so `Percents ` does not match), or that begins with
`percents ` and carries fewer than three items separated by space characters, makes the
dispatcher abort. No constructor is called: the only call made is the destruction of the
old encoder, if the session held one. -/
theorem C13_malformed_rejected (env : Env) (s : Session) (w : World) (ldgm_cfg : CStr)
    (hmal : (ldgm_cfg.take PERCENTS.length ≠ PERCENTS ∧ ldgm_cfg.take CFG.length ≠ CFG) ∨
      (ldgm_cfg.take PERCENTS.length = PERCENTS ∧
        (tokens ' ' (ldgm_cfg.drop PERCENTS.length)).length < 3)) :
    (process_message env s w (Msg.SENDER_MSG_CHANGE_LDGM ldgm_cfg)).1 = Outcome.aborted ∧
      (process_message env s w (Msg.SENDER_MSG_CHANGE_LDGM ldgm_cfg)).2.1 = s ∧
      (process_message env s w (Msg.SENDER_MSG_CHANGE_LDGM ldgm_cfg)).2.2.trace
        = w.trace ++ s.m_ldgm_state.toList.map Event.ldgm_encoder_destroy ∧
      (process_message env s w (Msg.SENDER_MSG_CHANGE_LDGM ldgm_cfg)).2.2.ldgm_calls
        = w.ldgm_calls := by
  rw [change_ldgm_malformed env s w ldgm_cfg hmal]
  exact ⟨rfl, rfl, after_ldgm_destroy_trace s w, after_ldgm_destroy_ldgm_calls s w⟩

/-- C13 witness: `Percents 1500 1450 5.0`, with a capital letter, on the new session
towards `a`. -/
theorem C13_malformed_rejected_witness :
    (process_message env_ok session_a world_a
        (Msg.SENDER_MSG_CHANGE_LDGM "Percents 1500 1450 5.0".toList)).1 = Outcome.aborted ∧
      (process_message env_ok session_a world_a
        (Msg.SENDER_MSG_CHANGE_LDGM "Percents 1500 1450 5.0".toList)).2.1 = session_a ∧
      (process_message env_ok session_a world_a
        (Msg.SENDER_MSG_CHANGE_LDGM "Percents 1500 1450 5.0".toList)).2.2.trace
        = world_a.trace ++ session_a.m_ldgm_state.toList.map Event.ldgm_encoder_destroy ∧
      (process_message env_ok session_a world_a
        (Msg.SENDER_MSG_CHANGE_LDGM "Percents 1500 1450 5.0".toList)).2.2.ldgm_calls
        = world_a.ldgm_calls :=
  C13_malformed_rejected env_ok session_a world_a "Percents 1500 1450 5.0".toList
    (Or.inl ⟨by decide, by decide⟩)

/-- C14: in every state of a constructed session, a well-formed change-fec message whose
constructor returns no handle ends with the call `exit_uv(1)`, which leaves the shutdown
status 1 raised; the session then holds no encoder (`m_ldgm_state` is NULL and no encoder
is live). The dispatcher returns to its caller only after that call. -/
theorem C14_construction_failure_is_fatal (env : Env) (a : CtorArgs) (s : Session) (w : World)
    (ldgm_cfg : CStr) (hr : Reachable env a s w) (hwf : ldgm_cfg_well_formed ldgm_cfg)
    (hfail : env.ldgm_init_ok w.ldgm_calls = false) :
    (process_message env s w (Msg.SENDER_MSG_CHANGE_LDGM ldgm_cfg)).1 = Outcome.returned () ∧
      (process_message env s w (Msg.SENDER_MSG_CHANGE_LDGM ldgm_cfg)).2.1.m_ldgm_state = none ∧
      (process_message env s w (Msg.SENDER_MSG_CHANGE_LDGM ldgm_cfg)).2.2.ldgm_live = [] ∧
      (process_message env s w (Msg.SENDER_MSG_CHANGE_LDGM ldgm_cfg)).2.2.should_exit = some 1 ∧
      (process_message env s w (Msg.SENDER_MSG_CHANGE_LDGM ldgm_cfg)).2.2.trace.getLast?
        = some (Event.exit_uv 1) := by
  obtain ⟨ev, _, heq⟩ := change_ldgm_well_formed env s w ldgm_cfg hwf
  have hinv := reachable_ldgm_inv env a s w hr
  obtain ⟨d1, d2, _⟩ := hinv.after_destroy
  rw [heq, store_construct_failed env s _ ev (by rw [d2]; exact hfail)]
  refine ⟨rfl, rfl, ?_, rfl, ?_⟩
  · exact d1
  · simp [exit_uv]

/-- C14 witness: `cfg myprofile` on the new session towards `a`, with constructors that
return no handle. -/
theorem C14_construction_failure_is_fatal_witness :
    (process_message env_no_ldgm session_a world_a
        (Msg.SENDER_MSG_CHANGE_LDGM "cfg myprofile".toList)).1 = Outcome.returned () ∧
      (process_message env_no_ldgm session_a world_a
        (Msg.SENDER_MSG_CHANGE_LDGM "cfg myprofile".toList)).2.1.m_ldgm_state = none ∧
      (process_message env_no_ldgm session_a world_a
        (Msg.SENDER_MSG_CHANGE_LDGM "cfg myprofile".toList)).2.2.ldgm_live = [] ∧
      (process_message env_no_ldgm session_a world_a
        (Msg.SENDER_MSG_CHANGE_LDGM "cfg myprofile".toList)).2.2.should_exit = some 1 ∧
      (process_message env_no_ldgm session_a world_a
        (Msg.SENDER_MSG_CHANGE_LDGM "cfg myprofile".toList)).2.2.trace.getLast?
        = some (Event.exit_uv 1) :=
  C14_construction_failure_is_fatal env_no_ldgm args_a session_a world_a
    "cfg myprofile".toList (Reachable.ctor session_a_constructed_no_ldgm)
    (Or.inr (by decide)) rfl

/-- C15: `destroy_rtp_devices` calls `rtp_done` once on each handle of the set, in index
order, and makes no other call: the trace grows by exactly these calls and the endpoints of
the set are no longer open, nothing else changes. On an empty set and on a NULL set it
returns with the collaborators untouched. -/
theorem C15_destroy_rtp_devices (w : World) (devices : List Handle) :
    destroy_rtp_devices w (some devices)
        = { w with trace := w.trace ++ devices.map Event.rtp_done,
                   live := w.live.filter (fun e => !devices.contains e.handle) } ∧
      closed (destroy_rtp_devices w (some devices)) = closed w ++ devices ∧
      destroy_rtp_devices w (some []) = w ∧
      destroy_rtp_devices w none = w := by
  refine ⟨?_, closed_rollback w devices, rfl, rfl⟩
  show devices.foldl rtp_done w = _
  induction devices generalizing w with
  | nil => simp
  | cons d ds ih =>
    rw [List.foldl_cons, ih]
    simp only [rtp_done, List.map_cons, List.append_assoc, List.singleton_append,
      List.filter_filter, World.mk.injEq, true_and, and_true]
    apply List.filter_congr
    intro e _
    by_cases h : e.handle = d <;> simp [h, Bool.and_comm]

/-- C17 (the claim fails): with the destinations `a,b,c` and an opener that fails on `c`,
the endpoints opened for `a` and `b` are the handles 0 and 1, and the rollback closes them
in that order, 0 first and 1 last; the reverse order would be 1, then 0. -/
theorem C17_counterexample :
    (initialize_network (env_fail_at 2) "a,b,c".toList 5004 5004 false none World.init).1
        = Outcome.returned none ∧
      opened (initialize_network (env_fail_at 2) "a,b,c".toList 5004 5004 false none
        World.init).2 = [0, 1] ∧
      closed (initialize_network (env_fail_at 2) "a,b,c".toList 5004 5004 false none
        World.init).2 = [0, 1] := by
  decide

/-- C17 (amended): for every N ≥ 2 and every k in 2..N, when the opener succeeds on the
destinations 1..k-1 and fails on the k-th, `initialize_network` calls `rtp_done` on the k-1
endpoints it had opened in the order of their opening, index 0 first and index k-2 last,
each once, and closes nothing else. The handles of these endpoints are the first k-1 that
`rtp_init_if` returned to the call. -/
theorem C17_rollback_in_opening_order (env : Env) (addrs : CStr)
    (recv_port_base send_port_base : Int) (use_ipv6 : Bool) (mcast_if : Option CStr) (w : World)
    (k : Nat) (hk2 : 2 ≤ k) (hkN : k ≤ (destinations addrs).length)
    (hok : ∀ i t, i < k - 1 → (destinations addrs)[i]? = some t →
      env.rtp_init_if_ok (w.rtp_calls + i)
        (request_at recv_port_base send_port_base use_ipv6 mcast_if i t) = true)
    (hfail : ∀ t, (destinations addrs)[k - 1]? = some t →
      env.rtp_init_if_ok (w.rtp_calls + (k - 1))
        (request_at recv_port_base send_port_base use_ipv6 mcast_if (k - 1) t) = false) :
    closed (initialize_network env addrs recv_port_base send_port_base use_ipv6 mcast_if w).2
        = closed w ++ List.range' w.rtp_calls (k - 1) ∧
      (opened w ++ List.range' w.rtp_calls (k - 1)) <+:
        opened (initialize_network env addrs recv_port_base send_port_base use_ipv6
          mcast_if w).2 :=
  ⟨initialize_network_fail_closed env addrs recv_port_base send_port_base use_ipv6 mcast_if w
      (k - 1) (by omega) hok hfail,
   initialize_network_fail_opened env addrs recv_port_base send_port_base use_ipv6 mcast_if w
      (k - 1) (by omega) hok hfail⟩

/-- C17 witness: the destinations `a,b,c`, the opener failing on the third (k = 3). -/
theorem C17_rollback_in_opening_order_witness :
    closed (initialize_network (env_fail_at 2) "a,b,c".toList 5004 5004 false none
          World.init).2
        = closed World.init ++ List.range' World.init.rtp_calls (3 - 1) ∧
      (opened World.init ++ List.range' World.init.rtp_calls (3 - 1)) <+:
        opened (initialize_network (env_fail_at 2) "a,b,c".toList 5004 5004 false none
          World.init).2 :=
  C17_rollback_in_opening_order (env_fail_at 2) "a,b,c".toList 5004 5004 false none World.init 3
    (by decide) (by decide)
    (by intro i t hi _
        have : i = 0 ∨ i = 1 := by omega
        rcases this with h | h <;> subst h <;> rfl)
    (by intro t _; rfl)

/-- C18 (defect of the code): the first pass counts three destinations in `a,b,c`, but
with an opener that fails on `a` the opening loop does not run three times. Its failure
branch sets `devices` to NULL without leaving the loop, the second iteration calls
`rtp_init_if` for `b` and stores the result through the NULL `devices`, and the loop goes
no further: two calls are made and `c` is never handed to the opener. -/
theorem C18_loop_cut_short :
    count_loop ("a,b,c".toList.length + 1) (strtok_r "a,b,c".toList [',']).2 1 = some 3 ∧
      (destinations "a,b,c".toList).length = 3 ∧
      (initialize_network (env_fail_at 0) "a,b,c".toList 5004 5004 false none World.init).1
        = Outcome.fault ∧
      requests_made (env_fail_at 0) "a,b,c".toList 5004 5004 false none World.init
        = [⟨some "a".toList, none, 5004, 5004, false⟩,
           ⟨some "b".toList, none, 5008, 5008, false⟩] := by
  decide

end UltraGrid
